import Mathlib

/-!
Error classification model of `nespadoni/goerror`.

A shallow embedding of the error model of the repository.

* `GoErro.Errors` embeds `src/errors.go` (package `main`, eleven categories)
  and `CriarErroBancoOperacao` of `src/handlers.go`.
* `GoErro.Goerror` embeds `src/error.go` (package `goerror`, eight categories)
  and the validators of `src/validadores.go`.
* `GoErro.PkgErrors` embeds the struct and wire form of `src/goerror/error.go`.

Go values of type `*ErroAPI` are pointers, and the builder methods mutate
the pointed-to struct in place.  The embedding therefore passes an explicit
heap (a list of structs, an address is an index) through every operation.
A Go `error` interface value is `nil`, a `*ErroAPI` (possibly a nil pointer
boxed in a non-nil interface) or a value of some other dynamic type, of
which only its identity and the string its `Error()` method returns matter.
An operation returns `none` exactly where the Go code panics on a nil
pointer dereference (or would read an address that was never allocated), and
where `Error()` of `src/error.go` follows a cyclic cause chain without end.
`time.Now()` is an input of the constructors (`agora`). The wire form is the
JSON object that `json.Marshal` encodes, as its list of members; where the
encoding can fail (the timestamp of `src/errors.go`) the method returns no
bytes, and whether the library can encode a clock reading is a parameter.
-/

namespace GoErro

/-- Go value of type `*ErroAPI`: the nil pointer or the address of a struct. -/
inductive Ponteiro where
  | nil : Ponteiro
  | addr (a : Nat) : Ponteiro
  deriving DecidableEq, Repr

/-- Go value of interface type `error`. `api p` boxes a `*ErroAPI`;
`outro ident msg` is a value of any other dynamic type, `msg` being what its
`Error()` method returns. -/
inductive Erro where
  | nil : Erro
  | api (p : Ponteiro) : Erro
  | outro (ident : Nat) (msg : String) : Erro
  deriving DecidableEq, Repr

/-- Status constants of `net/http` used by the repository. -/
def StatusBadRequest : Int := 400
def StatusUnauthorized : Int := 401
def StatusForbidden : Int := 403
def StatusNotFound : Int := 404
def StatusMethodNotAllowed : Int := 405
def StatusConflict : Int := 409
def StatusTooManyRequests : Int := 429
def StatusInternalServerError : Int := 500
def StatusServiceUnavailable : Int := 503

/-! ## `src/errors.go` -/

namespace Errors

def TipoValidacao : String := "VALIDATION_ERROR"
def TipoBancoDados : String := "DATABASE_ERROR"
def TipoConexao : String := "CONNECTION_ERROR"
def TipoNaoEncontrado : String := "NOT_FOUND_ERROR"
def TipoAutenticacao : String := "AUTHENTICATION_ERROR"
def TipoAutorizacao : String := "AUTHORIZATION_ERROR"
def TipoConflito : String := "CONFLICT_ERROR"
def TipoInterno : String := "INTERNAL_ERROR"
def TipoLimiteExcedido : String := "RATE_LIMIT_ERROR"
def TipoMetodoInvalido : String := "METHOD_ERROR"
def TipoArquivo : String := "FILE_ERROR"

/-- The struct `ErroAPI` of `src/errors.go`. -/
structure ErroAPI where
  Tipo : String
  Codigo : String
  Mensagem : String
  Detalhes : String
  StatusHTTP : Int
  Timestamp : Nat
  CausaRaiz : Erro
  deriving DecidableEq, Repr

/-- Allocated `ErroAPI` structs; the address of a struct is its index. -/
abbrev Heap := List ErroAPI

/-- Read through a pointer; `none` is the nil-dereference panic. -/
def deref (h : Heap) : Ponteiro → Option ErroAPI
  | Ponteiro.nil => none
  | Ponteiro.addr a => h[a]?

/-- Method `(e *ErroAPI) Error()` on the struct read through `e`. -/
def ErroAPI.Error (e : ErroAPI) : String :=
  if e.Detalhes ≠ "" then
    "[" ++ e.Tipo ++ "] " ++ e.Codigo ++ ": " ++ e.Mensagem ++ " - " ++ e.Detalhes
  else
    "[" ++ e.Tipo ++ "] " ++ e.Codigo ++ ": " ++ e.Mensagem

/-- Dynamic dispatch of `err.Error()` on an interface value. -/
def chamarError (h : Heap) : Erro → Option String
  | Erro.nil => none
  | Erro.api p => (deref h p).map ErroAPI.Error
  | Erro.outro _ msg => some msg

/-- Method `ComDetalhes`: writes `Detalhes` in place and returns the receiver. -/
def ComDetalhes (h : Heap) (e : Ponteiro) (detalhes : String) : Option (Heap × Ponteiro) :=
  match e with
  | Ponteiro.nil => none
  | Ponteiro.addr a =>
    match h[a]? with
    | none => none
    | some v => some (h.set a { v with Detalhes := detalhes }, e)

/-- Method `ComCausa`: writes `CausaRaiz`, then fills an empty `Detalhes`
from a non-nil cause, and returns the receiver. -/
def ComCausa (h : Heap) (e : Ponteiro) (causa : Erro) : Option (Heap × Ponteiro) :=
  match e with
  | Ponteiro.nil => none
  | Ponteiro.addr a =>
    match h[a]? with
    | none => none
    | some v =>
      let v1 : ErroAPI := { v with CausaRaiz := causa }
      let h1 := h.set a v1
      if v1.Detalhes = "" ∧ causa ≠ Erro.nil then
        match chamarError h1 causa with
        | none => none
        | some s => some (h1.set a { v1 with Detalhes := s }, e)
      else
        some (h1, e)

/-- Method `Unwrap`. -/
def Unwrap (h : Heap) (e : Ponteiro) : Option Erro :=
  (deref h e).map ErroAPI.CausaRaiz

/-- Function `novoErro`: allocates a fresh struct. -/
def novoErro (h : Heap) (agora : Nat) (tipo codigo mensagem : String) (statusHTTP : Int) :
    Heap × Ponteiro :=
  (h ++ [{ Tipo := tipo, Codigo := codigo, Mensagem := mensagem, Detalhes := "",
           StatusHTTP := statusHTTP, Timestamp := agora, CausaRaiz := Erro.nil }],
   Ponteiro.addr h.length)

def NovoErroValidacao (h : Heap) (agora : Nat) (codigo mensagem : String) : Heap × Ponteiro :=
  novoErro h agora TipoValidacao codigo mensagem StatusBadRequest

def NovoErroBancoDados (h : Heap) (agora : Nat) (codigo mensagem : String) : Heap × Ponteiro :=
  novoErro h agora TipoBancoDados codigo mensagem StatusInternalServerError

def NovoErroConexao (h : Heap) (agora : Nat) (codigo mensagem : String) : Heap × Ponteiro :=
  novoErro h agora TipoConexao codigo mensagem StatusServiceUnavailable

def NovoErroNaoEncontrado (h : Heap) (agora : Nat) (codigo mensagem : String) : Heap × Ponteiro :=
  novoErro h agora TipoNaoEncontrado codigo mensagem StatusNotFound

def NovoErroAutenticacao (h : Heap) (agora : Nat) (codigo mensagem : String) : Heap × Ponteiro :=
  novoErro h agora TipoAutenticacao codigo mensagem StatusUnauthorized

def NovoErroAutorizacao (h : Heap) (agora : Nat) (codigo mensagem : String) : Heap × Ponteiro :=
  novoErro h agora TipoAutorizacao codigo mensagem StatusForbidden

def NovoErroConflito (h : Heap) (agora : Nat) (codigo mensagem : String) : Heap × Ponteiro :=
  novoErro h agora TipoConflito codigo mensagem StatusConflict

def NovoErroInterno (h : Heap) (agora : Nat) (codigo mensagem : String) : Heap × Ponteiro :=
  novoErro h agora TipoInterno codigo mensagem StatusInternalServerError

def NovoErroLimiteExcedido (h : Heap) (agora : Nat) (codigo mensagem : String) : Heap × Ponteiro :=
  novoErro h agora TipoLimiteExcedido codigo mensagem StatusTooManyRequests

def NovoErroMetodoInvalido (h : Heap) (agora : Nat) (codigo mensagem : String) : Heap × Ponteiro :=
  novoErro h agora TipoMetodoInvalido codigo mensagem StatusMethodNotAllowed

def NovoErroArquivo (h : Heap) (agora : Nat) (codigo mensagem : String) : Heap × Ponteiro :=
  novoErro h agora TipoArquivo codigo mensagem StatusBadRequest

/-- Shared body of the eleven predicates `EhErroX`: the type assertion
`err.(*ErroAPI)` followed by the comparison of `apiErr.Tipo` with `tipo`. -/
def ehErroDoTipo (tipo : String) (h : Heap) : Erro → Option Bool
  | Erro.api p => (deref h p).map (fun apiErr => decide (apiErr.Tipo = tipo))
  | _ => some false

def EhErroValidacao (h : Heap) (err : Erro) : Option Bool := ehErroDoTipo TipoValidacao h err
def EhErroBancoDados (h : Heap) (err : Erro) : Option Bool := ehErroDoTipo TipoBancoDados h err
def EhErroConexao (h : Heap) (err : Erro) : Option Bool := ehErroDoTipo TipoConexao h err
def EhErroNaoEncontrado (h : Heap) (err : Erro) : Option Bool := ehErroDoTipo TipoNaoEncontrado h err
def EhErroAutenticacao (h : Heap) (err : Erro) : Option Bool := ehErroDoTipo TipoAutenticacao h err
def EhErroAutorizacao (h : Heap) (err : Erro) : Option Bool := ehErroDoTipo TipoAutorizacao h err
def EhErroConflito (h : Heap) (err : Erro) : Option Bool := ehErroDoTipo TipoConflito h err
def EhErroInterno (h : Heap) (err : Erro) : Option Bool := ehErroDoTipo TipoInterno h err
def EhErroLimiteExcedido (h : Heap) (err : Erro) : Option Bool := ehErroDoTipo TipoLimiteExcedido h err
def EhErroMetodoInvalido (h : Heap) (err : Erro) : Option Bool := ehErroDoTipo TipoMetodoInvalido h err
def EhErroArquivo (h : Heap) (err : Erro) : Option Bool := ehErroDoTipo TipoArquivo h err

/-- Function `ConverterErro`. The result pointer is nil for a nil interface,
the boxed pointer for a `*ErroAPI`, and a fresh internal error otherwise. -/
def ConverterErro (h : Heap) (agora : Nat) (err : Erro) : Option (Heap × Ponteiro) :=
  match err with
  | Erro.nil => some (h, Ponteiro.nil)
  | Erro.api apiErr => some (h, apiErr)
  | Erro.outro _ _ =>
    let r := NovoErroInterno h agora "UNKNOWN_ERROR" "Erro não categorizado"
    ComCausa r.1 r.2 err

/-- Function `ObterStatusHTTP`. -/
def ObterStatusHTTP (h : Heap) : Erro → Option Int
  | Erro.api p => (deref h p).map ErroAPI.StatusHTTP
  | _ => some StatusInternalServerError

/-- Function `ObterTipo`. -/
def ObterTipo (h : Heap) : Erro → Option String
  | Erro.api p => (deref h p).map ErroAPI.Tipo
  | _ => some "UNKNOWN_ERROR"

/-- Function `ObterCodigo`. -/
def ObterCodigo (h : Heap) : Erro → Option String
  | Erro.api p => (deref h p).map ErroAPI.Codigo
  | _ => some "UNKNOWN_CODE"

/-- The eleven category constructors of `src/errors.go`. -/
inductive Construtor where
  | validacao | bancoDados | conexao | naoEncontrado | autenticacao | autorizacao
  | conflito | interno | limiteExcedido | metodoInvalido | arquivo
  deriving DecidableEq, Repr

/-- The constructor function named by a `Construtor`. -/
def Construtor.aplicar : Construtor → Heap → Nat → String → String → Heap × Ponteiro
  | validacao => NovoErroValidacao
  | bancoDados => NovoErroBancoDados
  | conexao => NovoErroConexao
  | naoEncontrado => NovoErroNaoEncontrado
  | autenticacao => NovoErroAutenticacao
  | autorizacao => NovoErroAutorizacao
  | conflito => NovoErroConflito
  | interno => NovoErroInterno
  | limiteExcedido => NovoErroLimiteExcedido
  | metodoInvalido => NovoErroMetodoInvalido
  | arquivo => NovoErroArquivo

/-- The category constant that goes with a constructor (same name). -/
def Construtor.tipo : Construtor → String
  | validacao => TipoValidacao
  | bancoDados => TipoBancoDados
  | conexao => TipoConexao
  | naoEncontrado => TipoNaoEncontrado
  | autenticacao => TipoAutenticacao
  | autorizacao => TipoAutorizacao
  | conflito => TipoConflito
  | interno => TipoInterno
  | limiteExcedido => TipoLimiteExcedido
  | metodoInvalido => TipoMetodoInvalido
  | arquivo => TipoArquivo

/-- The predicate function `EhErroX` that goes with a category (same name). -/
def Construtor.predicado : Construtor → Heap → Erro → Option Bool
  | validacao => EhErroValidacao
  | bancoDados => EhErroBancoDados
  | conexao => EhErroConexao
  | naoEncontrado => EhErroNaoEncontrado
  | autenticacao => EhErroAutenticacao
  | autorizacao => EhErroAutorizacao
  | conflito => EhErroConflito
  | interno => EhErroInterno
  | limiteExcedido => EhErroLimiteExcedido
  | metodoInvalido => EhErroMetodoInvalido
  | arquivo => EhErroArquivo

/-- Category to status table as the specification prints it (section 4.1),
keyed by the category strings of `src/errors.go`. -/
def tabelaStatus (tipo : String) : Option Int :=
  if tipo = "VALIDATION_ERROR" then some 400
  else if tipo = "DATABASE_ERROR" then some 500
  else if tipo = "CONNECTION_ERROR" then some 503
  else if tipo = "NOT_FOUND_ERROR" then some 404
  else if tipo = "AUTHENTICATION_ERROR" then some 401
  else if tipo = "AUTHORIZATION_ERROR" then some 403
  else if tipo = "CONFLICT_ERROR" then some 409
  else if tipo = "INTERNAL_ERROR" then some 500
  else if tipo = "RATE_LIMIT_ERROR" then some 429
  else if tipo = "METHOD_ERROR" then some 405
  else if tipo = "FILE_ERROR" then some 400
  else none

/-- Heaps that a program reaches from the empty heap using only the eleven
constructors, `ConverterErro`, `ComDetalhes` and `ComCausa`, with arbitrary
arguments (any pointer, any cause, any interleaving). -/
inductive Alcancavel : Heap → Prop where
  | vazio : Alcancavel []
  | construtor (k : Construtor) (h : Heap) (agora : Nat) (codigo mensagem : String) :
      Alcancavel h → Alcancavel (k.aplicar h agora codigo mensagem).1
  | converter (h : Heap) (agora : Nat) (err : Erro) (h1 : Heap) (p : Ponteiro) :
      Alcancavel h → ConverterErro h agora err = some (h1, p) → Alcancavel h1
  | comDetalhes (h : Heap) (e : Ponteiro) (detalhes : String) (h1 : Heap) (p : Ponteiro) :
      Alcancavel h → ComDetalhes h e detalhes = some (h1, p) → Alcancavel h1
  | comCausa (h : Heap) (e : Ponteiro) (causa : Erro) (h1 : Heap) (p : Ponteiro) :
      Alcancavel h → ComCausa h e causa = some (h1, p) → Alcancavel h1

end Errors

/-! ## `src/error.go` -/

namespace Goerror

/-- The named string type `TipoErro`. -/
abbrev TipoErro := String

def TipoBancoDados : TipoErro := "BANCO_DADOS"
def TipoValidacao : TipoErro := "VALIDACAO"
def TipoNaoEncontrado : TipoErro := "NAO_ENCONTRADO"
def TipoNaoAutorizado : TipoErro := "NAO_AUTORIZADO"
def TipoConexao : TipoErro := "CONEXAO"
def TipoInterno : TipoErro := "INTERNO"
def TipoMetodoInvalido : TipoErro := "METODO_INVALIDO"
def TipoFormatoInvalido : TipoErro := "FORMATO_INVALIDO"

/-- The struct `ErroAPI` of `src/error.go`. -/
structure ErroAPI where
  Tipo : TipoErro
  CodigoPersonal : String
  Mensagem : String
  StatusHTTP : Int
  Detalhes : String
  ErroOriginal : Erro
  deriving DecidableEq, Repr

/-- Allocated `ErroAPI` structs; the address of a struct is its index. -/
abbrev Heap := List ErroAPI

/-- Read through a pointer; `none` is the nil-dereference panic. -/
def deref (h : Heap) : Ponteiro → Option ErroAPI
  | Ponteiro.nil => none
  | Ponteiro.addr a => h[a]?

/-- Allocation of a struct literal `&ErroAPI{...}`. -/
def alocar (h : Heap) (v : ErroAPI) : Heap × Ponteiro :=
  (h ++ [v], Ponteiro.addr h.length)

/-- Method `ComDetalhes`: writes `Detalhes` in place and returns the receiver. -/
def ComDetalhes (h : Heap) (e : Ponteiro) (detalhes : String) : Option (Heap × Ponteiro) :=
  match e with
  | Ponteiro.nil => none
  | Ponteiro.addr a =>
    match h[a]? with
    | none => none
    | some v => some (h.set a { v with Detalhes := detalhes }, e)

/-- Function `ErroValidacao`; the result is boxed as an `error`. -/
def ErroValidacao (h : Heap) (codigoPersonal mensagem : String) : Heap × Erro :=
  let r := alocar h { Tipo := TipoValidacao, CodigoPersonal := codigoPersonal,
                      Mensagem := mensagem, StatusHTTP := StatusBadRequest,
                      Detalhes := "", ErroOriginal := Erro.nil }
  (r.1, Erro.api r.2)

/-- Function `ErroNaoEncontrado`. -/
def ErroNaoEncontrado (h : Heap) (codigoPersonal recurso : String) : Heap × Erro :=
  let r := alocar h { Tipo := TipoNaoEncontrado, CodigoPersonal := codigoPersonal,
                      Mensagem := recurso ++ " não encontrado", StatusHTTP := StatusNotFound,
                      Detalhes := "", ErroOriginal := Erro.nil }
  (r.1, Erro.api r.2)

/-- Function `ErroNaoAutorizado`. -/
def ErroNaoAutorizado (h : Heap) (codigoPersonal mensagem : String) : Heap × Erro :=
  let r := alocar h { Tipo := TipoNaoAutorizado, CodigoPersonal := codigoPersonal,
                      Mensagem := mensagem, StatusHTTP := StatusUnauthorized,
                      Detalhes := "", ErroOriginal := Erro.nil }
  (r.1, Erro.api r.2)

/-- Function `ErroMetodoInvalido`. -/
def ErroMetodoInvalido (h : Heap) (codigoPersonal metodoEsperado : String) : Heap × Erro :=
  let r := alocar h { Tipo := TipoMetodoInvalido, CodigoPersonal := codigoPersonal,
                      Mensagem := "Método não permitido. Esperado: " ++ metodoEsperado,
                      StatusHTTP := StatusMethodNotAllowed,
                      Detalhes := "", ErroOriginal := Erro.nil }
  (r.1, Erro.api r.2)

def NovoErroBancoDados (h : Heap) (codigo mensagem : String) : Heap × Ponteiro :=
  alocar h { Tipo := TipoBancoDados, CodigoPersonal := codigo, Mensagem := mensagem,
             StatusHTTP := StatusInternalServerError, Detalhes := "", ErroOriginal := Erro.nil }

def NovoErroValidacao (h : Heap) (codigo mensagem : String) : Heap × Ponteiro :=
  alocar h { Tipo := TipoValidacao, CodigoPersonal := codigo, Mensagem := mensagem,
             StatusHTTP := StatusBadRequest, Detalhes := "", ErroOriginal := Erro.nil }

def NovoErroNaoEncontrado (h : Heap) (codigo recurso : String) : Heap × Ponteiro :=
  alocar h { Tipo := TipoNaoEncontrado, CodigoPersonal := codigo,
             Mensagem := recurso ++ " não encontrado",
             StatusHTTP := StatusNotFound, Detalhes := "", ErroOriginal := Erro.nil }

def NovoErroConexao (h : Heap) (codigo mensagem : String) : Heap × Ponteiro :=
  alocar h { Tipo := TipoConexao, CodigoPersonal := codigo, Mensagem := mensagem,
             StatusHTTP := StatusServiceUnavailable, Detalhes := "", ErroOriginal := Erro.nil }

def NovoErroInterno (h : Heap) (codigo mensagem : String) : Heap × Ponteiro :=
  alocar h { Tipo := TipoInterno, CodigoPersonal := codigo, Mensagem := mensagem,
             StatusHTTP := StatusInternalServerError, Detalhes := "", ErroOriginal := Erro.nil }

def NovoErroMetodoInvalido (h : Heap) (codigo mensagem : String) : Heap × Ponteiro :=
  alocar h { Tipo := TipoMetodoInvalido, CodigoPersonal := codigo, Mensagem := mensagem,
             StatusHTTP := StatusMethodNotAllowed, Detalhes := "", ErroOriginal := Erro.nil }

/-- The package-level variables `ErrUsuarioNaoEncontrado`, `ErrEmailJaExiste`,
`ErrTokenInvalido`, `ErrPermissaoNegada`: four struct literals allocated, in
this order, when the package is loaded. -/
def heapInicial : Heap :=
  [ { Tipo := TipoNaoEncontrado, CodigoPersonal := "USER_NOT_FOUND",
      Mensagem := "Usuário não encontrado", StatusHTTP := StatusNotFound,
      Detalhes := "", ErroOriginal := Erro.nil },
    { Tipo := TipoValidacao, CodigoPersonal := "EMAIL_EXISTS",
      Mensagem := "Email já está em uso", StatusHTTP := StatusConflict,
      Detalhes := "", ErroOriginal := Erro.nil },
    { Tipo := TipoNaoAutorizado, CodigoPersonal := "INVALID_TOKEN",
      Mensagem := "Token de autenticação inválido", StatusHTTP := StatusUnauthorized,
      Detalhes := "", ErroOriginal := Erro.nil },
    { Tipo := TipoNaoAutorizado, CodigoPersonal := "PERMISSION_DENIED",
      Mensagem := "Permissão negada para esta operação", StatusHTTP := StatusForbidden,
      Detalhes := "", ErroOriginal := Erro.nil } ]

def ErrUsuarioNaoEncontrado : Ponteiro := Ponteiro.addr 0
def ErrEmailJaExiste : Ponteiro := Ponteiro.addr 1
def ErrTokenInvalido : Ponteiro := Ponteiro.addr 2
def ErrPermissaoNegada : Ponteiro := Ponteiro.addr 3

/-- Function `ConverterErro`. In the last branch `err` is neither nil nor a
`*ErroAPI`, so `err.Error()` is the message of the foreign error. -/
def ConverterErro (h : Heap) (err : Erro) : Heap × Ponteiro :=
  match err with
  | Erro.nil => (h, Ponteiro.nil)
  | Erro.api apiErr => (h, apiErr)
  | Erro.outro _ msg =>
    alocar h { Tipo := TipoInterno, CodigoPersonal := "UNKNOWN_ERROR",
               Mensagem := "Erro interno não identificado",
               StatusHTTP := StatusInternalServerError,
               ErroOriginal := err, Detalhes := msg }

/-- Shared body of the five predicates `EhErroX`: the nil test, the type
assertion `err.(*ErroAPI)` and the comparison of `apiErr.Tipo` with `tipo`. -/
def ehErroDoTipo (tipo : TipoErro) (h : Heap) (err : Erro) : Option Bool :=
  if err = Erro.nil then some false
  else
    match err with
    | Erro.api p => (deref h p).map (fun apiErr => decide (apiErr.Tipo = tipo))
    | _ => some false

def EhErroValidacao (h : Heap) (err : Erro) : Option Bool := ehErroDoTipo TipoValidacao h err
def EhErroBancoDados (h : Heap) (err : Erro) : Option Bool := ehErroDoTipo TipoBancoDados h err
def EhErroNaoEncontrado (h : Heap) (err : Erro) : Option Bool := ehErroDoTipo TipoNaoEncontrado h err
def EhErroNaoAutorizado (h : Heap) (err : Erro) : Option Bool := ehErroDoTipo TipoNaoAutorizado h err
def EhErroConexao (h : Heap) (err : Erro) : Option Bool := ehErroDoTipo TipoConexao h err

/-- The eight categories of `src/error.go`. -/
inductive Categoria where
  | bancoDados | validacao | naoEncontrado | naoAutorizado | conexao | interno
  | metodoInvalido | formatoInvalido
  deriving DecidableEq, Repr

/-- The `TipoErro` constant of a category. -/
def Categoria.tipo : Categoria → TipoErro
  | bancoDados => TipoBancoDados
  | validacao => TipoValidacao
  | naoEncontrado => TipoNaoEncontrado
  | naoAutorizado => TipoNaoAutorizado
  | conexao => TipoConexao
  | interno => TipoInterno
  | metodoInvalido => TipoMetodoInvalido
  | formatoInvalido => TipoFormatoInvalido

/-- The five predicates of `src/error.go`. -/
inductive Predicado where
  | validacao | bancoDados | naoEncontrado | naoAutorizado | conexao
  deriving DecidableEq, Repr

def Predicado.aplicar : Predicado → Heap → Erro → Option Bool
  | validacao => EhErroValidacao
  | bancoDados => EhErroBancoDados
  | naoEncontrado => EhErroNaoEncontrado
  | naoAutorizado => EhErroNaoAutorizado
  | conexao => EhErroConexao

/-- The category a predicate tests (same name). -/
def Predicado.categoria : Predicado → Categoria
  | validacao => Categoria.validacao
  | bancoDados => Categoria.bancoDados
  | naoEncontrado => Categoria.naoEncontrado
  | naoAutorizado => Categoria.naoAutorizado
  | conexao => Categoria.conexao

/-- The six `NovoErroX` constructors of `src/error.go`. -/
inductive Construtor where
  | bancoDados | validacao | naoEncontrado | conexao | interno | metodoInvalido
  deriving DecidableEq, Repr

def Construtor.aplicar : Construtor → Heap → String → String → Heap × Ponteiro
  | bancoDados => NovoErroBancoDados
  | validacao => NovoErroValidacao
  | naoEncontrado => NovoErroNaoEncontrado
  | conexao => NovoErroConexao
  | interno => NovoErroInterno
  | metodoInvalido => NovoErroMetodoInvalido

/-- The category of a constructor (same name). -/
def Construtor.categoria : Construtor → Categoria
  | bancoDados => Categoria.bancoDados
  | validacao => Categoria.validacao
  | naoEncontrado => Categoria.naoEncontrado
  | conexao => Categoria.conexao
  | interno => Categoria.interno
  | metodoInvalido => Categoria.metodoInvalido

end Goerror

/-! ## Wire form: what `encoding/json` writes -/

/-- A JSON value as `json.Marshal` sees a field: a string, an integer, a
boolean, a `time.Time` (written as a timestamp string) or an `error`
interface value. -/
inductive JsonValor where
  | str (s : String) : JsonValor
  | num (n : Int) : JsonValor
  | bool (b : Bool) : JsonValor
  | tempo (t : Nat) : JsonValor
  | erro (c : Erro) : JsonValor
  deriving DecidableEq, Repr

/-- A JSON object: its members in the order they are written. -/
abbrev JsonObjeto := List (String × JsonValor)

/-- The keys of a JSON object. -/
def JsonObjeto.chaves (o : JsonObjeto) : List String := o.map Prod.fst

/-- The struct tag of a field: `json:"k"`, `json:"k,omitempty"` or `json:"-"`. -/
inductive Etiqueta where
  | chave (k : String) : Etiqueta
  | chaveOmitEmpty (k : String) : Etiqueta
  | excluido : Etiqueta
  deriving DecidableEq, Repr

/-- The emptiness test of `omitempty`: the empty string, zero, false, the
nil interface; a struct such as `time.Time` is never empty. -/
def JsonValor.vazio : JsonValor → Bool
  | JsonValor.str s => decide (s = "")
  | JsonValor.num n => decide (n = 0)
  | JsonValor.bool b => !b
  | JsonValor.tempo _ => false
  | JsonValor.erro c => decide (c = Erro.nil)

/-- The object `json.Marshal` writes for a struct, from its tagged fields in
declaration order. -/
def marshalStruct : List (Etiqueta × JsonValor) → JsonObjeto
  | [] => []
  | (Etiqueta.excluido, _) :: r => marshalStruct r
  | (Etiqueta.chave k, v) :: r => (k, v) :: marshalStruct r
  | (Etiqueta.chaveOmitEmpty k, v) :: r =>
    if v.vazio then marshalStruct r else (k, v) :: marshalStruct r

/-- Lexicographic order on code point lists (the byte order of the UTF-8
strings). -/
def menorLista : List Nat → List Nat → Bool
  | [], [] => false
  | [], _ :: _ => true
  | _ :: _, [] => false
  | a :: r, b :: s => decide (a < b) || (decide (a = b) && menorLista r s)

/-- The order in which `json.Marshal` sorts the keys of a map. -/
def chaveMenor (k1 k2 : String) : Bool :=
  menorLista (k1.toList.map Char.toNat) (k2.toList.map Char.toNat)

/-- Insertion of a member into an object sorted by key. -/
def inserirOrdenado (k : String) (v : JsonValor) : JsonObjeto → JsonObjeto
  | [] => [(k, v)]
  | (k1, v1) :: r =>
    if chaveMenor k k1 then (k, v) :: (k1, v1) :: r
    else (k1, v1) :: inserirOrdenado k v r

/-- The object `json.Marshal` writes for a `map[string]interface{}` with
distinct keys: its members sorted by key. -/
def marshalMapa : JsonObjeto → JsonObjeto
  | [] => []
  | (k, v) :: r => inserirOrdenado k v (marshalMapa r)

namespace Errors

/-- The fields of `ErroAPI` in `src/errors.go` with their `json` tags. -/
def ErroAPI.campos (e : ErroAPI) : List (Etiqueta × JsonValor) :=
  [ (Etiqueta.chave "tipo", JsonValor.str e.Tipo),
    (Etiqueta.chave "codigo", JsonValor.str e.Codigo),
    (Etiqueta.chave "mensagem", JsonValor.str e.Mensagem),
    (Etiqueta.chaveOmitEmpty "detalhes", JsonValor.str e.Detalhes),
    (Etiqueta.excluido, JsonValor.num e.StatusHTTP),
    (Etiqueta.chave "timestamp", JsonValor.tempo e.Timestamp),
    (Etiqueta.excluido, JsonValor.erro e.CausaRaiz) ]

/-- The object `json.Marshal(e)` encodes for a struct of `src/errors.go`
when the encoding succeeds. -/
def ErroAPI.objeto (e : ErroAPI) : JsonObjeto := marshalStruct e.campos

/-- Method `JSON` of `src/errors.go`, on the struct read through the
receiver: `data, _ := json.Marshal(e)` and `return data`. The encoding of a
`time.Time` fails when `Time.MarshalJSON` does (a year outside 0..9999);
`json.Marshal` then returns no bytes and an error, the method drops the error
and returns the nil slice: `none`. Whether the library can encode a clock
reading is the parameter `codificavel`. -/
def ErroAPI.JSON (codificavel : Nat → Bool) (e : ErroAPI) : Option JsonObjeto :=
  if codificavel e.Timestamp then some e.objeto else none

end Errors

namespace Goerror

/-- The text of `fmt.Sprintf("[%s:%s] %s - %s", ...)` in `Error`. -/
def ErroAPI.cabecalho (e : ErroAPI) : String :=
  "[" ++ e.Tipo ++ ":" ++ e.CodigoPersonal ++ "] " ++ e.Mensagem ++ " - " ++ e.Detalhes

/-- Method `(e *ErroAPI) Error()` of `src/error.go`, followed to recursion
depth at most `n`. The verb `%v` of a cause calls the cause's own `Error()`:
a foreign error gives its message, a nil `*ErroAPI` boxed in the interface is
printed as `<nil>` (the formatter recovers that panic), a `*ErroAPI` recurses.
`none` is a call that returns nothing: the nil-receiver panic, or a cause
chain that is not exhausted within the depth. -/
def ErrorCom : Nat → Heap → Ponteiro → Option String
  | 0, _, _ => none
  | n + 1, h, p =>
    match deref h p with
    | none => none
    | some e =>
      match e.ErroOriginal with
      | Erro.nil => some e.cabecalho
      | Erro.outro _ msg => some (e.cabecalho ++ " (Original: " ++ msg ++ ")")
      | Erro.api Ponteiro.nil => some (e.cabecalho ++ " (Original: <nil>)")
      | Erro.api (Ponteiro.addr b) =>
        (ErrorCom n h (Ponteiro.addr b)).map
          (fun s => e.cabecalho ++ " (Original: " ++ s ++ ")")

/-- Method `(e *ErroAPI) Error()` of `src/error.go`. A cause chain that ends
visits every struct at most once, so the depth `h.length` exhausts it; a
chain that runs into a cycle never returns. -/
def Error (h : Heap) (p : Ponteiro) : Option String := ErrorCom h.length h p

/-- Dynamic dispatch of `err.Error()` on an interface value. -/
def chamarError (h : Heap) : Erro → Option String
  | Erro.nil => none
  | Erro.api p => Error h p
  | Erro.outro _ msg => some msg

/-- Method `ComCausa`: writes `ErroOriginal`, then fills an empty `Detalhes`
from a non-nil cause, and returns the receiver. -/
def ComCausa (h : Heap) (e : Ponteiro) (err : Erro) : Option (Heap × Ponteiro) :=
  match e with
  | Ponteiro.nil => none
  | Ponteiro.addr a =>
    match h[a]? with
    | none => none
    | some v =>
      let v1 : ErroAPI := { v with ErroOriginal := err }
      let h1 := h.set a v1
      if v1.Detalhes = "" ∧ err ≠ Erro.nil then
        match chamarError h1 err with
        | none => none
        | some s => some (h1.set a { v1 with Detalhes := s }, e)
      else
        some (h1, e)

/-- Shared body of the four wrapper constructors: nil for a nil `err`,
otherwise a fresh struct with `ErroOriginal: err` and `Detalhes: err.Error()`. -/
def embrulhar (tipo : TipoErro) (mensagem : String) (statusHTTP : Int) (h : Heap)
    (codigoPersonal : String) (err : Erro) : Option (Heap × Erro) :=
  if err = Erro.nil then some (h, Erro.nil)
  else
    match chamarError h err with
    | none => none
    | some s =>
      let r := alocar h { Tipo := tipo, CodigoPersonal := codigoPersonal, Mensagem := mensagem,
                          StatusHTTP := statusHTTP, ErroOriginal := err, Detalhes := s }
      some (r.1, Erro.api r.2)

/-- Function `ErroBancoDados`. -/
def ErroBancoDados (h : Heap) (codigoPersonal : String) (err : Erro) : Option (Heap × Erro) :=
  embrulhar TipoBancoDados "Erro na operação do banco de dados" StatusInternalServerError
    h codigoPersonal err

/-- Function `ErroConexao`. -/
def ErroConexao (h : Heap) (codigoPersonal : String) (err : Erro) : Option (Heap × Erro) :=
  embrulhar TipoConexao "Erro de conexão" StatusServiceUnavailable h codigoPersonal err

/-- Function `ErroInterno`. -/
def ErroInterno (h : Heap) (codigoPersonal : String) (err : Erro) : Option (Heap × Erro) :=
  embrulhar TipoInterno "Erro interno do servidor" StatusInternalServerError h codigoPersonal err

/-- Function `ErroFormatoInvalido`. -/
def ErroFormatoInvalido (h : Heap) (codigoPersonal : String) (err : Erro) :
    Option (Heap × Erro) :=
  embrulhar TipoFormatoInvalido "Formato de dados inválido" StatusBadRequest h codigoPersonal err

/-- The map `resposta` that method `JSON` of `src/error.go` builds. -/
def ErroAPI.resposta (e : ErroAPI) : JsonObjeto :=
  let resposta : JsonObjeto :=
    [ ("erro", JsonValor.bool true),
      ("tipo", JsonValor.str e.Tipo),
      ("codigo", JsonValor.str e.CodigoPersonal),
      ("mensagem", JsonValor.str e.Mensagem),
      ("status_http", JsonValor.num e.StatusHTTP) ]
  if e.Detalhes ≠ "" then resposta ++ [("detalhes", JsonValor.str e.Detalhes)] else resposta

/-- Method `JSON` of `src/error.go`, on the struct read through the
receiver: `json.Marshal(resposta)`; the encoding of these values cannot fail. -/
def ErroAPI.JSON (e : ErroAPI) : JsonObjeto := marshalMapa e.resposta

/-- The four wrapper constructors of `src/error.go`. -/
inductive Embrulho where
  | bancoDados | conexao | interno | formatoInvalido
  deriving DecidableEq, Repr

def Embrulho.aplicar : Embrulho → Heap → String → Erro → Option (Heap × Erro)
  | bancoDados => ErroBancoDados
  | conexao => ErroConexao
  | interno => ErroInterno
  | formatoInvalido => ErroFormatoInvalido

/-- The category of a wrapper constructor (same name). -/
def Embrulho.categoria : Embrulho → Categoria
  | bancoDados => Categoria.bancoDados
  | conexao => Categoria.conexao
  | interno => Categoria.interno
  | formatoInvalido => Categoria.formatoInvalido

end Goerror

/-! ## `src/goerror/error.go` (package `errors`) -/

namespace PkgErrors

/-- The struct `ErroAPI` of `src/goerror/error.go`. -/
structure ErroAPI where
  Tipo : String
  Codigo : String
  Mensagem : String
  Detalhes : String
  StatusHTTP : Int
  Causa : Erro
  deriving DecidableEq, Repr

/-- The fields of `ErroAPI` in `src/goerror/error.go` with their `json` tags. -/
def ErroAPI.campos (e : ErroAPI) : List (Etiqueta × JsonValor) :=
  [ (Etiqueta.chave "tipo", JsonValor.str e.Tipo),
    (Etiqueta.chave "codigo", JsonValor.str e.Codigo),
    (Etiqueta.chave "mensagem", JsonValor.str e.Mensagem),
    (Etiqueta.chaveOmitEmpty "detalhes", JsonValor.str e.Detalhes),
    (Etiqueta.excluido, JsonValor.num e.StatusHTTP),
    (Etiqueta.excluido, JsonValor.erro e.Causa) ]

/-- Method `JSON` of `src/goerror/error.go`: `json.Marshal(e)`. -/
def ErroAPI.JSON (e : ErroAPI) : JsonObjeto := marshalStruct e.campos

end PkgErrors

/-! ## `src/validadores.go`

Go strings are modelled as `String` (text that is valid UTF-8): `len` and
byte indexing go through the UTF-8 encoding, the functions of `regexp`,
`strings` and `unicode/utf8` work on the characters. Go `int` values that
are counts or digit sums are `Nat`, the `int` parameters are `Int`.
-/

namespace Goerror

/-- The UTF-8 encoding of a character, as byte values. -/
def utf8Bytes (c : Char) : List Nat :=
  let n := c.toNat
  if n < 128 then [n]
  else if n < 2048 then [192 + n / 64, 128 + n % 64]
  else if n < 65536 then [224 + n / 4096, 128 + (n / 64) % 64, 128 + n % 64]
  else [240 + n / 262144, 128 + (n / 4096) % 64, 128 + (n / 64) % 64, 128 + n % 64]

/-- The bytes of a Go string. -/
def goBytes (s : String) : List Nat := s.toList.flatMap utf8Bytes

/-- Go `len(s)`: the number of bytes. -/
def goLen (s : String) : Nat := (goBytes s).length

/-- Go `utf8.RuneCountInString(s)`. -/
def RuneCountInString (s : String) : Nat := s.toList.length

/-- Go `strconv.Itoa`. -/
def Itoa (n : Int) : String := toString n

/-- Go `strings.ReplaceAll(s, string(c), "")` for an ASCII character `c`. -/
def removerTodos (s : String) (c : Char) : String :=
  String.mk (s.toList.filter (fun x => x ≠ c))

/-- Go `num, _ := strconv.Atoi(string(b))` for a byte `b`: the value of a
decimal digit, and 0 (the error is dropped) for every other byte. -/
def atoiByte (b : Nat) : Nat := if 48 ≤ b ∧ b ≤ 57 then b - 48 else 0

/-- Class `\d` of `regexp`: the ASCII decimal digits. -/
def ehDigito (c : Char) : Bool := decide (48 ≤ c.toNat ∧ c.toNat ≤ 57)

/-- Class `\s` of `regexp`: tab, line feed, form feed, carriage return, space. -/
def ehBranco (c : Char) : Bool :=
  decide (c.toNat = 9 ∨ c.toNat = 10 ∨ c.toNat = 12 ∨ c.toNat = 13 ∨ c.toNat = 32)

/-- Class `[A-Z]`. -/
def ehMaiuscula (c : Char) : Bool := decide (65 ≤ c.toNat ∧ c.toNat ≤ 90)

/-- Class `[a-z]`. -/
def ehMinuscula (c : Char) : Bool := decide (97 ≤ c.toNat ∧ c.toNat ≤ 122)

/-- Class `[0-9a-f]`. -/
def ehHexMinusculo (c : Char) : Bool :=
  decide ((48 ≤ c.toNat ∧ c.toNat ≤ 57) ∨ (97 ≤ c.toNat ∧ c.toNat ≤ 102))

/-- The characters of the class of `temEspecial` in `ValidarSenha`, the
thirty characters between the brackets once the regexp escapes are read. -/
def caracteresEspeciais : List Char :=
  "!@#$%^&*()_+-=[]\x7b\x7d;\x27:\x22\x5c|,.<>/?".toList

/-- The class of `temEspecial`. -/
def ehEspecial (c : Char) : Bool := caracteresEspeciais.contains c

/-- Go `unicode.IsSpace`. -/
def ehEspaco (c : Char) : Bool :=
  let n := c.toNat
  decide ((9 ≤ n ∧ n ≤ 13) ∨ n = 32 ∨ n = 133 ∨ n = 160 ∨ n = 5760
    ∨ (8192 ≤ n ∧ n ≤ 8202) ∨ n = 8232 ∨ n = 8233 ∨ n = 8239 ∨ n = 8287 ∨ n = 12288)

/-- Go `strings.TrimSpace`. -/
def TrimSpace (s : String) : String :=
  String.mk ((s.toList.dropWhile ehEspaco).reverse.dropWhile ehEspaco).reverse

/-- Go `unicode.ToLower`: explicit on ASCII, by the Unicode case table `tab`
elsewhere. -/
def ToLowerRune (tab : Char → Char) (c : Char) : Char :=
  if c.toNat < 128 then
    (if 65 ≤ c.toNat ∧ c.toNat ≤ 90 then Char.ofNat (c.toNat + 32) else c)
  else tab c

/-- Go `unicode.ToUpper`: explicit on ASCII, by the Unicode case table `tab`
elsewhere. -/
def ToUpperRune (tab : Char → Char) (c : Char) : Char :=
  if c.toNat < 128 then
    (if 97 ≤ c.toNat ∧ c.toNat ≤ 122 then Char.ofNat (c.toNat - 32) else c)
  else tab c

/-- Go `strings.ToLower`. -/
def ToLower (tab : Char → Char) (s : String) : String :=
  String.mk (s.toList.map (ToLowerRune tab))

/-- Go `strings.ToUpper`. -/
def ToUpper (tab : Char → Char) (s : String) : String :=
  String.mk (s.toList.map (ToUpperRune tab))

/-- The regular expressions of the file: character classes, concatenation,
alternation, `?` and `{n}`. -/
inductive Re where
  | classe (p : Char → Bool) : Re
  | seq (a b : Re) : Re
  | alt (a b : Re) : Re
  | opt (a : Re) : Re
  | rep (n : Nat) (a : Re) : Re

/-- The class of one character. -/
def Re.lit (c : Char) : Re := Re.classe (fun x => x == c)

/-- Every way to match `n` times in a row: what is left of the text after
each. -/
def repetir (f : List Char → List (List Char)) : Nat → List Char → List (List Char)
  | 0, s => [s]
  | n + 1, s => (f s).flatMap (repetir f n)

/-- Every way to match `re` at the start of a text: what is left of the text
after each. -/
def Re.restos : Re → List Char → List (List Char)
  | Re.classe p => fun s =>
    match s with
    | [] => []
    | c :: r => if p c then [r] else []
  | Re.seq a b => fun s => (a.restos s).flatMap b.restos
  | Re.alt a b => fun s => a.restos s ++ b.restos s
  | Re.opt a => fun s => a.restos s ++ [s]
  | Re.rep n a => repetir a.restos n

/-- `MatchString` of the expression `^re$`: the whole text matches `re`. -/
def Re.casaTudo (re : Re) (s : String) : Bool := (re.restos s.toList).any List.isEmpty

/-- `MatchString` of the expression `re` without anchors: `re` matches
somewhere in the text. -/
def Re.casaAlgum (re : Re) (s : String) : Bool :=
  s.toList.tails.any (fun t => !(re.restos t).isEmpty)

/-- The expression `\d{5}-?\d{3}` of `regexCEP`, between `^` and `$`. -/
def regexCEP : Re :=
  Re.seq (Re.rep 5 (Re.classe ehDigito))
    (Re.seq (Re.opt (Re.lit '-')) (Re.rep 3 (Re.classe ehDigito)))

/-- The expression of `regexUUID`, between `^` and `$`. -/
def regexUUID : Re :=
  Re.seq (Re.rep 8 (Re.classe ehHexMinusculo))
    (Re.seq (Re.lit '-')
      (Re.seq (Re.rep 4 (Re.classe ehHexMinusculo))
        (Re.seq (Re.lit '-')
          (Re.seq (Re.rep 4 (Re.classe ehHexMinusculo))
            (Re.seq (Re.lit '-')
              (Re.seq (Re.rep 4 (Re.classe ehHexMinusculo))
                (Re.seq (Re.lit '-') (Re.rep 12 (Re.classe ehHexMinusculo)))))))))

/-- The expression `(\(\d{2}\)\s?|\d{2}\s?)?9?\d{4}-?\d{4}` of
`regexTelefone`, between `^` and `$`. -/
def regexTelefone : Re :=
  Re.seq
    (Re.opt
      (Re.alt
        (Re.seq (Re.lit '(')
          (Re.seq (Re.rep 2 (Re.classe ehDigito))
            (Re.seq (Re.lit ')') (Re.opt (Re.classe ehBranco)))))
        (Re.seq (Re.rep 2 (Re.classe ehDigito)) (Re.opt (Re.classe ehBranco)))))
    (Re.seq (Re.opt (Re.lit '9'))
      (Re.seq (Re.rep 4 (Re.classe ehDigito))
        (Re.seq (Re.opt (Re.lit '-')) (Re.rep 4 (Re.classe ehDigito)))))

end Goerror

namespace Goerror

/-- What a `return` statement of a validator builds: `nil`,
`NovoErroValidacao(c, m)`, `NovoErroValidacao(c, m).ComDetalhes(d)` or
`NovoErroValidacao(c, m).ComDetalhes(d).ComCausa(err)`. -/
inductive Retorno where
  | nulo : Retorno
  | erro (codigo mensagem : String) : Retorno
  | erroDetalhes (codigo mensagem detalhes : String) : Retorno
  | erroDetalhesCausa (codigo mensagem detalhes : String) (causa : Erro) : Retorno
  deriving DecidableEq, Repr

/-- The calls of a `return` statement, run on the heap; the pointer is boxed
as the `error` result. -/
def Retorno.executar (g : Heap) : Retorno → Option (Heap × Erro)
  | Retorno.nulo => some (g, Erro.nil)
  | Retorno.erro c m =>
    let r := NovoErroValidacao g c m
    some (r.1, Erro.api r.2)
  | Retorno.erroDetalhes c m d =>
    let r := NovoErroValidacao g c m
    (ComDetalhes r.1 r.2 d).map (fun x => (x.1, Erro.api x.2))
  | Retorno.erroDetalhesCausa c m d e =>
    let r := NovoErroValidacao g c m
    ((ComDetalhes r.1 r.2 d).bind (fun x => ComCausa x.1 x.2 e)).map
      (fun x => (x.1, Erro.api x.2))

/-- The `CodigoPersonal` of the error a call returned: `none` when the call
returned `nil` or did not return. -/
def codigoDaFalha (res : Option (Heap × Erro)) : Option String :=
  match res with
  | some (g, Erro.api p) => (deref g p).map ErroAPI.CodigoPersonal
  | _ => none

/-- The check digit of `ValidarCPF`: `11 - (soma % 11)`, and 0 when that is
10 or more. -/
def digitoCPF (soma : Nat) : Nat :=
  let digito := 11 - soma % 11
  if digito ≥ 10 then 0 else digito

/-- The cleaned form `cpfLimpo` of `ValidarCPF`. -/
def limparCPF (cpf : String) : String :=
  removerTodos (removerTodos (removerTodos cpf '.') '-') ' '

/-- The body of `ValidarCPF`. -/
def retornoValidarCPF (cpf : String) : Retorno :=
  if cpf = "" then Retorno.erro "CPF_VAZIO" "CPF não pode estar vazio"
  else
    let cpfLimpo := limparCPF cpf
    let b := goBytes cpfLimpo
    if b.length ≠ 11 then
      Retorno.erroDetalhes "CPF_TAMANHO_INVALIDO" "CPF deve ter 11 dígitos"
        ("CPF fornecido: " ++ cpf)
    else
      let todosIguais := b.tail.all (fun x => x == b.headD 0)
      if todosIguais then
        Retorno.erroDetalhes "CPF_DIGITOS_IGUAIS" "CPF não pode ter todos os dígitos iguais"
          ("CPF fornecido: " ++ cpf)
      else
        let soma1 := (List.range 9).foldl
          (fun soma i => soma + atoiByte (b.getD i 0) * (10 - i)) 0
        let digito1 := digitoCPF soma1
        let soma2 := (List.range 10).foldl
          (fun soma i => soma + atoiByte (b.getD i 0) * (11 - i)) 0
        let digito2 := digitoCPF soma2
        let dv1 := atoiByte (b.getD 9 0)
        let dv2 := atoiByte (b.getD 10 0)
        if dv1 ≠ digito1 ∨ dv2 ≠ digito2 then
          Retorno.erroDetalhes "CPF_INVALIDO" "CPF inválido - dígitos verificadores incorretos"
            ("CPF fornecido: " ++ cpf)
        else Retorno.nulo

/-- Function `ValidarCPF`. -/
def ValidarCPF (g : Heap) (cpf : String) : Option (Heap × Erro) :=
  (retornoValidarCPF cpf).executar g

def pesos1 : List Nat := [5, 4, 3, 2, 9, 8, 7, 6, 5, 4, 3, 2]
def pesos2 : List Nat := [6, 5, 4, 3, 2, 9, 8, 7, 6, 5, 4, 3, 2]

/-- The check digit of `ValidarCNPJ`: 0 when `soma % 11 < 2`, else
`11 - soma % 11`. -/
def digitoCNPJ (soma : Nat) : Nat :=
  let digito := soma % 11
  if digito < 2 then 0 else 11 - digito

/-- The cleaned form `cnpjLimpo` of `ValidarCNPJ`. -/
def limparCNPJ (cnpj : String) : String :=
  removerTodos (removerTodos (removerTodos (removerTodos cnpj '.') '/') '-') ' '

/-- The body of `ValidarCNPJ`. -/
def retornoValidarCNPJ (cnpj : String) : Retorno :=
  if cnpj = "" then Retorno.erro "CNPJ_VAZIO" "CNPJ não pode estar vazio"
  else
    let cnpjLimpo := limparCNPJ cnpj
    let b := goBytes cnpjLimpo
    if b.length ≠ 14 then
      Retorno.erroDetalhes "CNPJ_TAMANHO_INVALIDO" "CNPJ deve ter 14 dígitos"
        ("CNPJ fornecido: " ++ cnpj)
    else
      let soma1 := (List.range 12).foldl
        (fun soma i => soma + atoiByte (b.getD i 0) * pesos1.getD i 0) 0
      let digito1 := digitoCNPJ soma1
      let soma2 := (List.range 13).foldl
        (fun soma i => soma + atoiByte (b.getD i 0) * pesos2.getD i 0) 0
      let digito2 := digitoCNPJ soma2
      let dv1 := atoiByte (b.getD 12 0)
      let dv2 := atoiByte (b.getD 13 0)
      if dv1 ≠ digito1 ∨ dv2 ≠ digito2 then
        Retorno.erroDetalhes "CNPJ_INVALIDO" "CNPJ inválido - dígitos verificadores incorretos"
          ("CNPJ fornecido: " ++ cnpj)
      else Retorno.nulo

/-- Function `ValidarCNPJ`. -/
def ValidarCNPJ (g : Heap) (cnpj : String) : Option (Heap × Erro) :=
  (retornoValidarCNPJ cnpj).executar g

/-- The body of `ValidarEmail`; `ParseAddress` gives the `err` that
`mail.ParseAddress` of the standard library returns. -/
def retornoValidarEmail (ParseAddress : String → Erro) (email : String) : Retorno :=
  if email = "" then Retorno.erro "EMAIL_VAZIO" "Email não pode estar vazio"
  else if goLen email > 254 then
    Retorno.erroDetalhes "EMAIL_MUITO_LONGO" "Email muito longo (máximo 254 caracteres)"
      ("Tamanho: " ++ Itoa (goLen email))
  else if ParseAddress email ≠ Erro.nil then
    Retorno.erroDetalhesCausa "EMAIL_FORMATO_INVALIDO" "Formato de email inválido"
      ("Email fornecido: " ++ email) (ParseAddress email)
  else Retorno.nulo

/-- Function `ValidarEmail`. -/
def ValidarEmail (ParseAddress : String → Erro) (g : Heap) (email : String) :
    Option (Heap × Erro) :=
  (retornoValidarEmail ParseAddress email).executar g

/-- The body of `ValidarTelefone`; replacing every match of `\D` by the empty
string keeps the decimal digits. -/
def retornoValidarTelefone (telefone : String) : Retorno :=
  if telefone = "" then Retorno.erro "TELEFONE_VAZIO" "Telefone não pode estar vazio"
  else if !regexTelefone.casaTudo telefone then
    Retorno.erroDetalhes "TELEFONE_FORMATO_INVALIDO" "Formato de telefone inválido"
      ("Telefone fornecido: " ++ telefone
        ++ " - Formato esperado: (11) 99999-9999 ou 11999999999")
  else
    let telefoneLimpo := String.mk (telefone.toList.filter ehDigito)
    if goLen telefoneLimpo < 10 ∨ goLen telefoneLimpo > 11 then
      Retorno.erroDetalhes "TELEFONE_TAMANHO_INVALIDO" "Telefone deve ter 10 ou 11 dígitos"
        ("Telefone fornecido: " ++ telefone)
    else Retorno.nulo

/-- Function `ValidarTelefone`. -/
def ValidarTelefone (g : Heap) (telefone : String) : Option (Heap × Erro) :=
  (retornoValidarTelefone telefone).executar g

/-- The body of `ValidarCEP`. -/
def retornoValidarCEP (cep : String) : Retorno :=
  if cep = "" then Retorno.erro "CEP_VAZIO" "CEP não pode estar vazio"
  else if !regexCEP.casaTudo cep then
    Retorno.erroDetalhes "CEP_FORMATO_INVALIDO" "Formato de CEP inválido"
      ("CEP fornecido: " ++ cep ++ " - Formato esperado: 12345-678 ou 12345678")
  else Retorno.nulo

/-- Function `ValidarCEP`. -/
def ValidarCEP (g : Heap) (cep : String) : Option (Heap × Erro) :=
  (retornoValidarCEP cep).executar g

/-- The body of `ValidarSenha`. -/
def retornoValidarSenha (senha : String) (minCaracteres : Int) : Retorno :=
  if senha = "" then Retorno.erro "SENHA_VAZIA" "Senha não pode estar vazia"
  else
    let minCaracteres := if minCaracteres = 0 then 8 else minCaracteres
    if (RuneCountInString senha : Int) < minCaracteres then
      Retorno.erroDetalhes "SENHA_MUITO_CURTA"
        ("Senha deve ter pelo menos " ++ Itoa minCaracteres ++ " caracteres")
        ("Tamanho atual: " ++ Itoa (RuneCountInString senha))
    else
      let temMaiuscula := (Re.classe ehMaiuscula).casaAlgum senha
      let temMinuscula := (Re.classe ehMinuscula).casaAlgum senha
      let temNumero := (Re.classe ehDigito).casaAlgum senha
      let temEspecial := (Re.classe ehEspecial).casaAlgum senha
      if !temMaiuscula then
        Retorno.erro "SENHA_SEM_MAIUSCULA" "Senha deve conter pelo menos uma letra maiúscula"
      else if !temMinuscula then
        Retorno.erro "SENHA_SEM_MINUSCULA" "Senha deve conter pelo menos uma letra minúscula"
      else if !temNumero then
        Retorno.erro "SENHA_SEM_NUMERO" "Senha deve conter pelo menos um número"
      else if !temEspecial then
        Retorno.erro "SENHA_SEM_ESPECIAL" "Senha deve conter pelo menos um caractere especial"
      else Retorno.nulo

/-- Function `ValidarSenha`. -/
def ValidarSenha (g : Heap) (senha : String) (minCaracteres : Int) : Option (Heap × Erro) :=
  (retornoValidarSenha senha minCaracteres).executar g

/-- The body of `ValidarUUID`; `tab` is the Unicode table of `strings.ToLower`. -/
def retornoValidarUUID (tab : Char → Char) (uuid : String) : Retorno :=
  if uuid = "" then Retorno.erro "UUID_VAZIO" "UUID não pode estar vazio"
  else if !regexUUID.casaTudo (ToLower tab uuid) then
    Retorno.erroDetalhes "UUID_FORMATO_INVALIDO" "Formato de UUID inválido"
      ("UUID fornecido: " ++ uuid
        ++ " - Formato esperado: xxxxxxxx-xxxx-xxxx-xxxx-xxxxxxxxxxxx")
  else Retorno.nulo

/-- Function `ValidarUUID`. -/
def ValidarUUID (tab : Char → Char) (g : Heap) (uuid : String) : Option (Heap × Erro) :=
  (retornoValidarUUID tab uuid).executar g

/-- The body of `ValidarID`. -/
def retornoValidarID (id : Int) (nomeRecurso : String) : Retorno :=
  if id ≤ 0 then
    Retorno.erroDetalhes "ID_INVALIDO" "ID deve ser maior que zero"
      ("Recurso: " ++ nomeRecurso ++ ", ID fornecido: " ++ Itoa id)
  else Retorno.nulo

/-- Function `ValidarID`. -/
def ValidarID (g : Heap) (id : Int) (nomeRecurso : String) : Option (Heap × Erro) :=
  (retornoValidarID id nomeRecurso).executar g

/-- The body of `ValidarStringObrigatoria`. -/
def retornoValidarStringObrigatoria (valor nomeCampo : String) : Retorno :=
  let valor := TrimSpace valor
  if valor = "" then
    Retorno.erroDetalhes "CAMPO_OBRIGATORIO" "Campo obrigatório não informado"
      ("Campo: " ++ nomeCampo)
  else Retorno.nulo

/-- Function `ValidarStringObrigatoria`. -/
def ValidarStringObrigatoria (g : Heap) (valor nomeCampo : String) : Option (Heap × Erro) :=
  (retornoValidarStringObrigatoria valor nomeCampo).executar g

/-- The body of `ValidarTamanhoString`. -/
def retornoValidarTamanhoString (valor nomeCampo : String) (min max : Int) : Retorno :=
  let tamanho : Int := RuneCountInString valor
  if tamanho < min then
    Retorno.erroDetalhes "CAMPO_MUITO_CURTO" "Campo muito curto"
      ("Campo: " ++ nomeCampo ++ ", tamanho mínimo: " ++ Itoa min
        ++ ", tamanho atual: " ++ Itoa tamanho)
  else if max > 0 ∧ tamanho > max then
    Retorno.erroDetalhes "CAMPO_MUITO_LONGO" "Campo muito longo"
      ("Campo: " ++ nomeCampo ++ ", tamanho máximo: " ++ Itoa max
        ++ ", tamanho atual: " ++ Itoa tamanho)
  else Retorno.nulo

/-- Function `ValidarTamanhoString`. -/
def ValidarTamanhoString (g : Heap) (valor nomeCampo : String) (min max : Int) :
    Option (Heap × Erro) :=
  (retornoValidarTamanhoString valor nomeCampo min max).executar g

/-- Whether a call returned `nil`, or an error that points to a struct of
category validation and status 400 of which `EhErroValidacao` holds. -/
def ehNilOuValidacao (res : Option (Heap × Erro)) : Bool :=
  match res with
  | some (_, Erro.nil) => true
  | some (g, Erro.api p) =>
    match deref g p with
    | some v =>
      decide (v.Tipo = TipoValidacao) && decide (v.StatusHTTP = 400)
        && decide (EhErroValidacao g (Erro.api p) = some true)
    | none => false
  | _ => false

/-- The check digit as the specification words it: 0 when the remainder of
the sum modulo 11 is below 2, else 11 minus the remainder. -/
def chkEspec (s : Nat) : Nat := if s % 11 < 2 then 0 else 11 - s % 11

end Goerror

namespace Goerror

/-- A text conforms to a list of classes: as many characters as classes,
each character in its class. -/
def conforma : List (Char → Bool) → List Char → Bool
  | [], [] => true
  | p :: ps, c :: cs => p c && conforma ps cs
  | _, _ => false

/-- Every concatenation of `n` lists taken from `x`. -/
def produto (x : List (List (Char → Bool))) : Nat → List (List (Char → Bool))
  | 0 => [[]]
  | n + 1 => x.flatMap (fun a => (produto x n).map (fun b => a ++ b))

/-- The lists of classes an expression stands for: a text matches the
expression exactly when it conforms to one of them. -/
def Re.padroes : Re → List (List (Char → Bool))
  | Re.classe p => [[p]]
  | Re.seq a b => a.padroes.flatMap (fun x => b.padroes.map (fun y => x ++ y))
  | Re.alt a b => a.padroes ++ b.padroes
  | Re.opt a => a.padroes ++ [[]]
  | Re.rep n a => produto a.padroes n

/-- The class of the character `-`. -/
def ehHifen (c : Char) : Bool := c == '-'

/-- A hexadecimal digit with the letter in either case: `0-9`, `a-f`, `A-F`. -/
def ehHex (c : Char) : Bool :=
  decide ((48 ≤ c.toNat ∧ c.toNat ≤ 57) ∨ (97 ≤ c.toNat ∧ c.toNat ≤ 102)
    ∨ (65 ≤ c.toNat ∧ c.toNat ≤ 70))

/-- Eight decimal digits. -/
def padraoCEP8 : List (Char → Bool) := List.replicate 8 ehDigito

/-- Five decimal digits, `-`, three decimal digits. -/
def padraoCEP9 : List (Char → Bool) :=
  List.replicate 5 ehDigito ++ [ehHifen] ++ List.replicate 3 ehDigito

/-- The shape 8-4-4-4-12: groups of characters of the class `h` separated by
characters of the class `sep`. -/
def padraoUUID (h sep : Char → Bool) : List (Char → Bool) :=
  List.replicate 8 h ++ [sep] ++ List.replicate 4 h ++ [sep] ++ List.replicate 4 h ++ [sep]
    ++ List.replicate 4 h ++ [sep] ++ List.replicate 12 h

end Goerror

/-! ## `src/handlers.go` -/

namespace Errors

/-- Function `CriarErroBancoOperacao` (package `main`, next to
`src/errors.go`). -/
def CriarErroBancoOperacao (h : Heap) (agora : Nat) (operacao tabela : String) (causa : Erro) :
    Option (Heap × Ponteiro) :=
  let r := NovoErroBancoDados h agora "DB_OPERATION_ERROR" ("Erro na operação de " ++ operacao)
  (ComDetalhes r.1 r.2 ("Tabela: " ++ tabela)).bind (fun x => ComCausa x.1 x.2 causa)

end Errors

/-! ## The phone shape in the words of the specification -/

namespace Goerror

/-- The class of the character `(`. -/
def ehAbre (c : Char) : Bool := c == '('

/-- The class of the character `)`. -/
def ehFecha (c : Char) : Bool := c == ')'

/-- The class of the character `9`. -/
def ehNove (c : Char) : Bool := c == '9'

/-- The ways to write the area code, in the words of the specification:
`(dd)` or `dd`, each with or without one whitespace character after it, or
no area code at all. -/
def formaDDD : List (List (Char → Bool)) :=
  [[ehAbre, ehDigito, ehDigito, ehFecha, ehBranco],
   [ehAbre, ehDigito, ehDigito, ehFecha],
   [ehDigito, ehDigito, ehBranco],
   [ehDigito, ehDigito],
   []]

/-- The ways to write the number, in the words of the specification: an
optional `9`, four digits, an optional `-`, four digits. -/
def formaNumero : List (List (Char → Bool)) :=
  [[ehNove, ehDigito, ehDigito, ehDigito, ehDigito, ehHifen,
      ehDigito, ehDigito, ehDigito, ehDigito],
   [ehNove, ehDigito, ehDigito, ehDigito, ehDigito, ehDigito, ehDigito, ehDigito, ehDigito],
   [ehDigito, ehDigito, ehDigito, ehDigito, ehHifen, ehDigito, ehDigito, ehDigito, ehDigito],
   [ehDigito, ehDigito, ehDigito, ehDigito, ehDigito, ehDigito, ehDigito, ehDigito]]

/-- The phone shape of the specification: an area code in one of its forms
followed by a number in one of its forms, and nothing else. -/
def temFormaTelefone (t : String) : Bool :=
  formaDDD.any (fun a => formaNumero.any (fun r => conforma (a ++ r) t.toList))

/-- A number in one of its forms, written without an area code. -/
def semDDD (t : String) : Bool := formaNumero.any (fun r => conforma r t.toList)

/-- How many decimal digits a text contains. -/
def contarDigitos (t : String) : Nat := (t.toList.filter ehDigito).length

end Goerror

/-! ## Theorems -/

namespace Errors

theorem deref_novoErro (h : Heap) (agora : Nat) (tipo codigo mensagem : String) (st : Int) :
    deref (novoErro h agora tipo codigo mensagem st).1 (novoErro h agora tipo codigo mensagem st).2
      = some { Tipo := tipo, Codigo := codigo, Mensagem := mensagem, Detalhes := "",
               StatusHTTP := st, Timestamp := agora, CausaRaiz := Erro.nil } := by
  simp [deref, novoErro]

theorem novoErro_preserva (h : Heap) (agora : Nat) (tipo codigo mensagem : String) (st : Int)
    (a : Nat) (ha : a < h.length) :
    (novoErro h agora tipo codigo mensagem st).1[a]? = h[a]? := by
  simp [novoErro, List.getElem?_append_left ha]

/-- Every constructor is `novoErro` at its category constant and some status. -/
theorem aplicar_eq_novoErro (k : Construtor) :
    ∃ st : Int, tabelaStatus k.tipo = some st ∧
      ∀ h agora codigo mensagem,
        k.aplicar h agora codigo mensagem = novoErro h agora k.tipo codigo mensagem st := by
  cases k
  · exact ⟨400, by decide, fun _ _ _ _ => rfl⟩
  · exact ⟨500, by decide, fun _ _ _ _ => rfl⟩
  · exact ⟨503, by decide, fun _ _ _ _ => rfl⟩
  · exact ⟨404, by decide, fun _ _ _ _ => rfl⟩
  · exact ⟨401, by decide, fun _ _ _ _ => rfl⟩
  · exact ⟨403, by decide, fun _ _ _ _ => rfl⟩
  · exact ⟨409, by decide, fun _ _ _ _ => rfl⟩
  · exact ⟨500, by decide, fun _ _ _ _ => rfl⟩
  · exact ⟨429, by decide, fun _ _ _ _ => rfl⟩
  · exact ⟨405, by decide, fun _ _ _ _ => rfl⟩
  · exact ⟨400, by decide, fun _ _ _ _ => rfl⟩

/-- C1: `ObterStatusHTTP` of the result of each of the eleven constructors of
`src/errors.go` is the status of the fixed table, for every heap, clock
reading, code and message. -/
theorem c1_status_de_cada_construtor (h : Heap) (agora : Nat) (codigo mensagem : String) :
    ObterStatusHTTP (NovoErroValidacao h agora codigo mensagem).1
        (Erro.api (NovoErroValidacao h agora codigo mensagem).2) = some 400
    ∧ ObterStatusHTTP (NovoErroBancoDados h agora codigo mensagem).1
        (Erro.api (NovoErroBancoDados h agora codigo mensagem).2) = some 500
    ∧ ObterStatusHTTP (NovoErroConexao h agora codigo mensagem).1
        (Erro.api (NovoErroConexao h agora codigo mensagem).2) = some 503
    ∧ ObterStatusHTTP (NovoErroNaoEncontrado h agora codigo mensagem).1
        (Erro.api (NovoErroNaoEncontrado h agora codigo mensagem).2) = some 404
    ∧ ObterStatusHTTP (NovoErroAutenticacao h agora codigo mensagem).1
        (Erro.api (NovoErroAutenticacao h agora codigo mensagem).2) = some 401
    ∧ ObterStatusHTTP (NovoErroAutorizacao h agora codigo mensagem).1
        (Erro.api (NovoErroAutorizacao h agora codigo mensagem).2) = some 403
    ∧ ObterStatusHTTP (NovoErroConflito h agora codigo mensagem).1
        (Erro.api (NovoErroConflito h agora codigo mensagem).2) = some 409
    ∧ ObterStatusHTTP (NovoErroInterno h agora codigo mensagem).1
        (Erro.api (NovoErroInterno h agora codigo mensagem).2) = some 500
    ∧ ObterStatusHTTP (NovoErroLimiteExcedido h agora codigo mensagem).1
        (Erro.api (NovoErroLimiteExcedido h agora codigo mensagem).2) = some 429
    ∧ ObterStatusHTTP (NovoErroMetodoInvalido h agora codigo mensagem).1
        (Erro.api (NovoErroMetodoInvalido h agora codigo mensagem).2) = some 405
    ∧ ObterStatusHTTP (NovoErroArquivo h agora codigo mensagem).1
        (Erro.api (NovoErroArquivo h agora codigo mensagem).2) = some 400 := by
  refine ⟨?_, ?_, ?_, ?_, ?_, ?_, ?_, ?_, ?_, ?_, ?_⟩
  · simp only [ObterStatusHTTP, NovoErroValidacao, deref_novoErro]; rfl
  · simp only [ObterStatusHTTP, NovoErroBancoDados, deref_novoErro]; rfl
  · simp only [ObterStatusHTTP, NovoErroConexao, deref_novoErro]; rfl
  · simp only [ObterStatusHTTP, NovoErroNaoEncontrado, deref_novoErro]; rfl
  · simp only [ObterStatusHTTP, NovoErroAutenticacao, deref_novoErro]; rfl
  · simp only [ObterStatusHTTP, NovoErroAutorizacao, deref_novoErro]; rfl
  · simp only [ObterStatusHTTP, NovoErroConflito, deref_novoErro]; rfl
  · simp only [ObterStatusHTTP, NovoErroInterno, deref_novoErro]; rfl
  · simp only [ObterStatusHTTP, NovoErroLimiteExcedido, deref_novoErro]; rfl
  · simp only [ObterStatusHTTP, NovoErroMetodoInvalido, deref_novoErro]; rfl
  · simp only [ObterStatusHTTP, NovoErroArquivo, deref_novoErro]; rfl

/-- C2: each of the eleven constructors of `src/errors.go`, for every code
and message, returns a non-nil pointer to a fresh struct whose `Tipo` is the
constructor's category constant, whose `Codigo` and `Mensagem` are the
arguments, whose `Detalhes` is empty and whose `CausaRaiz` is nil; the
structs allocated before are untouched. -/
theorem c2_construtor_campos (k : Construtor) (h : Heap) (agora : Nat)
    (codigo mensagem : String) :
    (k.aplicar h agora codigo mensagem).2 ≠ Ponteiro.nil
    ∧ (k.aplicar h agora codigo mensagem).2 = Ponteiro.addr h.length
    ∧ (∃ v, deref (k.aplicar h agora codigo mensagem).1 (k.aplicar h agora codigo mensagem).2
              = some v
          ∧ v.Tipo = k.tipo ∧ v.Codigo = codigo ∧ v.Mensagem = mensagem
          ∧ v.Detalhes = "" ∧ v.CausaRaiz = Erro.nil)
    ∧ (∀ a, a < h.length → (k.aplicar h agora codigo mensagem).1[a]? = h[a]?) := by
  obtain ⟨st, -, hk⟩ := aplicar_eq_novoErro k
  rw [hk]
  refine ⟨by simp [novoErro], rfl, ⟨_, deref_novoErro h agora k.tipo codigo mensagem st, rfl, rfl, rfl, rfl, rfl⟩, ?_⟩
  intro a ha
  exact novoErro_preserva h agora k.tipo codigo mensagem st a ha

end Errors

theorem set_concat_length {α : Type} (l : List α) (x y : α) :
    (l ++ [x]).set l.length y = l ++ [y] := by
  induction l with
  | nil => rfl
  | cons b t ih => simp [List.set, ih]

namespace Errors

theorem converterErro_outro (h : Heap) (agora ident : Nat) (msg : String) :
    ConverterErro h agora (Erro.outro ident msg)
      = some (h ++ [({ Tipo := "INTERNAL_ERROR", Codigo := "UNKNOWN_ERROR",
                       Mensagem := "Erro não categorizado", Detalhes := msg,
                       StatusHTTP := 500, Timestamp := agora,
                       CausaRaiz := Erro.outro ident msg } : ErroAPI)],
              Ponteiro.addr h.length) := by
  simp [ConverterErro, NovoErroInterno, novoErro, ComCausa, chamarError, set_concat_length,
    TipoInterno, StatusInternalServerError]

end Errors

/-- C3: `ConverterErro`, in `src/errors.go` and in `src/error.go`, returns the
nil pointer for the nil error, returns the boxed pointer itself (allocating
and writing nothing) for an error that is a `*ErroAPI`, and for every other
error allocates one struct of category Internal with code `UNKNOWN_ERROR`,
status 500 and cause equal to the error. -/
theorem c3_converterErro (h : Errors.Heap) (g : Goerror.Heap) (agora : Nat) (p : Ponteiro)
    (ident : Nat) (msg : String) :
    Errors.ConverterErro h agora Erro.nil = some (h, Ponteiro.nil)
    ∧ Errors.ConverterErro h agora (Erro.api p) = some (h, p)
    ∧ Errors.ConverterErro h agora (Erro.outro ident msg)
        = some (h ++ [({ Tipo := Errors.TipoInterno, Codigo := "UNKNOWN_ERROR",
                         Mensagem := "Erro não categorizado", Detalhes := msg,
                         StatusHTTP := 500, Timestamp := agora,
                         CausaRaiz := Erro.outro ident msg } : Errors.ErroAPI)],
                Ponteiro.addr h.length)
    ∧ Goerror.ConverterErro g Erro.nil = (g, Ponteiro.nil)
    ∧ Goerror.ConverterErro g (Erro.api p) = (g, p)
    ∧ Goerror.ConverterErro g (Erro.outro ident msg)
        = (g ++ [({ Tipo := Goerror.TipoInterno, CodigoPersonal := "UNKNOWN_ERROR",
                    Mensagem := "Erro interno não identificado", StatusHTTP := 500,
                    Detalhes := msg,
                    ErroOriginal := Erro.outro ident msg } : Goerror.ErroAPI)],
           Ponteiro.addr g.length) :=
  ⟨rfl, rfl, Errors.converterErro_outro h agora ident msg, rfl, rfl, rfl⟩

/-- C4: `ConverterErro` is idempotent in both packages: applied to its own
result (boxed as an `error`), it returns that same pointer and leaves the
heap as the first application left it, for the nil error, for a `*ErroAPI`
and for a foreign error alike. -/
theorem c4_converterErro_idempotente (h : Errors.Heap) (g : Goerror.Heap)
    (agora agora2 : Nat) (x : Erro) :
    (∃ h1 p, Errors.ConverterErro h agora x = some (h1, p)
        ∧ Errors.ConverterErro h1 agora2 (Erro.api p) = some (h1, p))
    ∧ Goerror.ConverterErro (Goerror.ConverterErro g x).1
          (Erro.api (Goerror.ConverterErro g x).2) = Goerror.ConverterErro g x := by
  constructor
  · cases x with
    | nil => exact ⟨h, Ponteiro.nil, rfl, rfl⟩
    | api p => exact ⟨h, p, rfl, rfl⟩
    | outro ident msg => exact ⟨_, _, Errors.converterErro_outro h agora ident msg, rfl⟩
  · cases x <;> rfl

namespace Errors

theorem predicado_eq (k : Construtor) : k.predicado = ehErroDoTipo k.tipo := by
  cases k <;> rfl

theorem tipo_injetiva (x y : Construtor) : x.tipo = y.tipo ↔ x = y := by
  cases x <;> cases y <;> decide

end Errors

namespace Goerror

theorem aplicar_eq_ehErroDoTipo (q : Predicado) :
    q.aplicar = ehErroDoTipo q.categoria.tipo := by
  cases q <;> rfl

theorem categoria_tipo_injetiva (x y : Categoria) : x.tipo = y.tipo ↔ x = y := by
  cases x <;> cases y <;> decide

theorem deref_alocar (g : Heap) (v : ErroAPI) : deref (alocar g v).1 (alocar g v).2 = some v := by
  simp [deref, alocar]

theorem construtor_tipo (k : Construtor) (g : Heap) (codigo mensagem : String) :
    ∃ v, deref (k.aplicar g codigo mensagem).1 (k.aplicar g codigo mensagem).2 = some v
      ∧ v.Tipo = k.categoria.tipo := by
  cases k <;> exact ⟨_, deref_alocar _ _, rfl⟩

end Goerror


/-- C5: each predicate `EhErroX` of `src/errors.go` and of `src/error.go`
returns true exactly when the error is a `*ErroAPI` whose `Tipo` is category
X, and returns false for the nil error and for every error that is not a
`*ErroAPI`; applied to the result of a constructor of category Y, the
predicate of category X returns true if and only if X = Y. -/
theorem c5_predicados (h : Errors.Heap) (g : Goerror.Heap) (agora ident : Nat)
    (codigo mensagem msg : String) (err : Erro) (p : Ponteiro) :
    (∀ x : Errors.Construtor,
        (x.predicado h err = some true
            ↔ ∃ q v, err = Erro.api q ∧ Errors.deref h q = some v ∧ v.Tipo = x.tipo)
        ∧ x.predicado h (Erro.api p)
            = (Errors.deref h p).map (fun v => decide (v.Tipo = x.tipo))
        ∧ x.predicado h Erro.nil = some false
        ∧ x.predicado h (Erro.outro ident msg) = some false
        ∧ ∀ y : Errors.Construtor,
            x.predicado (y.aplicar h agora codigo mensagem).1
              (Erro.api (y.aplicar h agora codigo mensagem).2) = some (decide (x = y)))
    ∧ (∀ x : Goerror.Predicado,
        (x.aplicar g err = some true
            ↔ ∃ q v, err = Erro.api q ∧ Goerror.deref g q = some v
                ∧ v.Tipo = x.categoria.tipo)
        ∧ x.aplicar g (Erro.api p)
            = (Goerror.deref g p).map (fun v => decide (v.Tipo = x.categoria.tipo))
        ∧ x.aplicar g Erro.nil = some false
        ∧ x.aplicar g (Erro.outro ident msg) = some false
        ∧ ∀ y : Goerror.Construtor,
            x.aplicar (y.aplicar g codigo mensagem).1
              (Erro.api (y.aplicar g codigo mensagem).2)
              = some (decide (x.categoria = y.categoria))) := by
  constructor
  · intro x
    rw [Errors.predicado_eq]
    refine ⟨?_, rfl, rfl, rfl, ?_⟩
    · cases err with
      | nil => simp [Errors.ehErroDoTipo]
      | outro i m => simp [Errors.ehErroDoTipo]
      | api q => simp [Errors.ehErroDoTipo]
    · intro y
      obtain ⟨st, -, hy⟩ := Errors.aplicar_eq_novoErro y
      rw [hy]
      simp only [Errors.ehErroDoTipo, Errors.deref_novoErro, Option.map_some']
      congr 1
      have := Errors.tipo_injetiva y x
      by_cases hxy : x = y
      · subst hxy; simp
      · have hne : ¬ y.tipo = x.tipo := fun e => hxy ((this.mp e).symm)
        simp [hxy, hne]
  · intro x
    rw [Goerror.aplicar_eq_ehErroDoTipo]
    refine ⟨?_, ?_, rfl, ?_, ?_⟩
    · cases err with
      | nil => simp [Goerror.ehErroDoTipo]
      | outro i m => simp [Goerror.ehErroDoTipo]
      | api q => simp [Goerror.ehErroDoTipo]
    · simp [Goerror.ehErroDoTipo]
    · simp [Goerror.ehErroDoTipo]
    · intro y
      obtain ⟨v, hv, hT⟩ := Goerror.construtor_tipo y g codigo mensagem
      simp only [Goerror.ehErroDoTipo, hv, Option.map_some']
      have := Goerror.categoria_tipo_injetiva y.categoria x.categoria
      by_cases hxy : x.categoria = y.categoria
      · simp [hT, hxy]
      · have hne : ¬ y.categoria.tipo = x.categoria.tipo := fun e => hxy ((this.mp e).symm)
        simp [hT, hxy, hne]

/-- C6, as stated, fails on `src/errors.go`: the foreign error
`Erro.outro 0 "falha"` is not nil, `EhErroInterno` is false of it (before and
after the conversion), and yet `ConverterErro` gives it the category
Internal. -/
theorem c6_contraexemplo :
    Erro.outro 0 "falha" ≠ Erro.nil
    ∧ Errors.EhErroInterno [] (Erro.outro 0 "falha") = some false
    ∧ (Errors.ConverterErro [] 0 (Erro.outro 0 "falha")).bind
        (fun r => Errors.EhErroInterno r.1 (Erro.outro 0 "falha")) = some false
    ∧ (Errors.ConverterErro [] 0 (Erro.outro 0 "falha")).bind
        (fun r => (Errors.deref r.1 r.2).map Errors.ErroAPI.Tipo) = some Errors.TipoInterno := by
  decide

/-- C6, amended: for an error that is a pointer to an allocated `ErroAPI`
and every category C of `src/errors.go`, the predicate for C is true if and
only if the `Tipo` read through `ConverterErro` of the error is C; for a
foreign error every predicate (that of Internal included) is false, while
the `Tipo` read through `ConverterErro` of it is Internal. -/
theorem c6_predicado_sse_tipo_convertido (k : Errors.Construtor) (h : Errors.Heap)
    (agora a ident : Nat) (msg : String) (v : Errors.ErroAPI) (hv : h[a]? = some v) :
    (∃ h1 p v1, Errors.ConverterErro h agora (Erro.api (Ponteiro.addr a)) = some (h1, p)
        ∧ Errors.deref h1 p = some v1
        ∧ (k.predicado h (Erro.api (Ponteiro.addr a)) = some true ↔ v1.Tipo = k.tipo))
    ∧ k.predicado h (Erro.outro ident msg) = some false
    ∧ (∃ h1 p v1, Errors.ConverterErro h agora (Erro.outro ident msg) = some (h1, p)
        ∧ Errors.deref h1 p = some v1
        ∧ v1.Tipo = Errors.TipoInterno
        ∧ k.predicado h1 (Erro.outro ident msg) = some false) := by
  rw [Errors.predicado_eq]
  refine ⟨⟨h, Ponteiro.addr a, v, rfl, hv, ?_⟩, rfl, ?_⟩
  · simp [Errors.ehErroDoTipo, Errors.deref, hv]
  · exact ⟨_, _, _, Errors.converterErro_outro h agora ident msg,
      List.getElem?_concat_length _ _, rfl, rfl⟩

/-- C6, amended, at a concrete input: the heap holding one conflict error,
the predicate `EhErroConflito`, and the foreign error `Erro.outro 3 "falha"`. -/
theorem c6_predicado_sse_tipo_convertido_witness :
    (Errors.NovoErroConflito [] 5 "DUP" "duplicado").1[0]?
        = some { Tipo := "CONFLICT_ERROR", Codigo := "DUP", Mensagem := "duplicado",
                 Detalhes := "", StatusHTTP := 409, Timestamp := 5, CausaRaiz := Erro.nil }
    ∧ (∃ h1 p v1,
        Errors.ConverterErro (Errors.NovoErroConflito [] 5 "DUP" "duplicado").1 9
            (Erro.api (Ponteiro.addr 0)) = some (h1, p)
        ∧ Errors.deref h1 p = some v1
        ∧ (Errors.EhErroConflito (Errors.NovoErroConflito [] 5 "DUP" "duplicado").1
              (Erro.api (Ponteiro.addr 0)) = some true ↔ v1.Tipo = Errors.TipoConflito))
    ∧ Errors.EhErroConflito (Errors.NovoErroConflito [] 5 "DUP" "duplicado").1
        (Erro.outro 3 "falha") = some false :=
  ⟨by decide,
   (c6_predicado_sse_tipo_convertido Errors.Construtor.conflito
      (Errors.NovoErroConflito [] 5 "DUP" "duplicado").1 9 0 3 "falha"
      { Tipo := "CONFLICT_ERROR", Codigo := "DUP", Mensagem := "duplicado",
        Detalhes := "", StatusHTTP := 409, Timestamp := 5, CausaRaiz := Erro.nil }
      (by decide)).1,
   (c6_predicado_sse_tipo_convertido Errors.Construtor.conflito
      (Errors.NovoErroConflito [] 5 "DUP" "duplicado").1 9 0 3 "falha"
      { Tipo := "CONFLICT_ERROR", Codigo := "DUP", Mensagem := "duplicado",
        Detalhes := "", StatusHTTP := 409, Timestamp := 5, CausaRaiz := Erro.nil }
      (by decide)).2.1⟩

/-- C7: `ObterStatusHTTP` returns the `StatusHTTP` read through the pointer
when the error is a `*ErroAPI` and 500 for the nil error and for a foreign
error; for every non-nil error it equals the `StatusHTTP` read through
`ConverterErro` of the error. -/
theorem c7_obterStatusHTTP (h : Errors.Heap) (agora ident : Nat) (msg : String)
    (p : Ponteiro) (err : Erro) (hne : err ≠ Erro.nil) :
    Errors.ObterStatusHTTP h (Erro.api p) = (Errors.deref h p).map Errors.ErroAPI.StatusHTTP
    ∧ Errors.ObterStatusHTTP h Erro.nil = some 500
    ∧ Errors.ObterStatusHTTP h (Erro.outro ident msg) = some 500
    ∧ ∃ h1 q, Errors.ConverterErro h agora err = some (h1, q)
        ∧ Errors.ObterStatusHTTP h err = (Errors.deref h1 q).map Errors.ErroAPI.StatusHTTP
        ∧ Errors.ObterStatusHTTP h1 err = (Errors.deref h1 q).map Errors.ErroAPI.StatusHTTP := by
  refine ⟨rfl, rfl, rfl, ?_⟩
  cases err with
  | nil => exact absurd rfl hne
  | api q => exact ⟨h, q, rfl, rfl, rfl⟩
  | outro i m =>
    refine ⟨_, _, Errors.converterErro_outro h agora i m, ?_, ?_⟩ <;>
      simp [Errors.ObterStatusHTTP, Errors.deref, StatusInternalServerError]

/-- C7 at a concrete input: a not-found error read directly and through
`ConverterErro`. -/
theorem c7_obterStatusHTTP_witness :
    Erro.api (Ponteiro.addr 0) ≠ Erro.nil
    ∧ Errors.ObterStatusHTTP (Errors.NovoErroNaoEncontrado [] 1 "NF" "nada").1
        (Erro.api (Ponteiro.addr 0)) = some 404
    ∧ ∃ h1 q, Errors.ConverterErro (Errors.NovoErroNaoEncontrado [] 1 "NF" "nada").1 2
          (Erro.api (Ponteiro.addr 0)) = some (h1, q)
        ∧ (Errors.deref h1 q).map Errors.ErroAPI.StatusHTTP = some 404 := by
  have hne : Erro.api (Ponteiro.addr 0) ≠ Erro.nil := by decide
  have t := c7_obterStatusHTTP (Errors.NovoErroNaoEncontrado [] 1 "NF" "nada").1 2 0 ""
    (Ponteiro.addr 0) (Erro.api (Ponteiro.addr 0)) hne
  have e404 : Errors.ObterStatusHTTP (Errors.NovoErroNaoEncontrado [] 1 "NF" "nada").1
        (Erro.api (Ponteiro.addr 0)) = some 404 := by decide
  obtain ⟨h1, q, hc, hs, -⟩ := t.2.2.2
  exact ⟨hne, e404, h1, q, hc, by rw [← hs]; exact e404⟩

namespace Errors

theorem tabela_de_set (h : Heap) (a : Nat) (w : ErroAPI)
    (hw : tabelaStatus w.Tipo = some w.StatusHTTP)
    (hh : ∀ v ∈ h, tabelaStatus v.Tipo = some v.StatusHTTP) :
    ∀ v ∈ h.set a w, tabelaStatus v.Tipo = some v.StatusHTTP := by
  intro v hv
  rcases List.mem_or_eq_of_mem_set hv with hm | rfl
  · exact hh v hm
  · exact hw

theorem tabela_de_comDetalhes (h h1 : Heap) (e p : Ponteiro) (d : String)
    (hc : ComDetalhes h e d = some (h1, p))
    (hh : ∀ v ∈ h, tabelaStatus v.Tipo = some v.StatusHTTP) :
    ∀ v ∈ h1, tabelaStatus v.Tipo = some v.StatusHTTP := by
  cases e with
  | nil => simp [ComDetalhes] at hc
  | addr a =>
    unfold ComDetalhes at hc
    cases hv : h[a]? with
    | none => simp [hv] at hc
    | some w =>
      simp only [hv, Option.some.injEq, Prod.mk.injEq] at hc
      rw [← hc.1]
      exact tabela_de_set h a _ (hh w (List.getElem?_mem hv)) hh

theorem tabela_de_comCausa (h h1 : Heap) (e p : Ponteiro) (c : Erro)
    (hc : ComCausa h e c = some (h1, p))
    (hh : ∀ v ∈ h, tabelaStatus v.Tipo = some v.StatusHTTP) :
    ∀ v ∈ h1, tabelaStatus v.Tipo = some v.StatusHTTP := by
  cases e with
  | nil => simp [ComCausa] at hc
  | addr a =>
    unfold ComCausa at hc
    cases hv : h[a]? with
    | none => simp [hv] at hc
    | some w =>
      have hw := hh w (List.getElem?_mem hv)
      simp only [hv] at hc
      split at hc
      · split at hc
        · exact absurd hc (by simp)
        · simp only [Option.some.injEq, Prod.mk.injEq] at hc
          rw [← hc.1]
          exact tabela_de_set _ a _ hw (tabela_de_set h a _ hw hh)
      · simp only [Option.some.injEq, Prod.mk.injEq] at hc
        rw [← hc.1]
        exact tabela_de_set h a _ hw hh

/-- Invariant of the reachable heaps: every struct carries the status the
table assigns to its category. -/
theorem tabela_de_alcancavel (h : Heap) (r : Alcancavel h) :
    ∀ v ∈ h, tabelaStatus v.Tipo = some v.StatusHTTP := by
  induction r with
  | vazio => intro v hv; simp at hv
  | construtor k h agora codigo mensagem _ ih =>
    obtain ⟨st, hst, hk⟩ := aplicar_eq_novoErro k
    rw [hk]
    intro v hv
    simp only [novoErro, List.mem_append, List.mem_singleton] at hv
    rcases hv with hm | rfl
    · exact ih v hm
    · exact hst
  | converter h agora err h1 p _ hc ih =>
    cases err with
    | nil =>
      simp only [ConverterErro, Option.some.injEq, Prod.mk.injEq] at hc
      rw [← hc.1]; exact ih
    | api q =>
      simp only [ConverterErro, Option.some.injEq, Prod.mk.injEq] at hc
      rw [← hc.1]; exact ih
    | outro i m =>
      rw [converterErro_outro] at hc
      simp only [Option.some.injEq, Prod.mk.injEq] at hc
      rw [← hc.1]
      intro v hv
      simp only [List.mem_append, List.mem_singleton] at hv
      rcases hv with hm | rfl
      · exact ih v hm
      · rfl
  | comDetalhes h e d h1 p _ hc ih => exact tabela_de_comDetalhes h h1 e p d hc ih
  | comCausa h e c h1 p _ hc ih => exact tabela_de_comCausa h h1 e p c hc ih

/-- C8: in `src/errors.go`, `StatusHTTP` is a function of `Tipo` on the
reachable values: two structs found in heaps reached through the eleven
constructors, `ConverterErro`, `ComDetalhes` and `ComCausa` that have equal
`Tipo` have equal `StatusHTTP`, and that status is the table value of the
category. -/
theorem c8_status_funcao_do_tipo (h1 h2 : Heap) (v1 v2 : ErroAPI)
    (r1 : Alcancavel h1) (r2 : Alcancavel h2) (m1 : v1 ∈ h1) (m2 : v2 ∈ h2)
    (ht : v1.Tipo = v2.Tipo) :
    v1.StatusHTTP = v2.StatusHTTP ∧ tabelaStatus v1.Tipo = some v1.StatusHTTP := by
  have t1 := tabela_de_alcancavel h1 r1 v1 m1
  have t2 := tabela_de_alcancavel h2 r2 v2 m2
  rw [ht, t2] at t1
  refine ⟨(Option.some.inj t1).symm, ?_⟩
  rw [ht, t2, ← Option.some.inj t1]

/-- C8 at a concrete input: a validation error that received a detail and,
in another run, a validation error that received a cause. -/
theorem c8_status_funcao_do_tipo_witness :
    Alcancavel [{ Tipo := "VALIDATION_ERROR", Codigo := "A", Mensagem := "a", Detalhes := "x",
                  StatusHTTP := 400, Timestamp := 1, CausaRaiz := Erro.nil }]
    ∧ Alcancavel [{ Tipo := "VALIDATION_ERROR", Codigo := "B", Mensagem := "b",
                    Detalhes := "falha", StatusHTTP := 400, Timestamp := 2,
                    CausaRaiz := Erro.outro 0 "falha" }]
    ∧ (400 : Int) = 400 ∧ tabelaStatus "VALIDATION_ERROR" = some 400 := by
  have r1 : Alcancavel [({ Tipo := "VALIDATION_ERROR", Codigo := "A", Mensagem := "a",
                           Detalhes := "x", StatusHTTP := 400, Timestamp := 1,
                           CausaRaiz := Erro.nil } : ErroAPI)] :=
    Alcancavel.comDetalhes (Construtor.validacao.aplicar [] 1 "A" "a").1 (Ponteiro.addr 0) "x"
      _ (Ponteiro.addr 0) (Alcancavel.construtor Construtor.validacao [] 1 "A" "a" Alcancavel.vazio)
      (by decide)
  have r2 : Alcancavel [({ Tipo := "VALIDATION_ERROR", Codigo := "B", Mensagem := "b",
                           Detalhes := "falha", StatusHTTP := 400, Timestamp := 2,
                           CausaRaiz := Erro.outro 0 "falha" } : ErroAPI)] :=
    Alcancavel.comCausa (Construtor.validacao.aplicar [] 2 "B" "b").1 (Ponteiro.addr 0)
      (Erro.outro 0 "falha") _ (Ponteiro.addr 0)
      (Alcancavel.construtor Construtor.validacao [] 2 "B" "b" Alcancavel.vazio) (by decide)
  have t := c8_status_funcao_do_tipo _ _ _ _ r1 r2 (List.mem_singleton.mpr rfl)
    (List.mem_singleton.mpr rfl) rfl
  exact ⟨r1, r2, t.1, t.2⟩

end Errors

/-- C9, evaluated on `src/error.go`: the pre-declared `ErrEmailJaExiste` has
the category of `NovoErroValidacao` and `ErroValidacao` (VALIDACAO) but status
409 where the constructors give 400, and the pre-declared `ErrTokenInvalido`
and `ErrPermissaoNegada` share the category NAO_AUTORIZADO with statuses 401
and 403. -/
theorem c9_predeclarados_divergem :
    (Goerror.deref Goerror.heapInicial Goerror.ErrEmailJaExiste).map Goerror.ErroAPI.Tipo
        = some "VALIDACAO"
    ∧ (Goerror.deref Goerror.heapInicial Goerror.ErrEmailJaExiste).map Goerror.ErroAPI.StatusHTTP
        = some 409
    ∧ (Goerror.deref (Goerror.NovoErroValidacao Goerror.heapInicial "X" "m").1
          (Goerror.NovoErroValidacao Goerror.heapInicial "X" "m").2).map Goerror.ErroAPI.Tipo
        = some "VALIDACAO"
    ∧ (Goerror.deref (Goerror.NovoErroValidacao Goerror.heapInicial "X" "m").1
          (Goerror.NovoErroValidacao Goerror.heapInicial "X" "m").2).map
            Goerror.ErroAPI.StatusHTTP
        = some 400
    ∧ Goerror.ErroValidacao Goerror.heapInicial "X" "m"
        = (Goerror.heapInicial ++ [{ Tipo := "VALIDACAO", CodigoPersonal := "X", Mensagem := "m",
                                     StatusHTTP := 400, Detalhes := "",
                                     ErroOriginal := Erro.nil }],
           Erro.api (Ponteiro.addr 4))
    ∧ (Goerror.deref Goerror.heapInicial Goerror.ErrTokenInvalido).map Goerror.ErroAPI.Tipo
        = some "NAO_AUTORIZADO"
    ∧ (Goerror.deref Goerror.heapInicial Goerror.ErrTokenInvalido).map Goerror.ErroAPI.StatusHTTP
        = some 401
    ∧ (Goerror.deref Goerror.heapInicial Goerror.ErrPermissaoNegada).map Goerror.ErroAPI.Tipo
        = some "NAO_AUTORIZADO"
    ∧ (Goerror.deref Goerror.heapInicial Goerror.ErrPermissaoNegada).map
          Goerror.ErroAPI.StatusHTTP
        = some 403 := by
  decide

/-- C10: `ComDetalhes`, in `src/errors.go` and in `src/error.go`, called on a
pointer to an allocated struct with any current `Detalhes`, returns that same
pointer; afterwards the struct has `Detalhes` equal to the argument and its
other fields as before, every other struct of the heap is untouched, and a
second call overwrites the first detail. -/
theorem c10_comDetalhes (h : Errors.Heap) (g : Goerror.Heap) (a b : Nat)
    (v : Errors.ErroAPI) (w : Goerror.ErroAPI) (d d2 : String)
    (hv : h[a]? = some v) (gw : g[b]? = some w) :
    (∃ h1 v1, Errors.ComDetalhes h (Ponteiro.addr a) d = some (h1, Ponteiro.addr a)
        ∧ Errors.deref h1 (Ponteiro.addr a) = some v1
        ∧ v1.Detalhes = d ∧ v1.Tipo = v.Tipo ∧ v1.Codigo = v.Codigo
        ∧ v1.Mensagem = v.Mensagem ∧ v1.StatusHTTP = v.StatusHTTP
        ∧ v1.CausaRaiz = v.CausaRaiz ∧ v1.Timestamp = v.Timestamp
        ∧ h1.length = h.length ∧ (∀ c, c ≠ a → h1[c]? = h[c]?)
        ∧ ∃ h2, Errors.ComDetalhes h1 (Ponteiro.addr a) d2 = some (h2, Ponteiro.addr a)
            ∧ (Errors.deref h2 (Ponteiro.addr a)).map Errors.ErroAPI.Detalhes = some d2)
    ∧ (∃ g1 w1, Goerror.ComDetalhes g (Ponteiro.addr b) d = some (g1, Ponteiro.addr b)
        ∧ Goerror.deref g1 (Ponteiro.addr b) = some w1
        ∧ w1.Detalhes = d ∧ w1.Tipo = w.Tipo ∧ w1.CodigoPersonal = w.CodigoPersonal
        ∧ w1.Mensagem = w.Mensagem ∧ w1.StatusHTTP = w.StatusHTTP
        ∧ w1.ErroOriginal = w.ErroOriginal
        ∧ g1.length = g.length ∧ (∀ c, c ≠ b → g1[c]? = g[c]?)
        ∧ ∃ g2, Goerror.ComDetalhes g1 (Ponteiro.addr b) d2 = some (g2, Ponteiro.addr b)
            ∧ (Goerror.deref g2 (Ponteiro.addr b)).map Goerror.ErroAPI.Detalhes = some d2) := by
  have ha : a < h.length := (List.getElem?_eq_some.mp hv).1
  have hb : b < g.length := (List.getElem?_eq_some.mp gw).1
  constructor
  · refine ⟨h.set a { v with Detalhes := d }, { v with Detalhes := d }, ?_, ?_,
      rfl, rfl, rfl, rfl, rfl, rfl, rfl, ?_, ?_, ?_⟩
    · simp [Errors.ComDetalhes, hv]
    · simp [Errors.deref, ha]
    · simp
    · intro c hc
      exact List.getElem?_set_ne (Ne.symm hc)
    · refine ⟨(h.set a { v with Detalhes := d }).set a { v with Detalhes := d2 }, ?_, ?_⟩
      · simp [Errors.ComDetalhes, ha]
      · simp [Errors.deref, ha]
  · refine ⟨g.set b { w with Detalhes := d }, { w with Detalhes := d }, ?_, ?_,
      rfl, rfl, rfl, rfl, rfl, rfl, ?_, ?_, ?_⟩
    · simp [Goerror.ComDetalhes, gw]
    · simp [Goerror.deref, hb]
    · simp
    · intro c hc
      exact List.getElem?_set_ne (Ne.symm hc)
    · refine ⟨(g.set b { w with Detalhes := d }).set b { w with Detalhes := d2 }, ?_, ?_⟩
      · simp [Goerror.ComDetalhes, hb]
      · simp [Goerror.deref, hb]

/-- C10 at a concrete input: a struct that already has a detail, in each
package, receives two details in a row. -/
theorem c10_comDetalhes_witness :
    ([{ Tipo := "FILE_ERROR", Codigo := "F", Mensagem := "m", Detalhes := "antes",
        StatusHTTP := 400, Timestamp := 3, CausaRaiz := Erro.nil }] : Errors.Heap)[0]?
      = some { Tipo := "FILE_ERROR", Codigo := "F", Mensagem := "m", Detalhes := "antes",
               StatusHTTP := 400, Timestamp := 3, CausaRaiz := Erro.nil }
    ∧ Goerror.heapInicial[1]?
      = some { Tipo := "VALIDACAO", CodigoPersonal := "EMAIL_EXISTS",
               Mensagem := "Email já está em uso", StatusHTTP := 409,
               Detalhes := "", ErroOriginal := Erro.nil }
    ∧ (∃ h1 v1,
        Errors.ComDetalhes
            [{ Tipo := "FILE_ERROR", Codigo := "F", Mensagem := "m", Detalhes := "antes",
               StatusHTTP := 400, Timestamp := 3, CausaRaiz := Erro.nil }]
            (Ponteiro.addr 0) "d1" = some (h1, Ponteiro.addr 0)
        ∧ Errors.deref h1 (Ponteiro.addr 0) = some v1 ∧ v1.Detalhes = "d1"
        ∧ ∃ h2, Errors.ComDetalhes h1 (Ponteiro.addr 0) "d2" = some (h2, Ponteiro.addr 0)
            ∧ (Errors.deref h2 (Ponteiro.addr 0)).map Errors.ErroAPI.Detalhes = some "d2")
    ∧ (∃ g1 w1,
        Goerror.ComDetalhes Goerror.heapInicial (Ponteiro.addr 1) "d1"
            = some (g1, Ponteiro.addr 1)
        ∧ Goerror.deref g1 (Ponteiro.addr 1) = some w1 ∧ w1.Detalhes = "d1"
        ∧ w1.StatusHTTP = 409) := by
  have t := c10_comDetalhes
    [{ Tipo := "FILE_ERROR", Codigo := "F", Mensagem := "m", Detalhes := "antes",
       StatusHTTP := 400, Timestamp := 3, CausaRaiz := Erro.nil }]
    Goerror.heapInicial 0 1 _ _ "d1" "d2" rfl rfl
  obtain ⟨⟨h1, v1, e1, e2, e3, -, -, -, -, -, -, -, -, e4⟩, ⟨g1, w1, f1, f2, f3, -, -, -, f4, -⟩⟩ := t
  exact ⟨rfl, rfl, ⟨h1, v1, e1, e2, e3, e4⟩, ⟨g1, w1, f1, f2, f3, f4⟩⟩

namespace Goerror

/-- A result of `Error` found within some depth is found within every larger
depth. -/
theorem errorCom_mono (h : Heap) (n : Nat) : ∀ (p : Ponteiro) (s : String),
    ErrorCom n h p = some s → ∀ m, n ≤ m → ErrorCom m h p = some s := by
  induction n with
  | zero => intro p s hs; simp [ErrorCom] at hs
  | succ n ih =>
    intro p s hs m hm
    obtain ⟨m', rfl⟩ : ∃ m', m = m' + 1 := ⟨m - 1, by omega⟩
    simp only [ErrorCom] at hs ⊢
    cases hd : deref h p with
    | none => simp [hd] at hs
    | some e =>
      simp only [hd] at hs ⊢
      cases hc : e.ErroOriginal with
      | nil => simpa [hc] using hs
      | outro i msg => simpa [hc] using hs
      | api q =>
        cases q with
        | nil => simpa [hc] using hs
        | addr b =>
          simp only [hc, Option.map_eq_some'] at hs ⊢
          obtain ⟨s', hs', rfl⟩ := hs
          exact ⟨s', ih _ _ hs' m' (by omega), rfl⟩

/-- A pointer whose `Error` returns points to an allocated struct. -/
theorem errorCom_alocado (h : Heap) (n : Nat) (p : Ponteiro) (s : String)
    (hs : ErrorCom n h p = some s) : ∃ b, p = Ponteiro.addr b ∧ b < h.length := by
  cases n with
  | zero => simp [ErrorCom] at hs
  | succ n =>
    simp only [ErrorCom] at hs
    cases p with
    | nil => simp [deref] at hs
    | addr b =>
      refine ⟨b, rfl, ?_⟩
      by_contra hb
      have : h[b]? = none := List.getElem?_eq_none (by omega)
      simp [deref, this] at hs

/-- One step down the cause chain: a pointer that needs exactly depth
`j + 2` has a cause that needs exactly depth `j + 1`. -/
theorem errorCom_passo (h : Heap) (j : Nat) (p : Ponteiro)
    (h1 : (ErrorCom (j + 2) h p).isSome) (h0 : ErrorCom (j + 1) h p = none) :
    ∃ q, (ErrorCom (j + 1) h q).isSome ∧ ErrorCom j h q = none := by
  simp only [ErrorCom] at h1 h0
  cases hd : deref h p with
  | none => simp [hd] at h1
  | some e =>
    simp only [hd] at h1 h0
    cases hc : e.ErroOriginal with
    | nil => simp [hc] at h0
    | outro i msg => simp [hc] at h0
    | api q =>
      cases q with
      | nil => simp [hc] at h0
      | addr b =>
        simp only [hc, Option.isSome_map', Option.map_eq_none'] at h1 h0
        exact ⟨Ponteiro.addr b, by simpa [ErrorCom] using h1, h0⟩

/-- Down the cause chain of a pointer that needs exactly depth `k + 1` there
is, for every `j ≤ k`, a pointer that needs exactly depth `j + 1`. -/
theorem errorCom_cadeia (h : Heap) (k : Nat) : ∀ (p : Ponteiro),
    (ErrorCom (k + 1) h p).isSome → ErrorCom k h p = none →
    ∀ j, j ≤ k → ∃ q, (ErrorCom (j + 1) h q).isSome ∧ ErrorCom j h q = none := by
  induction k with
  | zero =>
    intro p h1 h0 j hj
    obtain rfl : j = 0 := by omega
    exact ⟨p, h1, h0⟩
  | succ k ih =>
    intro p h1 h0 j hj
    by_cases hjk : j = k + 1
    · subst hjk; exact ⟨p, h1, h0⟩
    · obtain ⟨q, hq1, hq0⟩ := errorCom_passo h k p h1 h0
      exact ih q hq1 hq0 j (by omega)

/-- The depth a pointer needs is determined by the pointer. -/
theorem errorCom_profundidade_unica (h : Heap) (q : Ponteiro) (i j : Nat)
    (hi1 : (ErrorCom (i + 1) h q).isSome) (hi0 : ErrorCom i h q = none)
    (hj1 : (ErrorCom (j + 1) h q).isSome) (hj0 : ErrorCom j h q = none) : i = j := by
  by_contra hne
  rcases Nat.lt_or_gt_of_ne hne with hlt | hlt
  · obtain ⟨s, hs⟩ := Option.isSome_iff_exists.mp hi1
    have := errorCom_mono h (i + 1) q s hs j (by omega)
    rw [hj0] at this
    exact absurd this (by simp)
  · obtain ⟨s, hs⟩ := Option.isSome_iff_exists.mp hj1
    have := errorCom_mono h (j + 1) q s hs i (by omega)
    rw [hi0] at this
    exact absurd this (by simp)

/-- A cause chain that ends visits each struct at most once: the depth a
pointer needs is at most the number of allocated structs. -/
theorem errorCom_profundidade_le (h : Heap) (k : Nat) (p : Ponteiro)
    (h1 : (ErrorCom (k + 1) h p).isSome) (h0 : ErrorCom k h p = none) :
    k + 1 ≤ h.length := by
  have hex : ∀ j : Fin (k + 1), ∃ b : Fin h.length,
      (ErrorCom (j.val + 1) h (Ponteiro.addr b.val)).isSome
        ∧ ErrorCom j.val h (Ponteiro.addr b.val) = none := by
    intro j
    obtain ⟨q, hq1, hq0⟩ := errorCom_cadeia h k p h1 h0 j.val (by omega)
    obtain ⟨s, hs⟩ := Option.isSome_iff_exists.mp hq1
    obtain ⟨b, rfl, hb⟩ := errorCom_alocado h _ q s hs
    exact ⟨⟨b, hb⟩, hq1, hq0⟩
  choose f hf using hex
  have hinj : Function.Injective f := by
    intro i j hij
    have hi := hf i
    have hj := hf j
    rw [hij] at hi
    exact Fin.ext (errorCom_profundidade_unica h _ i.val j.val hi.1 hi.2 hj.1 hj.2)
  simpa using Fintype.card_le_of_injective f hinj

/-- The depth `h.length` that `Error` uses loses nothing: `Error` returns a
string exactly when the recursion returns it at some depth. -/
theorem error_exato (h : Heap) (p : Ponteiro) (s : String) :
    Error h p = some s ↔ ∃ n, ErrorCom n h p = some s := by
  constructor
  · intro hs; exact ⟨h.length, hs⟩
  · rintro ⟨n, hn⟩
    have hex : ∃ m, (ErrorCom m h p).isSome := ⟨n, by simp [hn]⟩
    have hmin := Nat.find_spec hex
    have hle : Nat.find hex ≤ n := Nat.find_min' hex (by simp [hn])
    obtain ⟨t, ht⟩ := Option.isSome_iff_exists.mp hmin
    have hts : t = s := by
      have := errorCom_mono h _ p t ht n hle
      rw [hn] at this
      exact (Option.some.inj this).symm
    subst hts
    cases hk : Nat.find hex with
    | zero => rw [hk] at ht; simp [ErrorCom] at ht
    | succ k =>
      rw [hk] at ht hmin
      have h0 : ErrorCom k h p = none := by
        have := Nat.find_min hex (show k < Nat.find hex by omega)
        simpa using this
      have hb := errorCom_profundidade_le h k p hmin h0
      exact errorCom_mono h (k + 1) p t ht h.length hb

/-- Storing a cause in a struct that the recursion does not reach within the
depth changes nothing of what `Error` returns within that depth. -/
theorem errorCom_fora (g : Heap) (b : Nat) (w1 : ErroAPI) (n : Nat)
    (hb : ErrorCom n (g.set b w1) (Ponteiro.addr b) = none) :
    ∀ m, m ≤ n → ∀ (q : Ponteiro) (s : String),
      ErrorCom m (g.set b w1) q = some s → ErrorCom m g q = some s := by
  intro m
  induction m with
  | zero => intro _ q s hs; simp [ErrorCom] at hs
  | succ m ih =>
    intro hm q s hs
    obtain ⟨a, rfl, -⟩ := errorCom_alocado _ _ q s hs
    have hab : a ≠ b := by
      rintro rfl
      have := errorCom_mono _ _ _ s hs n hm
      rw [hb] at this
      exact absurd this (by simp)
    simp only [ErrorCom, deref, List.getElem?_set_ne (Ne.symm hab)] at hs ⊢
    cases hd : g[a]? with
    | none => simp [hd] at hs
    | some e =>
      simp only [hd] at hs ⊢
      cases hc : e.ErroOriginal with
      | nil => simpa [hc] using hs
      | outro i msg => simpa [hc] using hs
      | api q2 =>
        cases q2 with
        | nil => simpa [hc] using hs
        | addr a2 =>
          simp only [hc, Option.map_eq_some'] at hs ⊢
          obtain ⟨s', hs', rfl⟩ := hs
          exact ⟨s', ih (by omega) _ _ hs', rfl⟩

/-- When `c.Error()` returns once `c` is stored as the cause of a struct, the
struct is not on the cause chain of `c`, and `c.Error()` returned the same
string before the cause was stored. -/
theorem chamarError_antes (g : Heap) (b : Nat) (w : ErroAPI) (c : Erro) (s : String)
    (gw : g[b]? = some w)
    (hs : chamarError (g.set b { w with ErroOriginal := c }) c = some s) :
    chamarError g c = some s := by
  have hlen : b < g.length := (List.getElem?_eq_some.mp gw).1
  cases c with
  | nil => simp [chamarError] at hs
  | outro i m => simpa [chamarError] using hs
  | api p =>
    simp only [chamarError] at hs ⊢
    obtain ⟨n, hn⟩ := (error_exato _ p s).mp hs
    have hex : ∃ m, (ErrorCom m (g.set b { w with ErroOriginal := Erro.api p }) p).isSome :=
      ⟨n, by simp [hn]⟩
    have hmin := Nat.find_spec hex
    obtain ⟨t, ht⟩ := Option.isSome_iff_exists.mp hmin
    have hts : t = s := by
      have := errorCom_mono _ _ p t ht n (Nat.find_min' hex (by simp [hn]))
      rw [hn] at this
      exact (Option.some.inj this).symm
    subst hts
    cases hk : Nat.find hex with
    | zero => rw [hk] at ht; simp [ErrorCom] at ht
    | succ k =>
      rw [hk] at ht
      have h0 : ErrorCom k (g.set b { w with ErroOriginal := Erro.api p }) p = none := by
        have := Nat.find_min hex (show k < Nat.find hex by omega)
        simpa using this
      obtain ⟨a, rfl, -⟩ := errorCom_alocado _ _ p t ht
      have hb : ErrorCom (k + 1) (g.set b { w with ErroOriginal := Erro.api (Ponteiro.addr a) })
          (Ponteiro.addr b) = none := by
        simp [ErrorCom, deref, hlen, h0]
      have := errorCom_fora g b _ (k + 1) hb (k + 1) (le_refl _) _ t ht
      exact (error_exato g _ t).mpr ⟨_, this⟩

end Goerror

namespace Errors

/-- In `src/errors.go` the text of `Error()` does not read the cause, so
storing a cause in a struct changes no error text. -/
theorem chamarError_set_causa (h : Heap) (a : Nat) (v : ErroAPI) (c x : Erro)
    (hv : h[a]? = some v) :
    chamarError (h.set a { v with CausaRaiz := c }) x = chamarError h x := by
  have ha : a < h.length := (List.getElem?_eq_some.mp hv).1
  cases x with
  | nil => rfl
  | outro i m => rfl
  | api p =>
    cases p with
    | nil => rfl
    | addr b =>
      by_cases hb : b = a
      · subst hb
        simp [chamarError, deref, hv, ha, ErroAPI.Error]
      · simp [chamarError, deref, List.getElem?_set_ne (Ne.symm hb)]

theorem comCausa_sem_detalhe (h : Heap) (a : Nat) (v : ErroAPI) (c : Erro)
    (hv : h[a]? = some v) (hc : c = Erro.nil ∨ v.Detalhes ≠ "") :
    ComCausa h (Ponteiro.addr a) c
      = some (h.set a { v with CausaRaiz := c }, Ponteiro.addr a) := by
  rcases hc with hc | hc
  · simp [ComCausa, hv, hc]
  · simp [ComCausa, hv, hc]

theorem comCausa_com_detalhe (h : Heap) (a : Nat) (v : ErroAPI) (c : Erro) (s : String)
    (hv : h[a]? = some v) (hd : v.Detalhes = "") (hc : c ≠ Erro.nil)
    (hs : chamarError h c = some s) :
    ComCausa h (Ponteiro.addr a) c
      = some (h.set a { v with CausaRaiz := c, Detalhes := s }, Ponteiro.addr a) := by
  have hs1 := (chamarError_set_causa h a v c c hv).trans hs
  simp only [hd] at hs1
  simp [ComCausa, hv, hd, hc, hs1]

end Errors

namespace Goerror

theorem comCausa_sem_texto (g : Heap) (b : Nat) (w : ErroAPI) (c : Erro)
    (gw : g[b]? = some w) (hc : c = Erro.nil ∨ w.Detalhes ≠ "") :
    ComCausa g (Ponteiro.addr b) c
      = some (g.set b { w with ErroOriginal := c }, Ponteiro.addr b) := by
  rcases hc with hc | hc
  · simp [ComCausa, gw, hc]
  · simp [ComCausa, gw, hc]

theorem comCausa_com_texto (g : Heap) (b : Nat) (w : ErroAPI) (c : Erro) (s : String)
    (gw : g[b]? = some w) (hd : w.Detalhes = "") (hc : c ≠ Erro.nil)
    (hs : chamarError (g.set b { w with ErroOriginal := c }) c = some s) :
    ComCausa g (Ponteiro.addr b) c
      = some (g.set b { w with ErroOriginal := c, Detalhes := s }, Ponteiro.addr b) := by
  simp only [hd] at hs
  simp [ComCausa, gw, hd, hc, hs]

end Goerror

namespace Goerror

/-- A struct that is its own cause: `Error()` is not exhausted at any depth. -/
theorem errorCom_proprio (h : Heap) (a : Nat) (e : ErroAPI) (he : h[a]? = some e)
    (hc : e.ErroOriginal = Erro.api (Ponteiro.addr a)) :
    ∀ n, ErrorCom n h (Ponteiro.addr a) = none := by
  intro n
  induction n with
  | zero => rfl
  | succ n ih => simp [ErrorCom, deref, he, hc, ih]

/-- The method `Error()` called through a nil pointer does not return. -/
theorem errorCom_nil (n : Nat) (h : Heap) : ErrorCom n h Ponteiro.nil = none := by
  cases n <;> simp [ErrorCom, deref]

/-- In `src/error.go` a receiver without detail that is given itself as cause
never returns from `ComCausa`. -/
theorem comCausa_propria (g : Heap) (b : Nat) (w : ErroAPI) (gw : g[b]? = some w)
    (hd : w.Detalhes = "") :
    ComCausa g (Ponteiro.addr b) (Erro.api (Ponteiro.addr b)) = none := by
  have hb : b < g.length := (List.getElem?_eq_some.mp gw).1
  have hc := errorCom_proprio (g.set b { w with ErroOriginal := Erro.api (Ponteiro.addr b) }) b
    { w with ErroOriginal := Erro.api (Ponteiro.addr b) } (by simp [hb]) rfl
  simp only [hd] at hc
  simp [ComCausa, gw, hd, chamarError, Error, hc]

/-- In `src/error.go` a nil `*ErroAPI` boxed as the cause of a receiver
without detail makes `ComCausa` panic. -/
theorem comCausa_texto_nil (g : Heap) (b : Nat) (w : ErroAPI) (gw : g[b]? = some w)
    (hd : w.Detalhes = "") :
    ComCausa g (Ponteiro.addr b) (Erro.api Ponteiro.nil) = none := by
  simp [ComCausa, gw, hd, chamarError, Error, errorCom_nil]

end Goerror

namespace Errors

/-- In `src/errors.go` a nil `*ErroAPI` boxed as the cause of a receiver
without detail makes `ComCausa` panic. -/
theorem comCausa_ponteiro_nil (h : Heap) (a : Nat) (v : ErroAPI) (hv : h[a]? = some v)
    (hd : v.Detalhes = "") :
    ComCausa h (Ponteiro.addr a) (Erro.api Ponteiro.nil) = none := by
  simp [ComCausa, hv, hd, chamarError, deref]

end Errors

/-- C11, evaluated on the code. In `src/error.go` `ComCausa` stores the cause
before it calls `err.Error()`, and `Error()` prints the cause: a receiver
without detail that is given itself as cause never returns from the call,
although `c.Error()` returns before the call. In `src/errors.go`, where
`Error()` does not read the cause, the same call returns with `Detalhes`
equal to `e.Error()`. In both files a nil `*ErroAPI` boxed in the interface
passes the test `!= nil` and the call on a receiver without detail does not
return. On the other inputs the call returns the receiver with the cause
stored and `Tipo`, the code, `Mensagem` and `StatusHTTP` as before;
`Detalhes` is left as it was when the cause is nil or the detail was set, and
becomes the string `c.Error()` returns otherwise. -/
theorem c11_comCausa :
    Goerror.chamarError (Goerror.NovoErroValidacao [] "C" "m").1
        (Erro.api (Goerror.NovoErroValidacao [] "C" "m").2) = some "[VALIDACAO:C] m - "
    ∧ Goerror.ComCausa (Goerror.NovoErroValidacao [] "C" "m").1
        (Goerror.NovoErroValidacao [] "C" "m").2
        (Erro.api (Goerror.NovoErroValidacao [] "C" "m").2) = none
    ∧ (∀ (g : Goerror.Heap) (b : Nat) (w : Goerror.ErroAPI), g[b]? = some w →
        w.Detalhes = "" →
        Goerror.ComCausa g (Ponteiro.addr b) (Erro.api (Ponteiro.addr b)) = none)
    ∧ Errors.ComCausa (Errors.NovoErroValidacao [] 1 "C" "m").1
        (Errors.NovoErroValidacao [] 1 "C" "m").2
        (Erro.api (Errors.NovoErroValidacao [] 1 "C" "m").2)
        = some ([{ Tipo := "VALIDATION_ERROR", Codigo := "C", Mensagem := "m",
                   Detalhes := "[VALIDATION_ERROR] C: m", StatusHTTP := 400, Timestamp := 1,
                   CausaRaiz := Erro.api (Ponteiro.addr 0) }], Ponteiro.addr 0)
    ∧ (∀ (h : Errors.Heap) (a : Nat) (v : Errors.ErroAPI), h[a]? = some v →
        v.Detalhes = "" →
        Errors.ComCausa h (Ponteiro.addr a) (Erro.api Ponteiro.nil) = none)
    ∧ (∀ (g : Goerror.Heap) (b : Nat) (w : Goerror.ErroAPI), g[b]? = some w →
        w.Detalhes = "" →
        Goerror.ComCausa g (Ponteiro.addr b) (Erro.api Ponteiro.nil) = none)
    ∧ (∀ (h : Errors.Heap) (g : Goerror.Heap) (a b ident : Nat) (v : Errors.ErroAPI)
        (w : Goerror.ErroAPI) (c : Erro) (msg : String),
        h[a]? = some v → g[b]? = some w →
        (c = Erro.nil ∨ v.Detalhes ≠ "" →
            Errors.ComCausa h (Ponteiro.addr a) c
              = some (h.set a { v with CausaRaiz := c }, Ponteiro.addr a))
        ∧ (∀ s, v.Detalhes = "" → c ≠ Erro.nil → Errors.chamarError h c = some s →
            Errors.ComCausa h (Ponteiro.addr a) c
              = some (h.set a { v with CausaRaiz := c, Detalhes := s }, Ponteiro.addr a))
        ∧ (v.Detalhes = "" → c ≠ Erro.nil → Errors.chamarError h c = none →
            Errors.ComCausa h (Ponteiro.addr a) c = none)
        ∧ (v.Detalhes = "" →
            Errors.ComCausa h (Ponteiro.addr a) (Erro.outro ident msg)
              = some (h.set a { v with CausaRaiz := Erro.outro ident msg, Detalhes := msg },
                      Ponteiro.addr a))
        ∧ (c = Erro.nil ∨ w.Detalhes ≠ "" →
            Goerror.ComCausa g (Ponteiro.addr b) c
              = some (g.set b { w with ErroOriginal := c }, Ponteiro.addr b))
        ∧ (∀ s, w.Detalhes = "" → c ≠ Erro.nil →
            Goerror.chamarError (g.set b { w with ErroOriginal := c }) c = some s →
            Goerror.chamarError g c = some s
            ∧ Goerror.ComCausa g (Ponteiro.addr b) c
                = some (g.set b { w with ErroOriginal := c, Detalhes := s }, Ponteiro.addr b))
        ∧ (w.Detalhes = "" → c ≠ Erro.nil →
            Goerror.chamarError (g.set b { w with ErroOriginal := c }) c = none →
            Goerror.ComCausa g (Ponteiro.addr b) c = none)
        ∧ (w.Detalhes = "" →
            Goerror.ComCausa g (Ponteiro.addr b) (Erro.outro ident msg)
              = some (g.set b { w with ErroOriginal := Erro.outro ident msg, Detalhes := msg },
                      Ponteiro.addr b))) := by
  refine ⟨by decide, by decide, Goerror.comCausa_propria, by decide,
    Errors.comCausa_ponteiro_nil, Goerror.comCausa_texto_nil, ?_⟩
  intro h g a b ident v w c msg hv gw
  refine ⟨Errors.comCausa_sem_detalhe h a v c hv,
    fun s hd hc hs => Errors.comCausa_com_detalhe h a v c s hv hd hc hs, ?_,
    fun hd => Errors.comCausa_com_detalhe h a v _ msg hv hd (by simp) rfl,
    Goerror.comCausa_sem_texto g b w c gw,
    fun s hd hc hs => ⟨Goerror.chamarError_antes g b w c s gw hs,
      Goerror.comCausa_com_texto g b w c s gw hd hc hs⟩, ?_,
    fun hd => Goerror.comCausa_com_texto g b w _ msg gw hd (by simp) rfl⟩
  · intro hd hc hn
    have hn1 := (Errors.chamarError_set_causa h a v c c hv).trans hn
    simp only [hd] at hn1
    simp [Errors.ComCausa, hv, hd, hc, hn1]
  · intro hd hc hn
    simp only [hd] at hn
    simp [Goerror.ComCausa, gw, hd, hc, hn]

namespace Errors

/-- What a constructor returns: the address of a new struct without detail. -/
theorem construtor_fresco (k : Construtor) (h h1 : Heap) (agora : Nat)
    (codigo mensagem : String) (p : Ponteiro)
    (hk : k.aplicar h agora codigo mensagem = (h1, p)) :
    p = Ponteiro.addr h.length ∧ ∃ v, h1[h.length]? = some v ∧ v.Detalhes = "" := by
  obtain ⟨st, -, hs⟩ := aplicar_eq_novoErro k
  rw [hs] at hk
  simp only [novoErro, Prod.mk.injEq] at hk
  obtain ⟨rfl, rfl⟩ := hk
  exact ⟨rfl, _, List.getElem?_concat_length _ _, rfl⟩

/-- Whenever `ComCausa` returns, it returns the receiver, with the cause
stored and some detail. -/
theorem comCausa_forma (h : Heap) (a : Nat) (v : ErroAPI) (c : Erro) (r : Heap × Ponteiro)
    (hv : h[a]? = some v) (hr : ComCausa h (Ponteiro.addr a) c = some r) :
    ∃ s, r = (h.set a { v with CausaRaiz := c, Detalhes := s }, Ponteiro.addr a) := by
  simp only [ComCausa, hv] at hr
  split at hr
  · split at hr
    · exact absurd hr (by simp)
    · next s _ => exact ⟨s, by rw [← Option.some.inj hr, List.set_set]⟩
  · exact ⟨v.Detalhes, (Option.some.inj hr).symm⟩

theorem detalhe_depois_causa (h : Heap) (a : Nat) (v : ErroAPI) (c : Erro) (d : String)
    (hv : h[a]? = some v) (hd : d ≠ "") :
    ∃ h3, (ComDetalhes h (Ponteiro.addr a) d).bind (fun r => ComCausa r.1 r.2 c)
        = some (h3, Ponteiro.addr a)
      ∧ (deref h3 (Ponteiro.addr a)).map ErroAPI.Detalhes = some d := by
  have ha : a < h.length := (List.getElem?_eq_some.mp hv).1
  have h1 : ComDetalhes h (Ponteiro.addr a) d
      = some (h.set a { v with Detalhes := d }, Ponteiro.addr a) := by
    simp [ComDetalhes, hv]
  have h2 := comCausa_sem_detalhe (h.set a { v with Detalhes := d }) a
    { v with Detalhes := d } c (by simp [ha]) (Or.inr hd)
  refine ⟨_, by rw [h1]; exact h2, ?_⟩
  simp [deref, ha]

theorem causa_depois_detalhe (h : Heap) (a : Nat) (v : ErroAPI) (c : Erro) (d : String)
    (r : Heap × Ponteiro) (hv : h[a]? = some v)
    (hr : ComCausa h (Ponteiro.addr a) c = some r) :
    ∃ h3, ComDetalhes r.1 r.2 d = some (h3, Ponteiro.addr a)
      ∧ (deref h3 (Ponteiro.addr a)).map ErroAPI.Detalhes = some d := by
  have ha : a < h.length := (List.getElem?_eq_some.mp hv).1
  obtain ⟨s, rfl⟩ := comCausa_forma h a v c r hv hr
  refine ⟨(h.set a { v with CausaRaiz := c, Detalhes := s }).set a
      { v with CausaRaiz := c, Detalhes := d }, ?_, ?_⟩
  · simp [ComDetalhes, ha]
  · simp [deref, ha]

end Errors

namespace Goerror

/-- What a `NovoErroX` constructor returns: the address of a new struct
without detail. -/
theorem novoErro_fresco (k : Construtor) (g g1 : Heap) (codigo mensagem : String)
    (p : Ponteiro) (hk : k.aplicar g codigo mensagem = (g1, p)) :
    p = Ponteiro.addr g.length ∧ ∃ w, g1[g.length]? = some w ∧ w.Detalhes = "" := by
  cases k <;>
  · simp only [Construtor.aplicar, NovoErroBancoDados, NovoErroValidacao, NovoErroNaoEncontrado,
      NovoErroConexao, NovoErroInterno, NovoErroMetodoInvalido, alocar, Prod.mk.injEq] at hk
    obtain ⟨rfl, rfl⟩ := hk
    exact ⟨rfl, _, List.getElem?_concat_length _ _, rfl⟩

theorem comCausa_retorno (g : Heap) (b : Nat) (w : ErroAPI) (c : Erro) (r : Heap × Ponteiro)
    (gw : g[b]? = some w) (hr : ComCausa g (Ponteiro.addr b) c = some r) :
    ∃ s, r = (g.set b { w with ErroOriginal := c, Detalhes := s }, Ponteiro.addr b) := by
  simp only [ComCausa, gw] at hr
  split at hr
  · split at hr
    · exact absurd hr (by simp)
    · next s _ => exact ⟨s, by rw [← Option.some.inj hr, List.set_set]⟩
  · exact ⟨w.Detalhes, (Option.some.inj hr).symm⟩

theorem texto_depois_causa (g : Heap) (b : Nat) (w : ErroAPI) (c : Erro) (d : String)
    (gw : g[b]? = some w) (hd : d ≠ "") :
    ∃ g3, (ComDetalhes g (Ponteiro.addr b) d).bind (fun r => ComCausa r.1 r.2 c)
        = some (g3, Ponteiro.addr b)
      ∧ (deref g3 (Ponteiro.addr b)).map ErroAPI.Detalhes = some d := by
  have hb : b < g.length := (List.getElem?_eq_some.mp gw).1
  have h1 : ComDetalhes g (Ponteiro.addr b) d
      = some (g.set b { w with Detalhes := d }, Ponteiro.addr b) := by
    simp [ComDetalhes, gw]
  have h2 := comCausa_sem_texto (g.set b { w with Detalhes := d }) b
    { w with Detalhes := d } c (by simp [hb]) (Or.inr hd)
  refine ⟨_, by rw [h1]; exact h2, ?_⟩
  simp [deref, hb]

theorem causa_depois_texto (g : Heap) (b : Nat) (w : ErroAPI) (c : Erro) (d : String)
    (r : Heap × Ponteiro) (gw : g[b]? = some w)
    (hr : ComCausa g (Ponteiro.addr b) c = some r) :
    ∃ g3, ComDetalhes r.1 r.2 d = some (g3, Ponteiro.addr b)
      ∧ (deref g3 (Ponteiro.addr b)).map ErroAPI.Detalhes = some d := by
  have hb : b < g.length := (List.getElem?_eq_some.mp gw).1
  obtain ⟨s, rfl⟩ := comCausa_retorno g b w c r gw hr
  refine ⟨(g.set b { w with ErroOriginal := c, Detalhes := s }).set b
      { w with ErroOriginal := c, Detalhes := d }, ?_, ?_⟩
  · simp [ComDetalhes, hb]
  · simp [deref, hb]

end Goerror

/-- C12, as stated, fails in both packages: with the empty string as the
explicit detail, `ComDetalhes("")` followed by `ComCausa` of the foreign error
`Erro.outro 0 "falha"` on a fresh validation error leaves `Detalhes` equal to
the cause's message, not to the explicit detail. -/
theorem c12_contraexemplo :
    ((Errors.ComDetalhes (Errors.NovoErroValidacao [] 1 "C" "m").1
          (Errors.NovoErroValidacao [] 1 "C" "m").2 "").bind
        (fun r => (Errors.ComCausa r.1 r.2 (Erro.outro 0 "falha")).bind
          (fun t => (Errors.deref t.1 t.2).map Errors.ErroAPI.Detalhes))) = some "falha"
    ∧ ((Goerror.ComDetalhes (Goerror.NovoErroValidacao [] "C" "m").1
          (Goerror.NovoErroValidacao [] "C" "m").2 "").bind
        (fun r => (Goerror.ComCausa r.1 r.2 (Erro.outro 0 "falha")).bind
          (fun t => (Goerror.deref t.1 t.2).map Goerror.ErroAPI.Detalhes))) = some "falha"
    ∧ Erro.outro 0 "falha" ≠ Erro.nil ∧ "falha" ≠ "" := by
  decide

/-- C12, amended: for a freshly constructed error of either package, every
detail string `d` and every cause `c`: when `d` is not empty, `ComDetalhes(d)`
followed by `ComCausa(c)` leaves `Detalhes` equal to `d`; and whenever
`ComCausa(c)` on the fresh error returns (it does for every foreign cause),
`ComDetalhes(d)` after it leaves `Detalhes` equal to `d`, empty or not. -/
theorem c12_detalhe_explicito_prevalece (k : Errors.Construtor) (q : Goerror.Construtor)
    (h h1 : Errors.Heap) (g g1 : Goerror.Heap) (p p1 : Ponteiro) (agora ident : Nat)
    (codigo mensagem d msg : String) (c : Erro)
    (hk : k.aplicar h agora codigo mensagem = (h1, p))
    (hq : q.aplicar g codigo mensagem = (g1, p1)) :
    (d ≠ "" →
      ∃ h3, (Errors.ComDetalhes h1 p d).bind (fun r => Errors.ComCausa r.1 r.2 c) = some (h3, p)
        ∧ (Errors.deref h3 p).map Errors.ErroAPI.Detalhes = some d)
    ∧ (∀ r, Errors.ComCausa h1 p c = some r →
        ∃ h3, Errors.ComDetalhes r.1 r.2 d = some (h3, p)
          ∧ (Errors.deref h3 p).map Errors.ErroAPI.Detalhes = some d)
    ∧ (∃ r, Errors.ComCausa h1 p (Erro.outro ident msg) = some r)
    ∧ (d ≠ "" →
        ∃ g3, (Goerror.ComDetalhes g1 p1 d).bind (fun r => Goerror.ComCausa r.1 r.2 c)
          = some (g3, p1)
        ∧ (Goerror.deref g3 p1).map Goerror.ErroAPI.Detalhes = some d)
    ∧ (∀ r, Goerror.ComCausa g1 p1 c = some r →
        ∃ g3, Goerror.ComDetalhes r.1 r.2 d = some (g3, p1)
          ∧ (Goerror.deref g3 p1).map Goerror.ErroAPI.Detalhes = some d)
    ∧ (∃ r, Goerror.ComCausa g1 p1 (Erro.outro ident msg) = some r) := by
  obtain ⟨rfl, v, hv, hv0⟩ := Errors.construtor_fresco k h h1 agora codigo mensagem p hk
  obtain ⟨rfl, w, gw, gw0⟩ := Goerror.novoErro_fresco q g g1 codigo mensagem p1 hq
  exact ⟨fun hd => Errors.detalhe_depois_causa h1 _ v c d hv hd,
    fun r hr => Errors.causa_depois_detalhe h1 _ v c d r hv hr,
    ⟨_, Errors.comCausa_com_detalhe h1 _ v _ msg hv hv0 (by simp) rfl⟩,
    fun hd => Goerror.texto_depois_causa g1 _ w c d gw hd,
    fun r hr => Goerror.causa_depois_texto g1 _ w c d r gw hr,
    ⟨_, Goerror.comCausa_com_texto g1 _ w _ msg gw gw0 (by simp) rfl⟩⟩

/-- C12, amended, at a concrete input: fresh validation errors of both
packages, the detail `"explicito"` and the foreign cause `Erro.outro 0 "falha"`. -/
theorem c12_detalhe_explicito_prevalece_witness :
    Errors.Construtor.validacao.aplicar [] 1 "C" "m"
        = ([{ Tipo := "VALIDATION_ERROR", Codigo := "C", Mensagem := "m", Detalhes := "",
              StatusHTTP := 400, Timestamp := 1, CausaRaiz := Erro.nil }], Ponteiro.addr 0)
    ∧ Goerror.Construtor.validacao.aplicar [] "C" "m"
        = ([{ Tipo := "VALIDACAO", CodigoPersonal := "C", Mensagem := "m", StatusHTTP := 400,
              Detalhes := "", ErroOriginal := Erro.nil }], Ponteiro.addr 0)
    ∧ "explicito" ≠ ""
    ∧ (∃ h3, (Errors.ComDetalhes
                [{ Tipo := "VALIDATION_ERROR", Codigo := "C", Mensagem := "m", Detalhes := "",
                   StatusHTTP := 400, Timestamp := 1, CausaRaiz := Erro.nil }]
                (Ponteiro.addr 0) "explicito").bind
              (fun r => Errors.ComCausa r.1 r.2 (Erro.outro 0 "falha"))
            = some (h3, Ponteiro.addr 0)
        ∧ (Errors.deref h3 (Ponteiro.addr 0)).map Errors.ErroAPI.Detalhes = some "explicito")
    ∧ (∃ g3, (Goerror.ComDetalhes
                [{ Tipo := "VALIDACAO", CodigoPersonal := "C", Mensagem := "m",
                   StatusHTTP := 400, Detalhes := "", ErroOriginal := Erro.nil }]
                (Ponteiro.addr 0) "explicito").bind
              (fun r => Goerror.ComCausa r.1 r.2 (Erro.outro 0 "falha"))
            = some (g3, Ponteiro.addr 0)
        ∧ (Goerror.deref g3 (Ponteiro.addr 0)).map Goerror.ErroAPI.Detalhes
            = some "explicito") :=
  ⟨rfl, rfl, by decide,
   (c12_detalhe_explicito_prevalece Errors.Construtor.validacao Goerror.Construtor.validacao
      [] _ [] _ _ _ 1 0 "C" "m" "explicito" "falha" (Erro.outro 0 "falha")
      rfl rfl).1 (by decide),
   (c12_detalhe_explicito_prevalece Errors.Construtor.validacao Goerror.Construtor.validacao
      [] _ [] _ _ _ 1 0 "C" "m" "explicito" "falha" (Erro.outro 0 "falha")
      rfl rfl).2.2.2.1 (by decide)⟩

/-- C13, as stated, fails in both packages: when the first cause is not nil
but its `Error()` returns the empty string, the second `ComCausa` fills the
detail, so `Detalhes` ends as the text of the second cause. -/
theorem c13_contraexemplo :
    Erro.outro 0 "" ≠ Erro.nil ∧ Erro.outro 1 "falha" ≠ Erro.nil
    ∧ Errors.chamarError (Errors.NovoErroValidacao [] 1 "C" "m").1 (Erro.outro 0 "") = some ""
    ∧ ((Errors.ComCausa (Errors.NovoErroValidacao [] 1 "C" "m").1
          (Errors.NovoErroValidacao [] 1 "C" "m").2 (Erro.outro 0 "")).bind
        (fun r => (Errors.ComCausa r.1 r.2 (Erro.outro 1 "falha")).bind
          (fun t => (Errors.deref t.1 t.2).map Errors.ErroAPI.Detalhes))) = some "falha"
    ∧ Goerror.chamarError (Goerror.NovoErroValidacao [] "C" "m").1 (Erro.outro 0 "") = some ""
    ∧ ((Goerror.ComCausa (Goerror.NovoErroValidacao [] "C" "m").1
          (Goerror.NovoErroValidacao [] "C" "m").2 (Erro.outro 0 "")).bind
        (fun r => (Goerror.ComCausa r.1 r.2 (Erro.outro 1 "falha")).bind
          (fun t => (Goerror.deref t.1 t.2).map Goerror.ErroAPI.Detalhes))) = some "falha" := by
  decide

/-- C13, amended: on an error whose detail is unset (as that of a freshly
constructed error is), when `c1.Error()`, called as `ComCausa` calls it, once
`c1` is stored as the cause of the receiver, returns a non-empty string,
`ComCausa(c1)` followed by `ComCausa(c2)` returns the receiver with
`Detalhes` equal to that string and the second cause stored, in both
packages; the string is also what `c1.Error()` returned before the call. The
condition on the call after the store matters in `src/error.go`, where
`Error()` prints the cause: a receiver given itself as first cause has a text
before the call and never returns from it. -/
theorem c13_primeira_causa_prevalece (h : Errors.Heap) (g : Goerror.Heap) (a b : Nat)
    (v : Errors.ErroAPI) (w : Goerror.ErroAPI) (c1 c2 : Erro) (s t : String)
    (hv : h[a]? = some v) (hv0 : v.Detalhes = "")
    (hs : Errors.chamarError (h.set a { v with CausaRaiz := c1 }) c1 = some s) (hs0 : s ≠ "")
    (gw : g[b]? = some w) (gw0 : w.Detalhes = "")
    (gt : Goerror.chamarError (g.set b { w with ErroOriginal := c1 }) c1 = some t)
    (gt0 : t ≠ "") :
    (Errors.ComCausa h (Ponteiro.addr a) c1).bind (fun r => Errors.ComCausa r.1 r.2 c2)
        = some (h.set a { v with CausaRaiz := c2, Detalhes := s }, Ponteiro.addr a)
    ∧ Errors.chamarError h c1 = some s
    ∧ (Goerror.ComCausa g (Ponteiro.addr b) c1).bind (fun r => Goerror.ComCausa r.1 r.2 c2)
        = some (g.set b { w with ErroOriginal := c2, Detalhes := t }, Ponteiro.addr b)
    ∧ Goerror.chamarError g c1 = some t
    ∧ Goerror.chamarError (Goerror.NovoErroValidacao [] "C" "m").1
        (Erro.api (Goerror.NovoErroValidacao [] "C" "m").2) = some "[VALIDACAO:C] m - "
    ∧ Goerror.ComCausa (Goerror.NovoErroValidacao [] "C" "m").1
        (Goerror.NovoErroValidacao [] "C" "m").2
        (Erro.api (Goerror.NovoErroValidacao [] "C" "m").2) = none := by
  have ha : a < h.length := (List.getElem?_eq_some.mp hv).1
  have hb : b < g.length := (List.getElem?_eq_some.mp gw).1
  have hs1 : Errors.chamarError h c1 = some s :=
    (Errors.chamarError_set_causa h a v c1 c1 hv).symm.trans hs
  have hc1 : c1 ≠ Erro.nil := by
    intro e; rw [e] at hs1; exact absurd hs1 (by simp [Errors.chamarError])
  refine ⟨?_, hs1, ?_, Goerror.chamarError_antes g b w c1 t gw gt, by decide, by decide⟩
  · rw [Errors.comCausa_com_detalhe h a v c1 s hv hv0 hc1 hs1]
    have h2 := Errors.comCausa_sem_detalhe (h.set a { v with CausaRaiz := c1, Detalhes := s }) a
      { v with CausaRaiz := c1, Detalhes := s } c2 (by simp [ha]) (Or.inr hs0)
    simp only [Option.bind_eq_bind, Option.some_bind, h2, List.set_set]
  · rw [Goerror.comCausa_com_texto g b w c1 t gw gw0 hc1 gt]
    have h2 := Goerror.comCausa_sem_texto (g.set b { w with ErroOriginal := c1, Detalhes := t })
      b { w with ErroOriginal := c1, Detalhes := t } c2 (by simp [hb]) (Or.inr gt0)
    simp only [Option.bind_eq_bind, Option.some_bind, h2, List.set_set]

/-- C13, amended, at a concrete input: fresh validation errors of both
packages receive the foreign causes `"primeira"` and then `"segunda"`. -/
theorem c13_primeira_causa_prevalece_witness :
    (Errors.NovoErroValidacao [] 1 "C" "m").1[0]?
        = some { Tipo := "VALIDATION_ERROR", Codigo := "C", Mensagem := "m", Detalhes := "",
                 StatusHTTP := 400, Timestamp := 1, CausaRaiz := Erro.nil }
    ∧ (Goerror.NovoErroValidacao [] "C" "m").1[0]?
        = some { Tipo := "VALIDACAO", CodigoPersonal := "C", Mensagem := "m", StatusHTTP := 400,
                 Detalhes := "", ErroOriginal := Erro.nil }
    ∧ "primeira" ≠ ""
    ∧ (Errors.ComCausa (Errors.NovoErroValidacao [] 1 "C" "m").1 (Ponteiro.addr 0)
          (Erro.outro 0 "primeira")).bind
        (fun r => Errors.ComCausa r.1 r.2 (Erro.outro 1 "segunda"))
        = some ([{ Tipo := "VALIDATION_ERROR", Codigo := "C", Mensagem := "m",
                   Detalhes := "primeira", StatusHTTP := 400, Timestamp := 1,
                   CausaRaiz := Erro.outro 1 "segunda" }], Ponteiro.addr 0)
    ∧ (Goerror.ComCausa (Goerror.NovoErroValidacao [] "C" "m").1 (Ponteiro.addr 0)
          (Erro.outro 0 "primeira")).bind
        (fun r => Goerror.ComCausa r.1 r.2 (Erro.outro 1 "segunda"))
        = some ([{ Tipo := "VALIDACAO", CodigoPersonal := "C", Mensagem := "m",
                   StatusHTTP := 400, Detalhes := "primeira",
                   ErroOriginal := Erro.outro 1 "segunda" }], Ponteiro.addr 0) :=
  ⟨rfl, rfl, by decide,
   (c13_primeira_causa_prevalece (Errors.NovoErroValidacao [] 1 "C" "m").1
      (Goerror.NovoErroValidacao [] "C" "m").1 0 0 _ _ (Erro.outro 0 "primeira")
      (Erro.outro 1 "segunda") "primeira" "primeira" rfl rfl rfl (by decide)
      rfl rfl rfl (by decide)).1,
   (c13_primeira_causa_prevalece (Errors.NovoErroValidacao [] 1 "C" "m").1
      (Goerror.NovoErroValidacao [] "C" "m").1 0 0 _ _ (Erro.outro 0 "primeira")
      (Erro.outro 1 "segunda") "primeira" "primeira" rfl rfl rfl (by decide)
      rfl rfl rfl (by decide)).2.2.1⟩

namespace Goerror

/-- The object `JSON` of `src/error.go` writes, member by member. -/
theorem json_forma (e : ErroAPI) :
    e.JSON =
      if e.Detalhes ≠ "" then
        [("codigo", JsonValor.str e.CodigoPersonal), ("detalhes", JsonValor.str e.Detalhes),
         ("erro", JsonValor.bool true), ("mensagem", JsonValor.str e.Mensagem),
         ("status_http", JsonValor.num e.StatusHTTP), ("tipo", JsonValor.str e.Tipo)]
      else
        [("codigo", JsonValor.str e.CodigoPersonal), ("erro", JsonValor.bool true),
         ("mensagem", JsonValor.str e.Mensagem), ("status_http", JsonValor.num e.StatusHTTP),
         ("tipo", JsonValor.str e.Tipo)] := by
  by_cases hd : e.Detalhes = ""
  · simp only [ErroAPI.JSON, ErroAPI.resposta, hd, ne_eq, not_true_eq_false, if_false]
    rfl
  · simp only [ErroAPI.JSON, ErroAPI.resposta, hd, ne_eq, not_false_eq_true, if_true]
    rfl

end Goerror

namespace Errors

/-- The object `JSON` of `src/errors.go` writes, member by member. -/
theorem json_membros (e : ErroAPI) :
    e.objeto =
      if e.Detalhes ≠ "" then
        [("tipo", JsonValor.str e.Tipo), ("codigo", JsonValor.str e.Codigo),
         ("mensagem", JsonValor.str e.Mensagem), ("detalhes", JsonValor.str e.Detalhes),
         ("timestamp", JsonValor.tempo e.Timestamp)]
      else
        [("tipo", JsonValor.str e.Tipo), ("codigo", JsonValor.str e.Codigo),
         ("mensagem", JsonValor.str e.Mensagem), ("timestamp", JsonValor.tempo e.Timestamp)] := by
  by_cases hd : e.Detalhes = ""
  · simp [ErroAPI.objeto, ErroAPI.campos, marshalStruct, JsonValor.vazio, hd]
  · simp [ErroAPI.objeto, ErroAPI.campos, marshalStruct, JsonValor.vazio, hd]

/-- Method `JSON` of `src/errors.go` returns the object of the struct when
the clock reading can be encoded and nothing otherwise. -/
theorem json_some_iff (codificavel : Nat → Bool) (e : ErroAPI) (o : JsonObjeto) :
    e.JSON codificavel = some o ↔ codificavel e.Timestamp = true ∧ o = e.objeto := by
  unfold ErroAPI.JSON
  cases codificavel e.Timestamp <;> simp [eq_comm]

end Errors

/-- C14: in `src/error.go`, `src/errors.go` and `src/goerror/error.go` the
object `JSON` writes has no member for the cause: its keys are among the
fixed keys of the wire form (none of them the cause field `ErroOriginal`,
`CausaRaiz` or `Causa`), no member carries an `error` value, and the output
is the same whatever cause the struct holds. In `src/errors.go` the method
writes an object exactly when the timestamp can be encoded, and nothing
otherwise. -/
theorem c14_json_sem_causa (e : Goerror.ErroAPI) (f : Errors.ErroAPI) (x : PkgErrors.ErroAPI)
    (c : Erro) (codificavel : Nat → Bool) :
    ((∀ k ∈ e.JSON.chaves,
          k ∈ ["erro", "tipo", "codigo", "mensagem", "status_http", "detalhes"])
      ∧ (∀ m ∈ e.JSON, ∀ d, m.2 ≠ JsonValor.erro d)
      ∧ Goerror.ErroAPI.JSON { e with ErroOriginal := c } = e.JSON)
    ∧ ((∀ o, f.JSON codificavel = some o →
          (∀ k ∈ o.chaves, k ∈ ["tipo", "codigo", "mensagem", "detalhes", "timestamp"])
            ∧ (∀ m ∈ o, ∀ d, m.2 ≠ JsonValor.erro d)
            ∧ "CausaRaiz" ∉ o.chaves)
      ∧ Errors.ErroAPI.JSON codificavel { f with CausaRaiz := c } = f.JSON codificavel
      ∧ (f.JSON codificavel).isSome = codificavel f.Timestamp
      ∧ (∀ k ∈ f.objeto.chaves, k ∈ ["tipo", "codigo", "mensagem", "detalhes", "timestamp"])
      ∧ (∀ m ∈ f.objeto, ∀ d, m.2 ≠ JsonValor.erro d)
      ∧ Errors.ErroAPI.objeto { f with CausaRaiz := c } = f.objeto
      ∧ "CausaRaiz" ∉ f.objeto.chaves)
    ∧ ((∀ k ∈ x.JSON.chaves, k ∈ ["tipo", "codigo", "mensagem", "detalhes"])
      ∧ (∀ m ∈ x.JSON, ∀ d, m.2 ≠ JsonValor.erro d)
      ∧ PkgErrors.ErroAPI.JSON { x with Causa := c } = x.JSON)
    ∧ "ErroOriginal" ∉ e.JSON.chaves
    ∧ "Causa" ∉ x.JSON.chaves := by
  have hx : x.JSON =
      if x.Detalhes ≠ "" then
        [("tipo", JsonValor.str x.Tipo), ("codigo", JsonValor.str x.Codigo),
         ("mensagem", JsonValor.str x.Mensagem), ("detalhes", JsonValor.str x.Detalhes)]
      else
        [("tipo", JsonValor.str x.Tipo), ("codigo", JsonValor.str x.Codigo),
         ("mensagem", JsonValor.str x.Mensagem)] := by
    by_cases hd : x.Detalhes = ""
    · simp [PkgErrors.ErroAPI.JSON, PkgErrors.ErroAPI.campos, marshalStruct, JsonValor.vazio, hd]
    · simp [PkgErrors.ErroAPI.JSON, PkgErrors.ErroAPI.campos, marshalStruct, JsonValor.vazio, hd]
  have hf1 : ∀ k ∈ f.objeto.chaves,
      k ∈ ["tipo", "codigo", "mensagem", "detalhes", "timestamp"] := by
    rw [Errors.json_membros]; split <;> simp [JsonObjeto.chaves]
  have hf2 : ∀ m ∈ f.objeto, ∀ d, m.2 ≠ JsonValor.erro d := by
    rw [Errors.json_membros]; split <;> simp
  have hf3 : "CausaRaiz" ∉ f.objeto.chaves := by
    rw [Errors.json_membros]; split <;> simp [JsonObjeto.chaves]
  have hf4 : Errors.ErroAPI.objeto { f with CausaRaiz := c } = f.objeto := by
    rw [Errors.json_membros, Errors.json_membros]
  refine ⟨⟨?_, ?_, ?_⟩, ⟨?_, ?_, ?_, hf1, hf2, hf4, hf3⟩, ⟨?_, ?_, ?_⟩, ?_, ?_⟩
  · rw [Goerror.json_forma]; split <;> simp [JsonObjeto.chaves]
  · rw [Goerror.json_forma]; split <;> simp
  · rw [Goerror.json_forma, Goerror.json_forma]
  · intro o ho
    obtain ⟨_, rfl⟩ := (Errors.json_some_iff codificavel f o).mp ho
    exact ⟨hf1, hf2, hf3⟩
  · simp only [Errors.ErroAPI.JSON, hf4]
  · unfold Errors.ErroAPI.JSON
    cases codificavel f.Timestamp <;> rfl
  · rw [hx]; split <;> simp [JsonObjeto.chaves]
  · rw [hx]; split <;> simp
  · rfl
  · rw [Goerror.json_forma]; split <;> simp [JsonObjeto.chaves]
  · rw [hx]; split <;> simp [JsonObjeto.chaves]

/-- C15: in `src/error.go` the object `JSON` writes has the members
`erro` = true, `tipo` = `Tipo`, `codigo` = `CodigoPersonal`, `mensagem` =
`Mensagem` and `status_http` = `StatusHTTP`, has the member `detalhes` =
`Detalhes` if and only if `Detalhes` is not empty, and has no other key. -/
theorem c15_json_membros (e : Goerror.ErroAPI) :
    e.JSON.lookup "erro" = some (JsonValor.bool true)
    ∧ e.JSON.lookup "tipo" = some (JsonValor.str e.Tipo)
    ∧ e.JSON.lookup "codigo" = some (JsonValor.str e.CodigoPersonal)
    ∧ e.JSON.lookup "mensagem" = some (JsonValor.str e.Mensagem)
    ∧ e.JSON.lookup "status_http" = some (JsonValor.num e.StatusHTTP)
    ∧ e.JSON.lookup "detalhes"
        = (if e.Detalhes ≠ "" then some (JsonValor.str e.Detalhes) else none)
    ∧ ("detalhes" ∈ e.JSON.chaves ↔ e.Detalhes ≠ "")
    ∧ (∀ k, k ∈ e.JSON.chaves ↔
        k ∈ ["erro", "tipo", "codigo", "mensagem", "status_http"]
          ∨ (k = "detalhes" ∧ e.Detalhes ≠ ""))
    ∧ e.JSON.chaves.Nodup := by
  rw [Goerror.json_forma]
  by_cases hd : e.Detalhes = ""
  · simp only [hd, ne_eq, not_true_eq_false, if_false]
    refine ⟨rfl, rfl, rfl, rfl, rfl, rfl, by simp [JsonObjeto.chaves], ?_,
      by simp [JsonObjeto.chaves]⟩
    intro k
    simp [JsonObjeto.chaves]
    tauto
  · simp only [hd, ne_eq, not_false_eq_true, if_true]
    refine ⟨rfl, rfl, rfl, rfl, rfl, rfl, by simp [JsonObjeto.chaves], ?_,
      by simp [JsonObjeto.chaves]⟩
    intro k
    simp [JsonObjeto.chaves]
    tauto

/-- C16, as stated, fails on `src/errors.go`: the wire form of a fresh
not-found error, whose `StatusHTTP` is 404, has the members `tipo`, `codigo`,
`mensagem` and `timestamp` only, and is the wire form of the same struct with
`StatusHTTP` 200 (the clock reading 1 being one the library can encode). -/
theorem c16_contraexemplo :
    Errors.ObterStatusHTTP (Errors.NovoErroNaoEncontrado [] 1 "NF" "nada").1
        (Erro.api (Errors.NovoErroNaoEncontrado [] 1 "NF" "nada").2) = some 404
    ∧ (Errors.deref (Errors.NovoErroNaoEncontrado [] 1 "NF" "nada").1
          (Errors.NovoErroNaoEncontrado [] 1 "NF" "nada").2).bind
            (Errors.ErroAPI.JSON (fun _ => true))
        = some [("tipo", JsonValor.str "NOT_FOUND_ERROR"), ("codigo", JsonValor.str "NF"),
                ("mensagem", JsonValor.str "nada"), ("timestamp", JsonValor.tempo 1)]
    ∧ Errors.ErroAPI.JSON (fun _ => true)
          { Tipo := "NOT_FOUND_ERROR", Codigo := "NF", Mensagem := "nada",
            Detalhes := "", StatusHTTP := 200, Timestamp := 1, CausaRaiz := Erro.nil }
        = some [("tipo", JsonValor.str "NOT_FOUND_ERROR"), ("codigo", JsonValor.str "NF"),
                ("mensagem", JsonValor.str "nada"), ("timestamp", JsonValor.tempo 1)] := by
  decide

/-- C16, amended: in `src/errors.go`, `JSON` writes an object exactly when
the timestamp can be encoded, and returns no bytes otherwise. The keys of the
object are `tipo`, `codigo`, `mensagem` and `timestamp`, and `detalhes` if
and only if `Detalhes` is not empty; `StatusHTTP` (tag `json:"-"`) is left
out: no member is a number and the output does not depend on `StatusHTTP`. -/
theorem c16_json_sem_status (codificavel : Nat → Bool) (f : Errors.ErroAPI) (s : Int) :
    (codificavel f.Timestamp = false → f.JSON codificavel = none)
    ∧ (codificavel f.Timestamp = true →
        ∃ o, f.JSON codificavel = some o
          ∧ (∀ k, k ∈ o.chaves ↔
              k ∈ ["tipo", "codigo", "mensagem", "timestamp"]
                ∨ (k = "detalhes" ∧ f.Detalhes ≠ ""))
          ∧ (∀ m ∈ o, ∀ n, m.2 ≠ JsonValor.num n))
    ∧ Errors.ErroAPI.JSON codificavel { f with StatusHTTP := s } = f.JSON codificavel := by
  refine ⟨?_, ?_, ?_⟩
  · intro hc
    simp [Errors.ErroAPI.JSON, hc]
  · intro hc
    refine ⟨f.objeto, by simp [Errors.ErroAPI.JSON, hc], ?_, ?_⟩
    · intro k
      rw [Errors.json_membros]
      by_cases hd : f.Detalhes = ""
      · simp [hd, JsonObjeto.chaves]
      · simp [hd, JsonObjeto.chaves]
        tauto
    · rw [Errors.json_membros]; split <;> simp
  · have : Errors.ErroAPI.objeto { f with StatusHTTP := s } = f.objeto := by
      rw [Errors.json_membros, Errors.json_membros]
    simp only [Errors.ErroAPI.JSON, this]

namespace Errors

theorem json_convertido (codificavel : Nat → Bool) (h : Heap) (agora ident : Nat)
    (msg : String) :
    (ConverterErro h agora (Erro.outro ident msg)).bind
        (fun r => (deref r.1 r.2).bind (ErroAPI.JSON codificavel))
      = if codificavel agora then
          some (if msg ≠ "" then
                  [("tipo", JsonValor.str "INTERNAL_ERROR"),
                   ("codigo", JsonValor.str "UNKNOWN_ERROR"),
                   ("mensagem", JsonValor.str "Erro não categorizado"),
                   ("detalhes", JsonValor.str msg), ("timestamp", JsonValor.tempo agora)]
                else
                  [("tipo", JsonValor.str "INTERNAL_ERROR"),
                   ("codigo", JsonValor.str "UNKNOWN_ERROR"),
                   ("mensagem", JsonValor.str "Erro não categorizado"),
                   ("timestamp", JsonValor.tempo agora)])
        else none := by
  rw [converterErro_outro]
  simp only [Option.bind_eq_bind, Option.some_bind, deref, List.getElem?_concat_length,
    ErroAPI.JSON, json_membros]

end Errors

namespace Goerror

theorem json_do_convertido (g : Heap) (ident : Nat) (msg : String) :
    (deref (ConverterErro g (Erro.outro ident msg)).1
        (ConverterErro g (Erro.outro ident msg)).2).map ErroAPI.JSON
      = some (if msg ≠ "" then
                [("codigo", JsonValor.str "UNKNOWN_ERROR"), ("detalhes", JsonValor.str msg),
                 ("erro", JsonValor.bool true),
                 ("mensagem", JsonValor.str "Erro interno não identificado"),
                 ("status_http", JsonValor.num 500), ("tipo", JsonValor.str "INTERNO")]
              else
                [("codigo", JsonValor.str "UNKNOWN_ERROR"), ("erro", JsonValor.bool true),
                 ("mensagem", JsonValor.str "Erro interno não identificado"),
                 ("status_http", JsonValor.num 500), ("tipo", JsonValor.str "INTERNO")]) := by
  simp only [ConverterErro, deref_alocar, Option.map_some', json_forma]
  rfl

end Goerror

/-- C17, as stated, fails in both packages: the wire forms of the converted
foreign errors `"senha=123"` and `"outra"` carry those texts in the member
`detalhes`, and differ (the clock reading 1 being one the library can
encode). -/
theorem c17_contraexemplo :
    (Errors.ConverterErro [] 1 (Erro.outro 0 "senha=123")).bind
        (fun r => (Errors.deref r.1 r.2).bind (Errors.ErroAPI.JSON (fun _ => true)))
      = some [("tipo", JsonValor.str "INTERNAL_ERROR"), ("codigo", JsonValor.str "UNKNOWN_ERROR"),
              ("mensagem", JsonValor.str "Erro não categorizado"),
              ("detalhes", JsonValor.str "senha=123"), ("timestamp", JsonValor.tempo 1)]
    ∧ (Errors.ConverterErro [] 1 (Erro.outro 0 "senha=123")).bind
          (fun r => (Errors.deref r.1 r.2).bind (Errors.ErroAPI.JSON (fun _ => true)))
        ≠ (Errors.ConverterErro [] 1 (Erro.outro 1 "outra")).bind
            (fun r => (Errors.deref r.1 r.2).bind (Errors.ErroAPI.JSON (fun _ => true)))
    ∧ (Goerror.deref (Goerror.ConverterErro [] (Erro.outro 0 "senha=123")).1
          (Goerror.ConverterErro [] (Erro.outro 0 "senha=123")).2).map Goerror.ErroAPI.JSON
      = some [("codigo", JsonValor.str "UNKNOWN_ERROR"), ("detalhes", JsonValor.str "senha=123"),
              ("erro", JsonValor.bool true),
              ("mensagem", JsonValor.str "Erro interno não identificado"),
              ("status_http", JsonValor.num 500), ("tipo", JsonValor.str "INTERNO")]
    ∧ (Goerror.deref (Goerror.ConverterErro [] (Erro.outro 0 "senha=123")).1
          (Goerror.ConverterErro [] (Erro.outro 0 "senha=123")).2).map Goerror.ErroAPI.JSON
        ≠ (Goerror.deref (Goerror.ConverterErro [] (Erro.outro 1 "outra")).1
            (Goerror.ConverterErro [] (Erro.outro 1 "outra")).2).map Goerror.ErroAPI.JSON := by
  decide

/-- C17, amended: in both packages the wire form of a converted foreign
error has fixed members for category, code and message (and status in
`src/error.go`), never a member for the cause, and carries the foreign
error's message in `detalhes` whenever that message is not empty; so the wire
forms of two converted foreign errors (converted at the same clock reading
in `src/errors.go`, one the library can encode, as the readings of
`time.Now()` are) are the same if and only if their messages are equal. In
`src/errors.go` a clock reading that cannot be encoded gives no bytes. -/
theorem c17_json_de_erro_convertido (codificavel : Nat → Bool) (h1 h2 : Errors.Heap)
    (g1 g2 : Goerror.Heap) (agora i1 i2 : Nat) (m1 m2 : String) :
    (Errors.ConverterErro h1 agora (Erro.outro i1 m1)).bind
        (fun r => (Errors.deref r.1 r.2).bind (Errors.ErroAPI.JSON codificavel))
      = (if codificavel agora then
          some (if m1 ≠ "" then
                  [("tipo", JsonValor.str "INTERNAL_ERROR"),
                   ("codigo", JsonValor.str "UNKNOWN_ERROR"),
                   ("mensagem", JsonValor.str "Erro não categorizado"),
                   ("detalhes", JsonValor.str m1), ("timestamp", JsonValor.tempo agora)]
                else
                  [("tipo", JsonValor.str "INTERNAL_ERROR"),
                   ("codigo", JsonValor.str "UNKNOWN_ERROR"),
                   ("mensagem", JsonValor.str "Erro não categorizado"),
                   ("timestamp", JsonValor.tempo agora)])
        else none)
    ∧ (codificavel agora = true →
        ((Errors.ConverterErro h1 agora (Erro.outro i1 m1)).bind
            (fun r => (Errors.deref r.1 r.2).bind (Errors.ErroAPI.JSON codificavel))
          = (Errors.ConverterErro h2 agora (Erro.outro i2 m2)).bind
              (fun r => (Errors.deref r.1 r.2).bind (Errors.ErroAPI.JSON codificavel))
          ↔ m1 = m2))
    ∧ (Goerror.deref (Goerror.ConverterErro g1 (Erro.outro i1 m1)).1
          (Goerror.ConverterErro g1 (Erro.outro i1 m1)).2).map Goerror.ErroAPI.JSON
      = some (if m1 ≠ "" then
                [("codigo", JsonValor.str "UNKNOWN_ERROR"), ("detalhes", JsonValor.str m1),
                 ("erro", JsonValor.bool true),
                 ("mensagem", JsonValor.str "Erro interno não identificado"),
                 ("status_http", JsonValor.num 500), ("tipo", JsonValor.str "INTERNO")]
              else
                [("codigo", JsonValor.str "UNKNOWN_ERROR"), ("erro", JsonValor.bool true),
                 ("mensagem", JsonValor.str "Erro interno não identificado"),
                 ("status_http", JsonValor.num 500), ("tipo", JsonValor.str "INTERNO")])
    ∧ ((Goerror.deref (Goerror.ConverterErro g1 (Erro.outro i1 m1)).1
          (Goerror.ConverterErro g1 (Erro.outro i1 m1)).2).map Goerror.ErroAPI.JSON
        = (Goerror.deref (Goerror.ConverterErro g2 (Erro.outro i2 m2)).1
            (Goerror.ConverterErro g2 (Erro.outro i2 m2)).2).map Goerror.ErroAPI.JSON
        ↔ m1 = m2) := by
  refine ⟨Errors.json_convertido codificavel h1 agora i1 m1, ?_,
    Goerror.json_do_convertido g1 i1 m1, ?_⟩
  · intro hc
    rw [Errors.json_convertido, Errors.json_convertido]
    simp only [hc, if_true]
    constructor
    · intro he
      by_cases e1 : m1 = "" <;> by_cases e2 : m2 = "" <;> simp_all
    · rintro rfl; rfl
  · rw [Goerror.json_do_convertido, Goerror.json_do_convertido]
    constructor
    · intro he
      by_cases e1 : m1 = "" <;> by_cases e2 : m2 = "" <;> simp_all
    · rintro rfl; rfl

namespace Goerror

theorem embrulhar_nil (tipo : TipoErro) (mensagem : String) (st : Int) (g : Heap)
    (codigo : String) : embrulhar tipo mensagem st g codigo Erro.nil = some (g, Erro.nil) := by
  simp [embrulhar]

theorem embrulhar_texto (tipo : TipoErro) (mensagem : String) (st : Int) (g : Heap)
    (codigo : String) (err : Erro) (s : String) (hs : chamarError g err = some s) :
    embrulhar tipo mensagem st g codigo err
      = some (g ++ [{ Tipo := tipo, CodigoPersonal := codigo, Mensagem := mensagem,
                      StatusHTTP := st, Detalhes := s, ErroOriginal := err }],
              Erro.api (Ponteiro.addr g.length)) := by
  have hne : err ≠ Erro.nil := by
    intro e; rw [e] at hs; exact absurd hs (by simp [chamarError])
  simp [embrulhar, hne, hs, alocar]

theorem embrulhar_retorno (tipo : TipoErro) (mensagem : String) (st : Int) (g : Heap)
    (codigo : String) (err : Erro) (r : Heap × Erro)
    (hr : embrulhar tipo mensagem st g codigo err = some r) :
    r.2 = Erro.nil ↔ err = Erro.nil := by
  by_cases he : err = Erro.nil
  · subst he
    rw [embrulhar_nil] at hr
    simp [← Option.some.inj hr]
  · simp only [embrulhar, he, if_false] at hr
    split at hr
    · exact absurd hr (by simp)
    · simp [← Option.some.inj hr, he]

theorem embrulho_eq (k : Embrulho) :
    ∃ (mensagem : String) (st : Int), k.aplicar = embrulhar k.categoria.tipo mensagem st := by
  cases k <;> exact ⟨_, _, rfl⟩

end Goerror

/-- C18: each of the four wrapper constructors of `src/error.go`
(`ErroBancoDados`, `ErroConexao`, `ErroInterno`, `ErroFormatoInvalido`)
returns nil for a nil `err`, and returns nil if and only if `err` is nil;
it returns a non-nil error for every `err` whose `Error()` returns, in
particular for every foreign error. -/
theorem c18_embrulhos_nil (k : Goerror.Embrulho) (g : Goerror.Heap) (codigo msg : String)
    (ident : Nat) (err : Erro) :
    k.aplicar g codigo Erro.nil = some (g, Erro.nil)
    ∧ ((∃ g1, k.aplicar g codigo err = some (g1, Erro.nil)) ↔ err = Erro.nil)
    ∧ (∀ r, k.aplicar g codigo err = some r → (r.2 = Erro.nil ↔ err = Erro.nil))
    ∧ (∀ s, Goerror.chamarError g err = some s →
        ∃ r, k.aplicar g codigo err = some r ∧ r.2 ≠ Erro.nil)
    ∧ (∃ r, k.aplicar g codigo (Erro.outro ident msg) = some r ∧ r.2 ≠ Erro.nil) := by
  obtain ⟨mensagem, st, hk⟩ := Goerror.embrulho_eq k
  rw [hk]
  refine ⟨Goerror.embrulhar_nil _ _ _ g codigo, ?_, ?_, ?_, ?_⟩
  · constructor
    · rintro ⟨g1, hr⟩
      exact (Goerror.embrulhar_retorno _ _ _ g codigo err _ hr).mp rfl
    · rintro rfl
      exact ⟨g, Goerror.embrulhar_nil _ _ _ g codigo⟩
  · intro r hr
    exact Goerror.embrulhar_retorno _ _ _ g codigo err r hr
  · intro s hs
    exact ⟨_, Goerror.embrulhar_texto _ _ _ g codigo err s hs, by simp⟩
  · exact ⟨_, Goerror.embrulhar_texto _ _ _ g codigo _ msg rfl, by simp⟩

/-- C19: for every code and every `err` whose `Error()` returns the string
`s` (so `err` is not nil), each wrapper constructor of `src/error.go`
allocates one struct of its own category and status (database 500,
connection 503, internal 500, invalid format 400) with the given code, the
cause `err` and `Detalhes` equal to `s`, and returns it; `EhErroBancoDados`
and `EhErroConexao` hold of the results of `ErroBancoDados` and
`ErroConexao`. -/
theorem c19_embrulhos_campos (g : Goerror.Heap) (codigo s : String) (err : Erro)
    (hs : Goerror.chamarError g err = some s) :
    err ≠ Erro.nil
    ∧ Goerror.ErroBancoDados g codigo err
        = some (g ++ [{ Tipo := "BANCO_DADOS", CodigoPersonal := codigo,
                        Mensagem := "Erro na operação do banco de dados", StatusHTTP := 500,
                        Detalhes := s, ErroOriginal := err }],
                Erro.api (Ponteiro.addr g.length))
    ∧ Goerror.ErroConexao g codigo err
        = some (g ++ [{ Tipo := "CONEXAO", CodigoPersonal := codigo,
                        Mensagem := "Erro de conexão", StatusHTTP := 503,
                        Detalhes := s, ErroOriginal := err }],
                Erro.api (Ponteiro.addr g.length))
    ∧ Goerror.ErroInterno g codigo err
        = some (g ++ [{ Tipo := "INTERNO", CodigoPersonal := codigo,
                        Mensagem := "Erro interno do servidor", StatusHTTP := 500,
                        Detalhes := s, ErroOriginal := err }],
                Erro.api (Ponteiro.addr g.length))
    ∧ Goerror.ErroFormatoInvalido g codigo err
        = some (g ++ [{ Tipo := "FORMATO_INVALIDO", CodigoPersonal := codigo,
                        Mensagem := "Formato de dados inválido", StatusHTTP := 400,
                        Detalhes := s, ErroOriginal := err }],
                Erro.api (Ponteiro.addr g.length))
    ∧ (Goerror.ErroBancoDados g codigo err).bind
        (fun r => Goerror.EhErroBancoDados r.1 r.2) = some true
    ∧ (Goerror.ErroConexao g codigo err).bind
        (fun r => Goerror.EhErroConexao r.1 r.2) = some true := by
  have hne : err ≠ Erro.nil := by
    intro e; rw [e] at hs; exact absurd hs (by simp [Goerror.chamarError])
  have e1 := Goerror.embrulhar_texto Goerror.TipoBancoDados
    "Erro na operação do banco de dados" StatusInternalServerError g codigo err s hs
  have e2 := Goerror.embrulhar_texto Goerror.TipoConexao
    "Erro de conexão" StatusServiceUnavailable g codigo err s hs
  have e3 := Goerror.embrulhar_texto Goerror.TipoInterno
    "Erro interno do servidor" StatusInternalServerError g codigo err s hs
  have e4 := Goerror.embrulhar_texto Goerror.TipoFormatoInvalido
    "Formato de dados inválido" StatusBadRequest g codigo err s hs
  refine ⟨hne, e1, e2, e3, e4, ?_, ?_⟩
  · show (Goerror.embrulhar _ _ _ g codigo err).bind _ = _
    rw [e1]
    simp [Goerror.EhErroBancoDados, Goerror.ehErroDoTipo, Goerror.deref]
  · show (Goerror.embrulhar _ _ _ g codigo err).bind _ = _
    rw [e2]
    simp [Goerror.EhErroConexao, Goerror.ehErroDoTipo, Goerror.deref]

/-- C19 at a concrete input: the wrappers applied to the foreign error
`Erro.outro 4 "timeout"` on the heap of the pre-declared errors. -/
theorem c19_embrulhos_campos_witness :
    Goerror.chamarError Goerror.heapInicial (Erro.outro 4 "timeout") = some "timeout"
    ∧ Goerror.ErroConexao Goerror.heapInicial "DB_DOWN" (Erro.outro 4 "timeout")
        = some (Goerror.heapInicial ++
                  [{ Tipo := "CONEXAO", CodigoPersonal := "DB_DOWN",
                     Mensagem := "Erro de conexão", StatusHTTP := 503,
                     Detalhes := "timeout", ErroOriginal := Erro.outro 4 "timeout" }],
                Erro.api (Ponteiro.addr 4))
    ∧ (Goerror.ErroConexao Goerror.heapInicial "DB_DOWN" (Erro.outro 4 "timeout")).bind
        (fun r => Goerror.EhErroConexao r.1 r.2) = some true :=
  ⟨rfl,
   (c19_embrulhos_campos Goerror.heapInicial "DB_DOWN" "timeout" (Erro.outro 4 "timeout")
      rfl).2.2.1,
   (c19_embrulhos_campos Goerror.heapInicial "DB_DOWN" "timeout" (Erro.outro 4 "timeout")
      rfl).2.2.2.2.2.2⟩

/-- C20: for every code and resource name `r`, `ErroNaoEncontrado` and
`NovoErroNaoEncontrado` of `src/error.go` allocate one struct of category
not-found with status 404, the given code, the message `r` followed by
`" não encontrado"`, no detail and no cause, and return it. -/
theorem c20_nao_encontrado (g : Goerror.Heap) (codigo r : String) :
    Goerror.ErroNaoEncontrado g codigo r
        = (g ++ [{ Tipo := "NAO_ENCONTRADO", CodigoPersonal := codigo,
                   Mensagem := r ++ " não encontrado", StatusHTTP := 404,
                   Detalhes := "", ErroOriginal := Erro.nil }],
           Erro.api (Ponteiro.addr g.length))
    ∧ Goerror.NovoErroNaoEncontrado g codigo r
        = (g ++ [{ Tipo := "NAO_ENCONTRADO", CodigoPersonal := codigo,
                   Mensagem := r ++ " não encontrado", StatusHTTP := 404,
                   Detalhes := "", ErroOriginal := Erro.nil }],
           Ponteiro.addr g.length)
    ∧ Goerror.EhErroNaoEncontrado (Goerror.ErroNaoEncontrado g codigo r).1
        (Goerror.ErroNaoEncontrado g codigo r).2 = some true
    ∧ Goerror.Categoria.naoEncontrado.tipo = "NAO_ENCONTRADO" := by
  refine ⟨rfl, rfl, ?_, rfl⟩
  simp [Goerror.EhErroNaoEncontrado, Goerror.ehErroDoTipo, Goerror.ErroNaoEncontrado,
    Goerror.deref, Goerror.alocar]


namespace Goerror

theorem executar_erro (g : Heap) (c m : String) :
    (Retorno.erro c m).executar g
      = some (g ++ [{ Tipo := "VALIDACAO", CodigoPersonal := c, Mensagem := m,
                      StatusHTTP := 400, Detalhes := "", ErroOriginal := Erro.nil }],
              Erro.api (Ponteiro.addr g.length)) := rfl

theorem executar_erroDetalhes (g : Heap) (c m d : String) :
    (Retorno.erroDetalhes c m d).executar g
      = some (g ++ [{ Tipo := "VALIDACAO", CodigoPersonal := c, Mensagem := m,
                      StatusHTTP := 400, Detalhes := d, ErroOriginal := Erro.nil }],
              Erro.api (Ponteiro.addr g.length)) := by
  simp [Retorno.executar, NovoErroValidacao, alocar, ComDetalhes, set_concat_length,
    TipoValidacao, StatusBadRequest]

theorem executar_erroDetalhesCausa (g : Heap) (c m d : String) (e : Erro) (hd : d ≠ "") :
    (Retorno.erroDetalhesCausa c m d e).executar g
      = some (g ++ [{ Tipo := "VALIDACAO", CodigoPersonal := c, Mensagem := m,
                      StatusHTTP := 400, Detalhes := d, ErroOriginal := e }],
              Erro.api (Ponteiro.addr g.length)) := by
  simp [Retorno.executar, NovoErroValidacao, alocar, ComDetalhes, ComCausa, set_concat_length,
    TipoValidacao, StatusBadRequest, hd]

/-- Every `return` of a validator gives `nil` or a validation error of
status 400. -/
theorem executar_validacao (ret : Retorno) (g : Heap)
    (h : ∀ c m d e, ret = Retorno.erroDetalhesCausa c m d e → d ≠ "") :
    ehNilOuValidacao (ret.executar g) = true := by
  cases ret with
  | nulo => rfl
  | erro c m =>
    rw [executar_erro]
    simp [ehNilOuValidacao, deref, EhErroValidacao, ehErroDoTipo, TipoValidacao]
  | erroDetalhes c m d =>
    rw [executar_erroDetalhes]
    simp [ehNilOuValidacao, deref, EhErroValidacao, ehErroDoTipo, TipoValidacao]
  | erroDetalhesCausa c m d e =>
    rw [executar_erroDetalhesCausa g c m d e (h c m d e rfl)]
    simp [ehNilOuValidacao, deref, EhErroValidacao, ehErroDoTipo, TipoValidacao]

theorem concat_nao_vazia (a b : String) (ha : a ≠ "") : a ++ b ≠ "" := by
  intro h
  have h1 := congrArg String.length h
  have h2 : a.length ≠ 0 := by
    intro h0
    exact ha (String.ext (List.length_eq_zero.mp h0))
  simp [String.length_append] at h1
  exact h2 h1.1

end Goerror

/-- C21: each of the ten validators of `src/validadores.go`, for every heap
and every input (and every outcome of `mail.ParseAddress`), returns, and
returns either `nil` or an error that points to a struct of category
validation with status 400, of which `EhErroValidacao` holds. -/
theorem c21_validadores_validacao (g : Goerror.Heap) (s t : String) (n m : Int)
    (ParseAddress : String → Erro) (tab : Char → Char) :
    Goerror.ehNilOuValidacao (Goerror.ValidarCPF g s) = true
    ∧ Goerror.ehNilOuValidacao (Goerror.ValidarCNPJ g s) = true
    ∧ Goerror.ehNilOuValidacao (Goerror.ValidarEmail ParseAddress g s) = true
    ∧ Goerror.ehNilOuValidacao (Goerror.ValidarTelefone g s) = true
    ∧ Goerror.ehNilOuValidacao (Goerror.ValidarCEP g s) = true
    ∧ Goerror.ehNilOuValidacao (Goerror.ValidarSenha g s n) = true
    ∧ Goerror.ehNilOuValidacao (Goerror.ValidarUUID tab g s) = true
    ∧ Goerror.ehNilOuValidacao (Goerror.ValidarID g n s) = true
    ∧ Goerror.ehNilOuValidacao (Goerror.ValidarStringObrigatoria g s t) = true
    ∧ Goerror.ehNilOuValidacao (Goerror.ValidarTamanhoString g s t n m) = true := by
  refine ⟨?_, ?_, ?_, ?_, ?_, ?_, ?_, ?_, ?_, ?_⟩
  · apply Goerror.executar_validacao
    intro c m d e h
    simp only [Goerror.retornoValidarCPF] at h
    split_ifs at h
  · apply Goerror.executar_validacao
    intro c m d e h
    simp only [Goerror.retornoValidarCNPJ] at h
    split_ifs at h
  · apply Goerror.executar_validacao
    intro c m d e h
    simp only [Goerror.retornoValidarEmail] at h
    split_ifs at h
    simp only [Goerror.Retorno.erroDetalhesCausa.injEq] at h
    rw [← h.2.2.1]
    exact Goerror.concat_nao_vazia _ _ (by decide)
  · apply Goerror.executar_validacao
    intro c m d e h
    simp only [Goerror.retornoValidarTelefone] at h
    split_ifs at h
  · apply Goerror.executar_validacao
    intro c m d e h
    simp only [Goerror.retornoValidarCEP] at h
    split_ifs at h
  · apply Goerror.executar_validacao
    intro c m d e h
    simp only [Goerror.retornoValidarSenha] at h
    split_ifs at h
  · apply Goerror.executar_validacao
    intro c m d e h
    simp only [Goerror.retornoValidarUUID] at h
    split_ifs at h
  · apply Goerror.executar_validacao
    intro c m d e h
    simp only [Goerror.retornoValidarID] at h
    split_ifs at h
  · apply Goerror.executar_validacao
    intro c m d e h
    simp only [Goerror.retornoValidarStringObrigatoria] at h
    split_ifs at h
  · apply Goerror.executar_validacao
    intro c m d e h
    simp only [Goerror.retornoValidarTamanhoString] at h
    split_ifs at h


namespace Goerror

theorem codigo_erro (g : Heap) (c m : String) :
    codigoDaFalha ((Retorno.erro c m).executar g) = some c := by
  rw [executar_erro]; simp [codigoDaFalha, deref]

theorem codigo_erroDetalhes (g : Heap) (c m d : String) :
    codigoDaFalha ((Retorno.erroDetalhes c m d).executar g) = some c := by
  rw [executar_erroDetalhes]; simp [codigoDaFalha, deref]

theorem executar_eq_nil (ret : Retorno) (g g1 : Heap)
    (h : ∀ c m d e, ret = Retorno.erroDetalhesCausa c m d e → d ≠ "") :
    ret.executar g = some (g1, Erro.nil) ↔ ret = Retorno.nulo ∧ g1 = g := by
  cases ret with
  | nulo => simp [Retorno.executar, eq_comm]
  | erro c m => rw [executar_erro]; simp
  | erroDetalhes c m d => rw [executar_erroDetalhes]; simp
  | erroDetalhesCausa c m d e =>
    rw [executar_erroDetalhesCausa g c m d e (h c m d e rfl)]; simp

theorem limparCPF_vazio : limparCPF "" = "" := by decide

theorem cpf_nao_vazio (cpf : String) (h : goBytes (limparCPF cpf) ≠ []) : cpf ≠ "" := by
  rintro rfl
  exact h (by decide)

theorem digitoCPF_eq_chkEspec (s : Nat) : digitoCPF s = chkEspec s := by
  unfold digitoCPF chkEspec
  have := Nat.mod_lt s (show 0 < 11 by decide)
  by_cases h : s % 11 < 2
  · simp only [h, if_true]
    have : 11 - s % 11 ≥ 10 := by omega
    simp [this]
  · simp only [h, if_false]
    have : ¬ (11 - s % 11 ≥ 10) := by omega
    simp [this]

end Goerror

/-- C22: `ValidarCPF` fails with `CPF_VAZIO` for the empty string, with
`CPF_TAMANHO_INVALIDO` for every non-empty input whose cleaned form does not
have 11 bytes, and with `CPF_DIGITOS_IGUAIS` for every input whose cleaned
form is 11 equal bytes, in particular 11 equal digits such as
`111.111.111-11`, whatever the check digits. -/
theorem c22_cpf_falhas_iniciais (g : Goerror.Heap) (cpf : String) (b : Nat) :
    Goerror.codigoDaFalha (Goerror.ValidarCPF g "") = some "CPF_VAZIO"
    ∧ (cpf ≠ "" → Goerror.goLen (Goerror.limparCPF cpf) ≠ 11 →
        Goerror.codigoDaFalha (Goerror.ValidarCPF g cpf) = some "CPF_TAMANHO_INVALIDO")
    ∧ (Goerror.goBytes (Goerror.limparCPF cpf) = List.replicate 11 b →
        Goerror.codigoDaFalha (Goerror.ValidarCPF g cpf) = some "CPF_DIGITOS_IGUAIS")
    ∧ Goerror.goBytes (Goerror.limparCPF "111.111.111-11") = List.replicate 11 49
    ∧ Goerror.codigoDaFalha (Goerror.ValidarCPF g "111.111.111-11")
        = some "CPF_DIGITOS_IGUAIS" := by
  have h3 : ∀ (c : String) (x : Nat),
      Goerror.goBytes (Goerror.limparCPF c) = List.replicate 11 x →
      Goerror.codigoDaFalha (Goerror.ValidarCPF g c) = some "CPF_DIGITOS_IGUAIS" := by
    intro c x hb
    have hne : c ≠ "" := Goerror.cpf_nao_vazio c (by rw [hb]; simp [List.replicate])
    simp only [Goerror.ValidarCPF, Goerror.retornoValidarCPF, hne, if_false, hb]
    simp [List.replicate, Goerror.codigo_erroDetalhes]
  refine ⟨?_, ?_, h3 cpf b, by decide, h3 _ 49 (by decide)⟩
  · simp [Goerror.ValidarCPF, Goerror.retornoValidarCPF, Goerror.codigo_erro]
  · intro hne hlen
    simp only [Goerror.goLen] at hlen
    simp [Goerror.ValidarCPF, Goerror.retornoValidarCPF, hne, hlen, Goerror.codigo_erroDetalhes]

namespace Goerror

theorem atoiByte_digito (d : Nat) (h : d < 10) : atoiByte (48 + d) = d := by
  unfold atoiByte
  have : 48 ≤ 48 + d ∧ 48 + d ≤ 57 := by omega
  simp [this]

/-- The body of `ValidarCPF` on a cleaned form of eleven decimal digits that
are not all equal. -/
theorem retornoValidarCPF_digitos (cpf : String) (d0 d1 d2 d3 d4 d5 d6 d7 d8 d9 d10 : Nat)
    (hb : goBytes (limparCPF cpf)
      = [48 + d0, 48 + d1, 48 + d2, 48 + d3, 48 + d4, 48 + d5, 48 + d6, 48 + d7, 48 + d8,
         48 + d9, 48 + d10])
    (h0 : d0 < 10) (h1 : d1 < 10) (h2 : d2 < 10) (h3 : d3 < 10) (h4 : d4 < 10)
    (h5 : d5 < 10) (h6 : d6 < 10) (h7 : d7 < 10) (h8 : d8 < 10) (h9 : d9 < 10)
    (h10 : d10 < 10)
    (hdif : ¬ (d1 = d0 ∧ d2 = d0 ∧ d3 = d0 ∧ d4 = d0 ∧ d5 = d0 ∧ d6 = d0 ∧ d7 = d0
      ∧ d8 = d0 ∧ d9 = d0 ∧ d10 = d0)) :
    retornoValidarCPF cpf =
      if d9 ≠ chkEspec
            (d0 * 10 + d1 * 9 + d2 * 8 + d3 * 7 + d4 * 6 + d5 * 5 + d6 * 4 + d7 * 3 + d8 * 2)
          ∨ d10 ≠ chkEspec
            (d0 * 11 + d1 * 10 + d2 * 9 + d3 * 8 + d4 * 7 + d5 * 6 + d6 * 5 + d7 * 4 + d8 * 3
              + d9 * 2) then
        Retorno.erroDetalhes "CPF_INVALIDO" "CPF inválido - dígitos verificadores incorretos"
          ("CPF fornecido: " ++ cpf)
      else Retorno.nulo := by
  have hne : cpf ≠ "" := cpf_nao_vazio cpf (by rw [hb]; simp)
  have r9 : List.range 9 = [0, 1, 2, 3, 4, 5, 6, 7, 8] := by decide
  have r10 : List.range 10 = [0, 1, 2, 3, 4, 5, 6, 7, 8, 9] := by decide
  simp only [retornoValidarCPF, hne, if_false, hb, r9, r10, digitoCPF_eq_chkEspec]
  simp only [List.length_cons, List.length_nil, List.foldl_cons, List.foldl_nil, List.getD_cons_zero,
    List.getD_cons_succ, List.tail_cons, List.headD_cons, List.all_cons, List.all_nil,
    atoiByte_digito, h0, h1, h2, h3, h4, h5, h6, h7, h8, h9, h10]
  have hig : ((48 + d1 == 48 + d0) && ((48 + d2 == 48 + d0) && ((48 + d3 == 48 + d0)
      && ((48 + d4 == 48 + d0) && ((48 + d5 == 48 + d0) && ((48 + d6 == 48 + d0)
      && ((48 + d7 == 48 + d0) && ((48 + d8 == 48 + d0) && ((48 + d9 == 48 + d0)
      && ((48 + d10 == 48 + d0) && true)))))))))) = false := by
    simp only [Bool.and_true, Bool.and_eq_false_iff, beq_eq_false_iff_ne, ne_eq]
    omega
  simp [hig]
  intro e1 e2 e3 e4 e5 e6 e7 e8 e9 e10
  exact absurd ⟨e1, e2, e3, e4, e5, e6, e7, e8, e9, e10⟩ hdif

end Goerror

/-- C23: for every input whose cleaned form is eleven decimal digits
`d0 .. d10` that are not all equal, `ValidarCPF` returns `nil` (and leaves
the heap alone) if and only if `d9` is the check digit of the sum of
`d0 .. d8` with weights 10 down to 2 and `d10` is the check digit of the sum
of `d0 .. d9` with weights 11 down to 2, the check digit of `s` being 0 when
`s mod 11 < 2` and `11 - s mod 11` otherwise; in every other such case it
fails with `CPF_INVALIDO`. -/
theorem c23_cpf_digitos_verificadores (g : Goerror.Heap) (cpf : String)
    (d0 d1 d2 d3 d4 d5 d6 d7 d8 d9 d10 : Nat)
    (hb : Goerror.goBytes (Goerror.limparCPF cpf)
      = [48 + d0, 48 + d1, 48 + d2, 48 + d3, 48 + d4, 48 + d5, 48 + d6, 48 + d7, 48 + d8,
         48 + d9, 48 + d10])
    (h0 : d0 < 10) (h1 : d1 < 10) (h2 : d2 < 10) (h3 : d3 < 10) (h4 : d4 < 10)
    (h5 : d5 < 10) (h6 : d6 < 10) (h7 : d7 < 10) (h8 : d8 < 10) (h9 : d9 < 10)
    (h10 : d10 < 10)
    (hdif : ¬ (d1 = d0 ∧ d2 = d0 ∧ d3 = d0 ∧ d4 = d0 ∧ d5 = d0 ∧ d6 = d0 ∧ d7 = d0
      ∧ d8 = d0 ∧ d9 = d0 ∧ d10 = d0)) :
    (Goerror.ValidarCPF g cpf = some (g, Erro.nil) ↔
      d9 = Goerror.chkEspec
            (d0 * 10 + d1 * 9 + d2 * 8 + d3 * 7 + d4 * 6 + d5 * 5 + d6 * 4 + d7 * 3 + d8 * 2)
        ∧ d10 = Goerror.chkEspec
            (d0 * 11 + d1 * 10 + d2 * 9 + d3 * 8 + d4 * 7 + d5 * 6 + d6 * 5 + d7 * 4 + d8 * 3
              + d9 * 2))
    ∧ (¬ (d9 = Goerror.chkEspec
            (d0 * 10 + d1 * 9 + d2 * 8 + d3 * 7 + d4 * 6 + d5 * 5 + d6 * 4 + d7 * 3 + d8 * 2)
        ∧ d10 = Goerror.chkEspec
            (d0 * 11 + d1 * 10 + d2 * 9 + d3 * 8 + d4 * 7 + d5 * 6 + d6 * 5 + d7 * 4 + d8 * 3
              + d9 * 2)) →
        Goerror.codigoDaFalha (Goerror.ValidarCPF g cpf) = some "CPF_INVALIDO") := by
  have hr := Goerror.retornoValidarCPF_digitos cpf d0 d1 d2 d3 d4 d5 d6 d7 d8 d9 d10 hb
    h0 h1 h2 h3 h4 h5 h6 h7 h8 h9 h10 hdif
  unfold Goerror.ValidarCPF
  rw [hr]
  constructor
  · split
    · rename_i hc
      rw [Goerror.executar_erroDetalhes]
      constructor
      · intro h; simp at h
      · intro h; exact absurd h (by tauto)
    · rename_i hc
      constructor
      · intro _; tauto
      · intro _; rfl
  · intro hn
    have hc : d9 ≠ Goerror.chkEspec
            (d0 * 10 + d1 * 9 + d2 * 8 + d3 * 7 + d4 * 6 + d5 * 5 + d6 * 4 + d7 * 3 + d8 * 2)
        ∨ d10 ≠ Goerror.chkEspec
            (d0 * 11 + d1 * 10 + d2 * 9 + d3 * 8 + d4 * 7 + d5 * 6 + d6 * 5 + d7 * 4 + d8 * 3
              + d9 * 2) := by tauto
    rw [if_pos hc, Goerror.codigo_erroDetalhes]

/-- C23 at concrete inputs: `529.982.247-25` is accepted and
`529.982.247-26` fails with `CPF_INVALIDO`. -/
theorem c23_cpf_digitos_verificadores_witness :
    Goerror.goBytes (Goerror.limparCPF "529.982.247-25")
        = [48 + 5, 48 + 2, 48 + 9, 48 + 9, 48 + 8, 48 + 2, 48 + 2, 48 + 4, 48 + 7, 48 + 2, 48 + 5]
    ∧ Goerror.goBytes (Goerror.limparCPF "529.982.247-26")
        = [48 + 5, 48 + 2, 48 + 9, 48 + 9, 48 + 8, 48 + 2, 48 + 2, 48 + 4, 48 + 7, 48 + 2, 48 + 6]
    ∧ Goerror.ValidarCPF [] "529.982.247-25" = some ([], Erro.nil)
    ∧ Goerror.codigoDaFalha (Goerror.ValidarCPF [] "529.982.247-26") = some "CPF_INVALIDO" :=
  ⟨by decide, by decide,
   (c23_cpf_digitos_verificadores [] "529.982.247-25" 5 2 9 9 8 2 2 4 7 2 5 (by decide)
      (by decide) (by decide) (by decide) (by decide) (by decide) (by decide) (by decide)
      (by decide) (by decide) (by decide) (by decide) (by decide)).1.mpr
      ⟨by decide, by decide⟩,
   (c23_cpf_digitos_verificadores [] "529.982.247-26" 5 2 9 9 8 2 2 4 7 2 6 (by decide)
      (by decide) (by decide) (by decide) (by decide) (by decide) (by decide) (by decide)
      (by decide) (by decide) (by decide) (by decide) (by decide)).2 (by decide)⟩

/-- C24, evaluated on `src/validadores.go`: `ValidarCPF` returns `nil` for
`123456789x9`, whose cleaned form has 11 bytes, one of them the letter `x`:
the byte that is not a digit counts as the digit 0. -/
theorem c24_cpf_aceita_letra :
    Goerror.ValidarCPF [] "123456789x9" = some ([], Erro.nil)
    ∧ Goerror.limparCPF "123456789x9" = "123456789x9"
    ∧ Goerror.goLen (Goerror.limparCPF "123456789x9") = 11
    ∧ (Goerror.limparCPF "123456789x9").toList.all Goerror.ehDigito = false
    ∧ Goerror.ValidarCPF [] "12345678909" = some ([], Erro.nil) := by
  decide


namespace Goerror

theorem cnpj_nao_vazio (cnpj : String) (h : goBytes (limparCNPJ cnpj) ≠ []) : cnpj ≠ "" := by
  rintro rfl
  exact h (by decide)

theorem digitoCNPJ_eq_chkEspec (s : Nat) : digitoCNPJ s = chkEspec s := rfl

/-- The body of `ValidarCNPJ` on a cleaned form of fourteen decimal digits. -/
theorem retornoValidarCNPJ_digitos (cnpj : String)
    (d0 d1 d2 d3 d4 d5 d6 d7 d8 d9 d10 d11 d12 d13 : Nat)
    (hb : goBytes (limparCNPJ cnpj)
      = [48 + d0, 48 + d1, 48 + d2, 48 + d3, 48 + d4, 48 + d5, 48 + d6, 48 + d7, 48 + d8,
         48 + d9, 48 + d10, 48 + d11, 48 + d12, 48 + d13])
    (h0 : d0 < 10) (h1 : d1 < 10) (h2 : d2 < 10) (h3 : d3 < 10) (h4 : d4 < 10)
    (h5 : d5 < 10) (h6 : d6 < 10) (h7 : d7 < 10) (h8 : d8 < 10) (h9 : d9 < 10)
    (h10 : d10 < 10) (h11 : d11 < 10) (h12 : d12 < 10) (h13 : d13 < 10) :
    retornoValidarCNPJ cnpj =
      if d12 ≠ chkEspec
            (d0 * 5 + d1 * 4 + d2 * 3 + d3 * 2 + d4 * 9 + d5 * 8 + d6 * 7 + d7 * 6 + d8 * 5
              + d9 * 4 + d10 * 3 + d11 * 2)
          ∨ d13 ≠ chkEspec
            (d0 * 6 + d1 * 5 + d2 * 4 + d3 * 3 + d4 * 2 + d5 * 9 + d6 * 8 + d7 * 7 + d8 * 6
              + d9 * 5 + d10 * 4 + d11 * 3 + d12 * 2) then
        Retorno.erroDetalhes "CNPJ_INVALIDO" "CNPJ inválido - dígitos verificadores incorretos"
          ("CNPJ fornecido: " ++ cnpj)
      else Retorno.nulo := by
  have hne : cnpj ≠ "" := cnpj_nao_vazio cnpj (by rw [hb]; simp)
  have r12 : List.range 12 = [0, 1, 2, 3, 4, 5, 6, 7, 8, 9, 10, 11] := by decide
  have r13 : List.range 13 = [0, 1, 2, 3, 4, 5, 6, 7, 8, 9, 10, 11, 12] := by decide
  simp only [retornoValidarCNPJ, hne, if_false, hb, r12, r13, digitoCNPJ_eq_chkEspec, pesos1,
    pesos2]
  simp only [List.length_cons, List.length_nil, List.foldl_cons, List.foldl_nil,
    List.getD_cons_zero, List.getD_cons_succ, atoiByte_digito, h0, h1, h2, h3, h4, h5, h6, h7,
    h8, h9, h10, h11, h12, h13]
  simp

end Goerror

/-- C25: for every input whose cleaned form is fourteen decimal digits
`d0 .. d13`, `ValidarCNPJ` returns `nil` (and leaves the heap alone) if and
only if `d12` is the check digit of the sum of `d0 .. d11` with the weights
5,4,3,2,9,8,7,6,5,4,3,2 and `d13` is the check digit of the sum of
`d0 .. d12` with the weights 6,5,4,3,2,9,8,7,6,5,4,3,2, and otherwise fails
with `CNPJ_INVALIDO`; the empty string fails with `CNPJ_VAZIO` and a
non-empty input whose cleaned form does not have 14 bytes with
`CNPJ_TAMANHO_INVALIDO`. -/
theorem c25_cnpj_digitos_verificadores (g : Goerror.Heap) (cnpj outro : String)
    (d0 d1 d2 d3 d4 d5 d6 d7 d8 d9 d10 d11 d12 d13 : Nat)
    (hb : Goerror.goBytes (Goerror.limparCNPJ cnpj)
      = [48 + d0, 48 + d1, 48 + d2, 48 + d3, 48 + d4, 48 + d5, 48 + d6, 48 + d7, 48 + d8,
         48 + d9, 48 + d10, 48 + d11, 48 + d12, 48 + d13])
    (h0 : d0 < 10) (h1 : d1 < 10) (h2 : d2 < 10) (h3 : d3 < 10) (h4 : d4 < 10)
    (h5 : d5 < 10) (h6 : d6 < 10) (h7 : d7 < 10) (h8 : d8 < 10) (h9 : d9 < 10)
    (h10 : d10 < 10) (h11 : d11 < 10) (h12 : d12 < 10) (h13 : d13 < 10) :
    (Goerror.ValidarCNPJ g cnpj = some (g, Erro.nil) ↔
      d12 = Goerror.chkEspec
            (d0 * 5 + d1 * 4 + d2 * 3 + d3 * 2 + d4 * 9 + d5 * 8 + d6 * 7 + d7 * 6 + d8 * 5
              + d9 * 4 + d10 * 3 + d11 * 2)
        ∧ d13 = Goerror.chkEspec
            (d0 * 6 + d1 * 5 + d2 * 4 + d3 * 3 + d4 * 2 + d5 * 9 + d6 * 8 + d7 * 7 + d8 * 6
              + d9 * 5 + d10 * 4 + d11 * 3 + d12 * 2))
    ∧ (¬ (d12 = Goerror.chkEspec
            (d0 * 5 + d1 * 4 + d2 * 3 + d3 * 2 + d4 * 9 + d5 * 8 + d6 * 7 + d7 * 6 + d8 * 5
              + d9 * 4 + d10 * 3 + d11 * 2)
        ∧ d13 = Goerror.chkEspec
            (d0 * 6 + d1 * 5 + d2 * 4 + d3 * 3 + d4 * 2 + d5 * 9 + d6 * 8 + d7 * 7 + d8 * 6
              + d9 * 5 + d10 * 4 + d11 * 3 + d12 * 2)) →
        Goerror.codigoDaFalha (Goerror.ValidarCNPJ g cnpj) = some "CNPJ_INVALIDO")
    ∧ Goerror.codigoDaFalha (Goerror.ValidarCNPJ g "") = some "CNPJ_VAZIO"
    ∧ (outro ≠ "" → Goerror.goLen (Goerror.limparCNPJ outro) ≠ 14 →
        Goerror.codigoDaFalha (Goerror.ValidarCNPJ g outro) = some "CNPJ_TAMANHO_INVALIDO") := by
  have hr := Goerror.retornoValidarCNPJ_digitos cnpj d0 d1 d2 d3 d4 d5 d6 d7 d8 d9 d10 d11 d12
    d13 hb h0 h1 h2 h3 h4 h5 h6 h7 h8 h9 h10 h11 h12 h13
  refine ⟨?_, ?_, ?_, ?_⟩
  · unfold Goerror.ValidarCNPJ
    rw [hr]
    split
    · rename_i hc
      rw [Goerror.executar_erroDetalhes]
      constructor
      · intro h; simp at h
      · intro h; exact absurd h (by tauto)
    · rename_i hc
      constructor
      · intro _; tauto
      · intro _; rfl
  · intro hn
    unfold Goerror.ValidarCNPJ
    rw [hr]
    have hc : d12 ≠ Goerror.chkEspec
            (d0 * 5 + d1 * 4 + d2 * 3 + d3 * 2 + d4 * 9 + d5 * 8 + d6 * 7 + d7 * 6 + d8 * 5
              + d9 * 4 + d10 * 3 + d11 * 2)
        ∨ d13 ≠ Goerror.chkEspec
            (d0 * 6 + d1 * 5 + d2 * 4 + d3 * 3 + d4 * 2 + d5 * 9 + d6 * 8 + d7 * 7 + d8 * 6
              + d9 * 5 + d10 * 4 + d11 * 3 + d12 * 2) := by tauto
    rw [if_pos hc, Goerror.codigo_erroDetalhes]
  · simp [Goerror.ValidarCNPJ, Goerror.retornoValidarCNPJ, Goerror.codigo_erro]
  · intro hne hlen
    simp only [Goerror.goLen] at hlen
    simp [Goerror.ValidarCNPJ, Goerror.retornoValidarCNPJ, hne, hlen,
      Goerror.codigo_erroDetalhes]

/-- C25 at a concrete input: `11.222.333/0001-81` is accepted. -/
theorem c25_cnpj_digitos_verificadores_witness :
    Goerror.goBytes (Goerror.limparCNPJ "11.222.333/0001-81")
        = [48 + 1, 48 + 1, 48 + 2, 48 + 2, 48 + 2, 48 + 3, 48 + 3, 48 + 3, 48 + 0, 48 + 0,
           48 + 0, 48 + 1, 48 + 8, 48 + 1]
    ∧ Goerror.ValidarCNPJ [] "11.222.333/0001-81" = some ([], Erro.nil) :=
  ⟨by decide,
   (c25_cnpj_digitos_verificadores [] "11.222.333/0001-81" "1" 1 1 2 2 2 3 3 3 0 0 0 1 8 1
      (by decide) (by decide) (by decide) (by decide) (by decide) (by decide) (by decide)
      (by decide) (by decide) (by decide) (by decide) (by decide) (by decide) (by decide)
      (by decide)).1.mpr ⟨by decide, by decide⟩⟩

/-- C26, evaluated on `src/validadores.go`: `ValidarCNPJ` returns `nil` for
fourteen zeros, with or without punctuation; the other nine inputs of
fourteen equal digits fail, by their check digits, with `CNPJ_INVALIDO`. -/
theorem c26_cnpj_aceita_zeros :
    Goerror.ValidarCNPJ [] "00000000000000" = some ([], Erro.nil)
    ∧ Goerror.ValidarCNPJ [] "00.000.000/0000-00" = some ([], Erro.nil)
    ∧ Goerror.goBytes (Goerror.limparCNPJ "00.000.000/0000-00") = List.replicate 14 48
    ∧ Goerror.codigoDaFalha (Goerror.ValidarCNPJ [] "11111111111111") = some "CNPJ_INVALIDO"
    ∧ Goerror.codigoDaFalha (Goerror.ValidarCPF [] "00000000000") = some "CPF_DIGITOS_IGUAIS" := by
  decide


namespace Goerror

theorem goLen_vazio : goLen "" = 0 := by decide

theorem goLen_replicate_a (n : Nat) : goLen (String.mk (List.replicate n 'a')) = n := by
  have key : ∀ k, ((List.replicate k 'a').flatMap utf8Bytes).length = k := by
    intro k
    induction k with
    | zero => rfl
    | succ k ih =>
      have : utf8Bytes 'a' = [97] := by decide
      simp only [List.replicate_succ, List.flatMap_cons, this, List.length_append,
        List.length_singleton, ih]
      omega
  exact key n

/-- An expression that is one class matches somewhere in a text exactly when
some character of the text is in the class. -/
theorem casaAlgum_classe (p : Char → Bool) (s : String) :
    (Re.classe p).casaAlgum s = s.toList.any p := by
  unfold Re.casaAlgum
  induction s.toList with
  | nil => simp [List.tails, Re.restos]
  | cons c r ih =>
    simp only [List.tails, List.any_cons, ih]
    congr 1
    by_cases hp : p c <;> simp [Re.restos, hp]

end Goerror

/-- C27: `ValidarEmail` fails with `EMAIL_VAZIO` for the empty string and,
whatever `mail.ParseAddress` would say, with `EMAIL_MUITO_LONGO` for every
input of more than 254 bytes: such an input is neither accepted nor reported
as `EMAIL_FORMATO_INVALIDO`. -/
theorem c27_email_vazio_e_longo (ParseAddress : String → Erro) (g : Goerror.Heap)
    (email : String) (h : Goerror.goLen email > 254) :
    Goerror.codigoDaFalha (Goerror.ValidarEmail ParseAddress g "") = some "EMAIL_VAZIO"
    ∧ Goerror.codigoDaFalha (Goerror.ValidarEmail ParseAddress g email)
        = some "EMAIL_MUITO_LONGO"
    ∧ (∀ g1, Goerror.ValidarEmail ParseAddress g email ≠ some (g1, Erro.nil))
    ∧ Goerror.codigoDaFalha (Goerror.ValidarEmail ParseAddress g email)
        ≠ some "EMAIL_FORMATO_INVALIDO" := by
  have hne : email ≠ "" := by
    rintro rfl
    rw [Goerror.goLen_vazio] at h
    omega
  have hr : Goerror.retornoValidarEmail ParseAddress email
      = Goerror.Retorno.erroDetalhes "EMAIL_MUITO_LONGO"
          "Email muito longo (máximo 254 caracteres)"
          ("Tamanho: " ++ Goerror.Itoa (Goerror.goLen email)) := by
    simp [Goerror.retornoValidarEmail, hne, h]
  have hc : Goerror.codigoDaFalha (Goerror.ValidarEmail ParseAddress g email)
      = some "EMAIL_MUITO_LONGO" := by
    unfold Goerror.ValidarEmail
    rw [hr, Goerror.codigo_erroDetalhes]
  refine ⟨?_, hc, ?_, ?_⟩
  · simp [Goerror.ValidarEmail, Goerror.retornoValidarEmail, Goerror.codigo_erro]
  · intro g1 hg
    rw [hg] at hc
    simp [Goerror.codigoDaFalha] at hc
  · rw [hc]; decide

/-- C27 at a concrete input: 255 letters `a`, with a parser that accepts
every text. -/
theorem c27_email_vazio_e_longo_witness :
    Goerror.goLen (String.mk (List.replicate 255 'a')) > 254
    ∧ Goerror.codigoDaFalha
        (Goerror.ValidarEmail (fun _ => Erro.nil) [] (String.mk (List.replicate 255 'a')))
        = some "EMAIL_MUITO_LONGO" :=
  ⟨by rw [Goerror.goLen_replicate_a]; decide,
   (c27_email_vazio_e_longo (fun _ => Erro.nil) [] (String.mk (List.replicate 255 'a'))
      (by rw [Goerror.goLen_replicate_a]; decide)).2.1⟩

/-- C28: `ValidarSenha(s, n)`, with `m` = 8 when `n` = 0 and `m` = `n`
otherwise, fails with the code of the first rule that fails, in the order
empty (`SENHA_VAZIA`), fewer than `m` characters (`SENHA_MUITO_CURTA`), no
`A-Z` (`SENHA_SEM_MAIUSCULA`), no `a-z` (`SENHA_SEM_MINUSCULA`), no `0-9`
(`SENHA_SEM_NUMERO`), no character of the punctuation set
(`SENHA_SEM_ESPECIAL`), and returns `nil` if and only if no rule fails. -/
theorem c28_senha_regras (g : Goerror.Heap) (s : String) (n : Int) :
    Goerror.codigoDaFalha (Goerror.ValidarSenha g "" n) = some "SENHA_VAZIA"
    ∧ (s ≠ "" → (Goerror.RuneCountInString s : Int) < (if n = 0 then 8 else n) →
        Goerror.codigoDaFalha (Goerror.ValidarSenha g s n) = some "SENHA_MUITO_CURTA")
    ∧ (s ≠ "" → ¬ (Goerror.RuneCountInString s : Int) < (if n = 0 then 8 else n) →
        s.toList.any Goerror.ehMaiuscula = false →
        Goerror.codigoDaFalha (Goerror.ValidarSenha g s n) = some "SENHA_SEM_MAIUSCULA")
    ∧ (s ≠ "" → ¬ (Goerror.RuneCountInString s : Int) < (if n = 0 then 8 else n) →
        s.toList.any Goerror.ehMaiuscula = true → s.toList.any Goerror.ehMinuscula = false →
        Goerror.codigoDaFalha (Goerror.ValidarSenha g s n) = some "SENHA_SEM_MINUSCULA")
    ∧ (s ≠ "" → ¬ (Goerror.RuneCountInString s : Int) < (if n = 0 then 8 else n) →
        s.toList.any Goerror.ehMaiuscula = true → s.toList.any Goerror.ehMinuscula = true →
        s.toList.any Goerror.ehDigito = false →
        Goerror.codigoDaFalha (Goerror.ValidarSenha g s n) = some "SENHA_SEM_NUMERO")
    ∧ (s ≠ "" → ¬ (Goerror.RuneCountInString s : Int) < (if n = 0 then 8 else n) →
        s.toList.any Goerror.ehMaiuscula = true → s.toList.any Goerror.ehMinuscula = true →
        s.toList.any Goerror.ehDigito = true → s.toList.any Goerror.ehEspecial = false →
        Goerror.codigoDaFalha (Goerror.ValidarSenha g s n) = some "SENHA_SEM_ESPECIAL")
    ∧ (Goerror.ValidarSenha g s n = some (g, Erro.nil) ↔
        s ≠ "" ∧ ¬ (Goerror.RuneCountInString s : Int) < (if n = 0 then 8 else n)
          ∧ s.toList.any Goerror.ehMaiuscula = true ∧ s.toList.any Goerror.ehMinuscula = true
          ∧ s.toList.any Goerror.ehDigito = true ∧ s.toList.any Goerror.ehEspecial = true)
    ∧ Goerror.codigoDaFalha (Goerror.ValidarSenha g "abc" 0) = some "SENHA_MUITO_CURTA"
    ∧ Goerror.codigoDaFalha (Goerror.ValidarSenha g "abcdefgh" 0) = some "SENHA_SEM_MAIUSCULA"
    ∧ Goerror.ValidarSenha g "Abcdefg1!" 0 = some (g, Erro.nil) := by
  have hw1 : Goerror.retornoValidarSenha "abc" 0
      = Goerror.Retorno.erroDetalhes "SENHA_MUITO_CURTA" "Senha deve ter pelo menos 8 caracteres"
          "Tamanho atual: 3" := by decide
  have hw2 : Goerror.retornoValidarSenha "abcdefgh" 0
      = Goerror.Retorno.erro "SENHA_SEM_MAIUSCULA"
          "Senha deve conter pelo menos uma letra maiúscula" := by decide
  have hw3 : Goerror.retornoValidarSenha "Abcdefg1!" 0 = Goerror.Retorno.nulo := by decide
  refine ⟨?_, ?_, ?_, ?_, ?_, ?_, ?_, ?_, ?_, ?_⟩
  · simp [Goerror.ValidarSenha, Goerror.retornoValidarSenha, Goerror.codigo_erro]
  · intro hne hl
    simp [Goerror.ValidarSenha, Goerror.retornoValidarSenha, hne, hl,
      Goerror.codigo_erroDetalhes]
  · intro hne hl h1
    simp only [Goerror.ValidarSenha, Goerror.retornoValidarSenha, hne, hl, if_false,
      Goerror.casaAlgum_classe, h1, Bool.not_false, Bool.not_true, Bool.false_eq_true,
      if_true, Goerror.codigo_erro]
  · intro hne hl h1 h2
    simp only [Goerror.ValidarSenha, Goerror.retornoValidarSenha, hne, hl, if_false,
      Goerror.casaAlgum_classe, h1, h2, Bool.not_false, Bool.not_true, Bool.false_eq_true,
      if_true, Goerror.codigo_erro]
  · intro hne hl h1 h2 h3
    simp only [Goerror.ValidarSenha, Goerror.retornoValidarSenha, hne, hl, if_false,
      Goerror.casaAlgum_classe, h1, h2, h3, Bool.not_false, Bool.not_true, Bool.false_eq_true,
      if_true, Goerror.codigo_erro]
  · intro hne hl h1 h2 h3 h4
    simp only [Goerror.ValidarSenha, Goerror.retornoValidarSenha, hne, hl, if_false,
      Goerror.casaAlgum_classe, h1, h2, h3, h4, Bool.not_false, Bool.not_true, Bool.false_eq_true,
      if_true, Goerror.codigo_erro]
  · rw [Goerror.ValidarSenha, Goerror.executar_eq_nil _ _ _ (by
      intro c m d e h
      simp only [Goerror.retornoValidarSenha] at h
      split_ifs at h)]
    simp only [Goerror.retornoValidarSenha, Goerror.casaAlgum_classe, and_true]
    by_cases hne : s = ""
    · simp [hne]
    · by_cases hl : (Goerror.RuneCountInString s : Int) < (if n = 0 then 8 else n)
      · simp [hne, hl]
      · cases h1 : s.toList.any Goerror.ehMaiuscula <;>
          cases h2 : s.toList.any Goerror.ehMinuscula <;>
          cases h3 : s.toList.any Goerror.ehDigito <;>
          cases h4 : s.toList.any Goerror.ehEspecial <;>
          simp only [hne, hl, if_false, Bool.not_false, Bool.not_true, Bool.false_eq_true,
            if_true, ne_eq, not_false_eq_true, true_and, and_true, and_false, false_and,
            reduceCtorEq]
  · rw [Goerror.ValidarSenha, hw1, Goerror.codigo_erroDetalhes]
  · rw [Goerror.ValidarSenha, hw2, Goerror.codigo_erro]
  · rw [Goerror.ValidarSenha, hw3]; rfl


namespace Goerror

theorem conforma_nil_esq (l : List Char) : conforma [] l = true ↔ l = [] := by
  cases l <;> simp [conforma]

theorem conforma_append (pa pb : List (Char → Bool)) : ∀ (l : List Char),
    conforma (pa ++ pb) l = true ↔
      ∃ l1 l2, l = l1 ++ l2 ∧ conforma pa l1 = true ∧ conforma pb l2 = true := by
  induction pa with
  | nil =>
    intro l
    simp only [List.nil_append]
    constructor
    · intro h; exact ⟨[], l, rfl, rfl, h⟩
    · rintro ⟨l1, l2, rfl, h1, h2⟩
      rw [(conforma_nil_esq l1).mp h1]; exact h2
  | cons p ps ih =>
    intro l
    cases l with
    | nil =>
      simp only [List.cons_append, conforma, Bool.false_eq_true, false_iff]
      rintro ⟨l1, l2, h, h1, h2⟩
      cases l1 with
      | nil => simp [conforma] at h1
      | cons c cs => simp at h
    | cons c cs =>
      simp only [List.cons_append, conforma, Bool.and_eq_true]
      constructor
      · rintro ⟨hp, hr⟩
        obtain ⟨l1, l2, h, h1, h2⟩ := (ih cs).mp hr
        refine ⟨c :: l1, l2, by rw [h]; rfl, ?_, h2⟩
        simp only [conforma, Bool.and_eq_true]
        exact ⟨hp, h1⟩
      · rintro ⟨l1, l2, h, h1, h2⟩
        cases l1 with
        | nil => simp [conforma] at h1
        | cons d ds =>
          simp only [List.cons_append, List.cons.injEq] at h
          obtain ⟨hcd, hcs⟩ := h
          simp only [conforma, Bool.and_eq_true] at h1
          exact ⟨hcd ▸ h1.1, (ih cs).mpr ⟨ds, l2, hcs, h1.2, h2⟩⟩

theorem mem_produto (x : List (List (Char → Bool))) (n : Nat) (a b : List (Char → Bool))
    (ha : a ∈ x) (hb : b ∈ produto x n) : a ++ b ∈ produto x (n + 1) := by
  simp only [produto, List.mem_flatMap, List.mem_map]
  exact ⟨a, ha, b, hb, rfl⟩

/-- What is left after `n` matches in a row, by the lists of classes. -/
theorem repetir_iff (f : List Char → List (List Char)) (x : List (List (Char → Bool)))
    (hf : ∀ s t, t ∈ f s ↔ ∃ pat ∈ x, ∃ pre, s = pre ++ t ∧ conforma pat pre = true)
    (n : Nat) : ∀ s t, t ∈ repetir f n s ↔
      ∃ pat ∈ produto x n, ∃ pre, s = pre ++ t ∧ conforma pat pre = true := by
  induction n with
  | zero =>
    intro s t
    simp only [repetir, produto, List.mem_singleton]
    constructor
    · rintro rfl; exact ⟨[], rfl, [], rfl, rfl⟩
    · rintro ⟨pat, rfl, pre, rfl, hc⟩
      rw [(conforma_nil_esq pre).mp hc]; rfl
  | succ n ih =>
    intro s t
    simp only [repetir, List.mem_flatMap]
    constructor
    · rintro ⟨u, hu, ht⟩
      obtain ⟨pa, hpa, pre1, rfl, hc1⟩ := (hf s u).mp hu
      obtain ⟨pb, hpb, pre2, rfl, hc2⟩ := (ih u t).mp ht
      exact ⟨pa ++ pb, mem_produto x n pa pb hpa hpb, pre1 ++ pre2, by simp,
        (conforma_append pa pb _).mpr ⟨pre1, pre2, rfl, hc1, hc2⟩⟩
    · rintro ⟨pat, hpat, pre, rfl, hc⟩
      simp only [produto, List.mem_flatMap, List.mem_map] at hpat
      obtain ⟨pa, hpa, pb, hpb, rfl⟩ := hpat
      obtain ⟨l1, l2, rfl, h1, h2⟩ := (conforma_append pa pb pre).mp hc
      refine ⟨l2 ++ t, (hf _ _).mpr ⟨pa, hpa, l1, by simp, h1⟩, ?_⟩
      exact (ih _ _).mpr ⟨pb, hpb, l2, rfl, h2⟩

/-- What is left of a text after a match of an expression, by the lists of
classes of the expression. -/
theorem restos_iff (re : Re) : ∀ s t, t ∈ re.restos s ↔
    ∃ pat ∈ re.padroes, ∃ pre, s = pre ++ t ∧ conforma pat pre = true := by
  induction re with
  | classe p =>
    intro s t
    simp only [Re.padroes, List.mem_singleton, exists_eq_left]
    cases s with
    | nil =>
      simp only [Re.restos, List.not_mem_nil, false_iff]
      rintro ⟨pre, h, hc⟩
      cases pre with
      | nil => simp [conforma] at hc
      | cons c cs => simp at h
    | cons c r =>
      simp only [Re.restos]
      constructor
      · intro h
        by_cases hp : p c = true
        · simp only [hp, if_true, List.mem_singleton] at h
          subst h
          exact ⟨[c], rfl, by simp [conforma, hp]⟩
        · simp [hp] at h
      · rintro ⟨pre, h, hc⟩
        cases pre with
        | nil => simp [conforma] at hc
        | cons d ds =>
          cases ds with
          | nil =>
            simp only [List.cons_append, List.nil_append, List.cons.injEq] at h
            obtain ⟨rfl, rfl⟩ := h
            simp only [conforma, Bool.and_true] at hc
            simp [hc]
          | cons e es => simp [conforma] at hc
  | seq a b iha ihb =>
    intro s t
    simp only [Re.restos, Re.padroes, List.mem_flatMap, List.mem_map]
    constructor
    · rintro ⟨u, hu, ht⟩
      obtain ⟨pa, hpa, pre1, rfl, hc1⟩ := (iha s u).mp hu
      obtain ⟨pb, hpb, pre2, rfl, hc2⟩ := (ihb u t).mp ht
      exact ⟨pa ++ pb, ⟨pa, hpa, pb, hpb, rfl⟩, pre1 ++ pre2, by simp,
        (conforma_append pa pb _).mpr ⟨pre1, pre2, rfl, hc1, hc2⟩⟩
    · rintro ⟨pat, ⟨pa, hpa, pb, hpb, rfl⟩, pre, rfl, hc⟩
      obtain ⟨l1, l2, rfl, h1, h2⟩ := (conforma_append pa pb pre).mp hc
      refine ⟨l2 ++ t, (iha _ _).mpr ⟨pa, hpa, l1, by simp, h1⟩, ?_⟩
      exact (ihb _ _).mpr ⟨pb, hpb, l2, rfl, h2⟩
  | alt a b iha ihb =>
    intro s t
    simp only [Re.restos, Re.padroes, List.mem_append, iha, ihb]
    constructor
    · rintro (⟨pat, hp, h⟩ | ⟨pat, hp, h⟩)
      · exact ⟨pat, Or.inl hp, h⟩
      · exact ⟨pat, Or.inr hp, h⟩
    · rintro ⟨pat, hp | hp, h⟩
      · exact Or.inl ⟨pat, hp, h⟩
      · exact Or.inr ⟨pat, hp, h⟩
  | opt a iha =>
    intro s t
    simp only [Re.restos, Re.padroes, List.mem_append, List.mem_singleton, iha]
    constructor
    · rintro (⟨pat, hp, h⟩ | rfl)
      · exact ⟨pat, Or.inl hp, h⟩
      · exact ⟨[], Or.inr rfl, [], rfl, rfl⟩
    · rintro ⟨pat, hp | rfl, pre, h, hc⟩
      · exact Or.inl ⟨pat, hp, pre, h, hc⟩
      · rw [(conforma_nil_esq pre).mp hc] at h
        exact Or.inr (by simpa using h.symm)
  | rep n a iha =>
    intro s t
    simp only [Re.restos, Re.padroes]
    exact repetir_iff a.restos a.padroes iha n s t

/-- `MatchString` of `^re$`: the text conforms to one of the lists of classes
of `re`. -/
theorem casaTudo_iff (re : Re) (s : String) :
    re.casaTudo s = true ↔ ∃ pat ∈ re.padroes, conforma pat s.toList = true := by
  unfold Re.casaTudo
  rw [List.any_eq_true]
  constructor
  · rintro ⟨t, ht, he⟩
    have : t = [] := by cases t <;> simp_all
    subst this
    obtain ⟨pat, hp, pre, h, hc⟩ := (restos_iff re _ _).mp ht
    rw [List.append_nil] at h
    exact ⟨pat, hp, h ▸ hc⟩
  · rintro ⟨pat, hp, hc⟩
    exact ⟨[], (restos_iff re _ _).mpr ⟨pat, hp, s.toList, by simp, hc⟩, rfl⟩

theorem padroes_regexCEP : regexCEP.padroes = [padraoCEP9, padraoCEP8] := rfl

theorem padroes_regexUUID : regexUUID.padroes = [padraoUUID ehHexMinusculo ehHifen] := rfl

end Goerror

namespace Goerror

theorem toNat_ofNat_pequeno (n : Nat) (h : n < 55296) : (Char.ofNat n).toNat = n := by
  have hv : n.isValidChar := Or.inl h
  simp only [Char.ofNat, hv, dite_true, Char.toNat, Char.ofNatAux]
  simp [UInt32.toNat]

theorem ehHifen_toNat (c : Char) : ehHifen c = decide (c.toNat = 45) := by
  unfold ehHifen
  by_cases h : c = '-'
  · subst h; rfl
  · have : c.toNat ≠ 45 := by
      intro h2
      apply h
      rw [← Char.ofNat_toNat c, h2]
    simp [h, this]

theorem conforma_map (f : Char → Char) : ∀ (pat : List (Char → Bool)) (l : List Char),
    conforma pat (l.map f) = conforma (pat.map (fun p => p ∘ f)) l
  | [], [] => rfl
  | [], _ :: _ => rfl
  | _ :: _, [] => rfl
  | p :: ps, c :: cs => by
    simp only [List.map_cons, conforma, Function.comp_apply, conforma_map f ps cs]

/-- The shape 8-4-4-4-12 read through a map of the characters. -/
theorem conforma_padraoUUID_map (f : Char → Char) (h h2 sep sep2 : Char → Bool)
    (hh : ∀ c, h (f c) = h2 c) (hs : ∀ c, sep (f c) = sep2 c) (l : List Char) :
    conforma (padraoUUID h sep) (l.map f) = conforma (padraoUUID h2 sep2) l := by
  have e1 : h ∘ f = h2 := funext hh
  have e2 : sep ∘ f = sep2 := funext hs
  rw [conforma_map]
  simp only [padraoUUID, List.map_append, List.map_replicate, List.map_cons, List.map_nil,
    e1, e2]

theorem ehHex_ToLowerRune (tab : Char → Char)
    (ht : ∀ c : Char, 128 ≤ c.toNat → ehHex (tab c) = false ∧ ehHifen (tab c) = false)
    (c : Char) : ehHexMinusculo (ToLowerRune tab c) = ehHex c := by
  unfold ToLowerRune
  by_cases h1 : c.toNat < 128
  · by_cases h2 : 65 ≤ c.toNat ∧ c.toNat ≤ 90
    · simp only [h1, h2, if_true, and_self]
      unfold ehHexMinusculo ehHex
      rw [toNat_ofNat_pequeno _ (by omega)]
      apply decide_eq_decide.mpr
      omega
    · simp only [h1, h2, if_true, if_false]
      unfold ehHexMinusculo ehHex
      apply decide_eq_decide.mpr
      omega
  · simp only [h1, if_false]
    have hc := (ht c (by omega)).1
    have : ehHex c = false := by
      unfold ehHex
      apply decide_eq_false
      omega
    rw [this]
    unfold ehHex at hc
    unfold ehHexMinusculo
    have hc2 := of_decide_eq_false hc
    apply decide_eq_false
    omega

theorem ehHifen_ToLowerRune (tab : Char → Char)
    (ht : ∀ c : Char, 128 ≤ c.toNat → ehHex (tab c) = false ∧ ehHifen (tab c) = false)
    (c : Char) : ehHifen (ToLowerRune tab c) = ehHifen c := by
  unfold ToLowerRune
  by_cases h1 : c.toNat < 128
  · by_cases h2 : 65 ≤ c.toNat ∧ c.toNat ≤ 90
    · simp only [h1, h2, if_true, and_self]
      rw [ehHifen_toNat, ehHifen_toNat, toNat_ofNat_pequeno _ (by omega)]
      apply decide_eq_decide.mpr
      omega
    · simp only [h1, h2, if_true, if_false]
  · simp only [h1, if_false]
    rw [(ht c (by omega)).2, ehHifen_toNat]
    symm
    apply decide_eq_false
    omega

theorem ehHex_ToUpperRune (tab : Char → Char)
    (ht : ∀ c : Char, 128 ≤ c.toNat → ehHex (tab c) = false ∧ ehHifen (tab c) = false)
    (c : Char) : ehHex (ToUpperRune tab c) = ehHex c := by
  unfold ToUpperRune
  by_cases h1 : c.toNat < 128
  · by_cases h2 : 97 ≤ c.toNat ∧ c.toNat ≤ 122
    · simp only [h1, h2, if_true, and_self]
      unfold ehHex
      rw [toNat_ofNat_pequeno _ (by omega)]
      apply decide_eq_decide.mpr
      omega
    · simp only [h1, h2, if_true, if_false]
  · simp only [h1, if_false]
    rw [(ht c (by omega)).1]
    symm
    unfold ehHex
    apply decide_eq_false
    omega

theorem ehHifen_ToUpperRune (tab : Char → Char)
    (ht : ∀ c : Char, 128 ≤ c.toNat → ehHex (tab c) = false ∧ ehHifen (tab c) = false)
    (c : Char) : ehHifen (ToUpperRune tab c) = ehHifen c := by
  unfold ToUpperRune
  by_cases h1 : c.toNat < 128
  · by_cases h2 : 97 ≤ c.toNat ∧ c.toNat ≤ 122
    · simp only [h1, h2, if_true, and_self]
      rw [ehHifen_toNat, ehHifen_toNat, toNat_ofNat_pequeno _ (by omega)]
      apply decide_eq_decide.mpr
      omega
    · simp only [h1, h2, if_true, if_false]
  · simp only [h1, if_false]
    rw [(ht c (by omega)).2, ehHifen_toNat]
    symm
    apply decide_eq_false
    omega

theorem ehHex_ToLowerRune_hex (tab : Char → Char)
    (ht : ∀ c : Char, 128 ≤ c.toNat → ehHex (tab c) = false ∧ ehHifen (tab c) = false)
    (c : Char) : ehHex (ToLowerRune tab c) = ehHex c := by
  unfold ToLowerRune
  by_cases h1 : c.toNat < 128
  · by_cases h2 : 65 ≤ c.toNat ∧ c.toNat ≤ 90
    · simp only [h1, h2, if_true, and_self]
      unfold ehHex
      rw [toNat_ofNat_pequeno _ (by omega)]
      apply decide_eq_decide.mpr
      omega
    · simp only [h1, h2, if_true, if_false]
  · simp only [h1, if_false]
    rw [(ht c (by omega)).1]
    symm
    unfold ehHex
    apply decide_eq_false
    omega

theorem string_vazio_toList (s : String) : s = "" ↔ s.toList = [] := by
  constructor
  · rintro rfl; rfl
  · intro h
    cases s with
    | mk d => simp only [String.toList] at h; subst h; rfl

/-- The call `ValidarCEP` returns `nil` exactly when the argument is not
empty and matches `regexCEP`. -/
theorem validarCEP_nil_iff (g : Heap) (s : String) :
    ValidarCEP g s = some (g, Erro.nil) ↔
      conforma padraoCEP8 s.toList = true ∨ conforma padraoCEP9 s.toList = true := by
  rw [ValidarCEP, executar_eq_nil _ _ _ (by
    intro c m d e h
    simp only [retornoValidarCEP] at h
    split_ifs at h)]
  have hm : regexCEP.casaTudo s = true ↔
      conforma padraoCEP8 s.toList = true ∨ conforma padraoCEP9 s.toList = true := by
    rw [casaTudo_iff, padroes_regexCEP]
    simp only [List.mem_cons, List.mem_singleton, List.not_mem_nil, or_false]
    constructor
    · rintro ⟨pat, rfl | rfl, h⟩
      · exact Or.inr h
      · exact Or.inl h
    · rintro (h | h)
      · exact ⟨padraoCEP8, Or.inr rfl, h⟩
      · exact ⟨padraoCEP9, Or.inl rfl, h⟩
  rw [← hm]
  simp only [retornoValidarCEP, and_true]
  by_cases hne : s = ""
  · subst hne
    simp only [if_true, reduceCtorEq, false_iff]
    decide
  · cases hc : regexCEP.casaTudo s <;> simp [hne]

/-- The call `ValidarUUID` returns `nil` exactly when the argument has the
shape 8-4-4-4-12 with the hexadecimal letters in either case. -/
theorem validarUUID_nil_iff (tab : Char → Char)
    (ht : ∀ c : Char, 128 ≤ c.toNat → ehHex (tab c) = false ∧ ehHifen (tab c) = false)
    (g : Heap) (u : String) :
    ValidarUUID tab g u = some (g, Erro.nil) ↔
      conforma (padraoUUID ehHex ehHifen) u.toList = true := by
  rw [ValidarUUID, executar_eq_nil _ _ _ (by
    intro c m d e h
    simp only [retornoValidarUUID] at h
    split_ifs at h)]
  have hm : regexUUID.casaTudo (ToLower tab u) = true ↔
      conforma (padraoUUID ehHex ehHifen) u.toList = true := by
    rw [casaTudo_iff, padroes_regexUUID]
    simp only [List.mem_singleton, exists_eq_left]
    have : (ToLower tab u).toList = u.toList.map (ToLowerRune tab) := rfl
    rw [this, conforma_padraoUUID_map (ToLowerRune tab) ehHexMinusculo ehHex ehHifen ehHifen
      (ehHex_ToLowerRune tab ht) (ehHifen_ToLowerRune tab ht)]
  rw [← hm]
  simp only [retornoValidarUUID, and_true]
  by_cases hne : u = ""
  · subst hne
    simp only [if_true, reduceCtorEq, false_iff]
    rw [hm]
    decide
  · cases hc : regexUUID.casaTudo (ToLower tab u) <;> simp [hne]

end Goerror

/-- C29: `ValidarCEP(s)` returns `nil` exactly when `s` is eight decimal
digits, or five decimal digits, one `-` and three decimal digits, with
nothing before or after; the empty string fails with `CEP_VAZIO` and every
other input with `CEP_FORMATO_INVALIDO`. -/
theorem c29_cep_forma (g : Goerror.Heap) (s : String) :
    (Goerror.ValidarCEP g s = some (g, Erro.nil) ↔
      Goerror.conforma Goerror.padraoCEP8 s.toList = true
        ∨ Goerror.conforma Goerror.padraoCEP9 s.toList = true)
    ∧ Goerror.codigoDaFalha (Goerror.ValidarCEP g "") = some "CEP_VAZIO"
    ∧ (s ≠ "" → ¬ (Goerror.conforma Goerror.padraoCEP8 s.toList = true
          ∨ Goerror.conforma Goerror.padraoCEP9 s.toList = true) →
        Goerror.codigoDaFalha (Goerror.ValidarCEP g s) = some "CEP_FORMATO_INVALIDO")
    ∧ Goerror.ValidarCEP g "12345678" = some (g, Erro.nil)
    ∧ Goerror.ValidarCEP g "12345-678" = some (g, Erro.nil)
    ∧ Goerror.codigoDaFalha (Goerror.ValidarCEP g "12345-6789") = some "CEP_FORMATO_INVALIDO"
    ∧ Goerror.codigoDaFalha (Goerror.ValidarCEP g " 12345678") = some "CEP_FORMATO_INVALIDO"
    ∧ Goerror.codigoDaFalha (Goerror.ValidarCEP g "12345678\n") = some "CEP_FORMATO_INVALIDO"
    ∧ Goerror.codigoDaFalha (Goerror.ValidarCEP g "1234-5678") = some "CEP_FORMATO_INVALIDO" := by
  have hfalha : ∀ t : String, t ≠ "" →
      ¬ (Goerror.conforma Goerror.padraoCEP8 t.toList = true
          ∨ Goerror.conforma Goerror.padraoCEP9 t.toList = true) →
      Goerror.codigoDaFalha (Goerror.ValidarCEP g t) = some "CEP_FORMATO_INVALIDO" := by
    intro t hne hn
    have hnil := (Goerror.validarCEP_nil_iff g t).not.mpr hn
    have hc : Goerror.regexCEP.casaTudo t = false := by
      cases hc : Goerror.regexCEP.casaTudo t
      · rfl
      · exfalso
        apply hnil
        simp [Goerror.ValidarCEP, Goerror.retornoValidarCEP, hne, hc, Goerror.Retorno.executar]
    simp [Goerror.ValidarCEP, Goerror.retornoValidarCEP, hne, hc, Goerror.codigo_erroDetalhes]
  refine ⟨Goerror.validarCEP_nil_iff g s, ?_, hfalha s, ?_, ?_, ?_, ?_, ?_, ?_⟩
  · simp [Goerror.ValidarCEP, Goerror.retornoValidarCEP, Goerror.codigo_erro]
  · exact (Goerror.validarCEP_nil_iff g _).mpr (by decide)
  · exact (Goerror.validarCEP_nil_iff g _).mpr (by decide)
  · exact hfalha _ (by decide) (by decide)
  · exact hfalha _ (by decide) (by decide)
  · exact hfalha _ (by decide) (by decide)
  · exact hfalha _ (by decide) (by decide)

/-- C30: `ValidarUUID(u)` returns `nil` exactly when `u` has the shape
8-4-4-4-12 of hexadecimal digits separated by `-`, the letters in either
case; so it returns `nil` for `u` exactly when it does for `u` in upper case
and exactly when it does for `u` in lower case. The Unicode case tables of
`strings.ToLower` (`tabL`) and `strings.ToUpper` (`tabU`) are parameters: no
character outside ASCII has a hexadecimal digit or `-` as its lower or upper
case. -/
theorem c30_uuid_forma (tabL tabU : Char → Char)
    (hL : ∀ c : Char, 128 ≤ c.toNat →
      Goerror.ehHex (tabL c) = false ∧ Goerror.ehHifen (tabL c) = false)
    (hU : ∀ c : Char, 128 ≤ c.toNat →
      Goerror.ehHex (tabU c) = false ∧ Goerror.ehHifen (tabU c) = false)
    (g : Goerror.Heap) (u : String) :
    (Goerror.ValidarUUID tabL g u = some (g, Erro.nil) ↔
      Goerror.conforma (Goerror.padraoUUID Goerror.ehHex Goerror.ehHifen) u.toList = true)
    ∧ (Goerror.ValidarUUID tabL g u = some (g, Erro.nil) ↔
        Goerror.ValidarUUID tabL g (Goerror.ToUpper tabU u) = some (g, Erro.nil))
    ∧ (Goerror.ValidarUUID tabL g u = some (g, Erro.nil) ↔
        Goerror.ValidarUUID tabL g (Goerror.ToLower tabL u) = some (g, Erro.nil)) := by
  refine ⟨Goerror.validarUUID_nil_iff tabL hL g u, ?_, ?_⟩
  · rw [Goerror.validarUUID_nil_iff tabL hL, Goerror.validarUUID_nil_iff tabL hL]
    have : (Goerror.ToUpper tabU u).toList = u.toList.map (Goerror.ToUpperRune tabU) := rfl
    rw [this, Goerror.conforma_padraoUUID_map (Goerror.ToUpperRune tabU) Goerror.ehHex
      Goerror.ehHex Goerror.ehHifen Goerror.ehHifen (Goerror.ehHex_ToUpperRune tabU hU)
      (Goerror.ehHifen_ToUpperRune tabU hU)]
  · rw [Goerror.validarUUID_nil_iff tabL hL, Goerror.validarUUID_nil_iff tabL hL]
    have : (Goerror.ToLower tabL u).toList = u.toList.map (Goerror.ToLowerRune tabL) := rfl
    rw [this, Goerror.conforma_padraoUUID_map (Goerror.ToLowerRune tabL) Goerror.ehHex
      Goerror.ehHex Goerror.ehHifen Goerror.ehHifen (Goerror.ehHex_ToLowerRune_hex tabL hL)
      (Goerror.ehHifen_ToLowerRune tabL hL)]

theorem semAscii_id (c : Char) (h : 128 ≤ c.toNat) :
    Goerror.ehHex (id c) = false ∧ Goerror.ehHifen (id c) = false := by
  constructor
  · unfold Goerror.ehHex
    apply decide_eq_false
    simp only [id]
    omega
  · rw [Goerror.ehHifen_toNat]
    apply decide_eq_false
    simp only [id]
    omega

theorem c30_uuid_forma_witness :
    (∀ c : Char, 128 ≤ c.toNat →
      Goerror.ehHex (id c) = false ∧ Goerror.ehHifen (id c) = false)
    ∧ Goerror.conforma (Goerror.padraoUUID Goerror.ehHex Goerror.ehHifen)
        "123E4567-e89b-12D3-a456-426614174000".toList = true
    ∧ Goerror.ValidarUUID id [] "123E4567-e89b-12D3-a456-426614174000" = some ([], Erro.nil)
    ∧ Goerror.ValidarUUID id []
        (Goerror.ToUpper id "123E4567-e89b-12D3-a456-426614174000") = some ([], Erro.nil)
    ∧ Goerror.ValidarUUID id []
        (Goerror.ToLower id "123E4567-e89b-12D3-a456-426614174000") = some ([], Erro.nil) :=
  have h := c30_uuid_forma id id semAscii_id semAscii_id []
    "123E4567-e89b-12D3-a456-426614174000"
  have hc : Goerror.conforma (Goerror.padraoUUID Goerror.ehHex Goerror.ehHifen)
      "123E4567-e89b-12D3-a456-426614174000".toList = true := by decide
  have hv := h.1.mpr hc
  ⟨semAscii_id, hc, hv, h.2.1.mp hv, h.2.2.mp hv⟩


namespace Goerror

theorem padroes_regexTelefone :
    regexTelefone.padroes = formaDDD.flatMap (fun a => formaNumero.map (fun r => a ++ r)) := rfl

/-- The expression of `regexTelefone` matches exactly the texts of the phone
shape. -/
theorem casaTudo_telefone (t : String) : regexTelefone.casaTudo t = temFormaTelefone t := by
  apply Bool.eq_iff_iff.mpr
  rw [casaTudo_iff, padroes_regexTelefone]
  simp only [temFormaTelefone, List.any_eq_true, List.mem_flatMap, List.mem_map]
  constructor
  · rintro ⟨pat, ⟨a, ha, r, hr, rfl⟩, hc⟩
    exact ⟨a, ha, r, hr, hc⟩
  · rintro ⟨a, ha, r, hr, hc⟩
    exact ⟨a ++ r, ⟨a, ha, r, hr, rfl⟩, hc⟩

/-- The digits of a text that conforms to a list of classes, each of which
holds only of digits or only of other characters. -/
theorem conforma_digitos (pat : List (Char → Bool)) (marcas : List Bool)
    (h : List.Forall₂ (fun p b => ∀ c, p c = true → ehDigito c = b) pat marcas) :
    ∀ l, conforma pat l = true → (l.filter ehDigito).length = marcas.count true := by
  induction h with
  | nil =>
    intro l hl
    rw [(conforma_nil_esq l).mp hl]
    rfl
  | cons hpb _ ih =>
    intro l hl
    cases l with
    | nil => simp [conforma] at hl
    | cons c cs =>
      simp only [conforma, Bool.and_eq_true] at hl
      have h1 := hpb c hl.1
      have h2 := ih cs hl.2
      rename_i p b ps bs _
      cases b
      · simp [List.filter, h1, h2]
      · simp [List.filter, h1, h2]

theorem digito_digito (c : Char) (h : ehDigito c = true) : ehDigito c = true := h

theorem letra_nao_digito (x : Char) (hx : ehDigito x = false) (c : Char)
    (h : (c == x) = true) : ehDigito c = false := by
  rw [beq_iff_eq] at h
  rw [h]; exact hx

theorem nove_digito (c : Char) (h : ehNove c = true) : ehDigito c = true := by
  unfold ehNove at h
  rw [beq_iff_eq] at h
  rw [h]; decide

theorem abre_nao_digito (c : Char) (h : ehAbre c = true) : ehDigito c = false :=
  letra_nao_digito '(' (by decide) c h

theorem fecha_nao_digito (c : Char) (h : ehFecha c = true) : ehDigito c = false :=
  letra_nao_digito ')' (by decide) c h

theorem hifen_nao_digito (c : Char) (h : ehHifen c = true) : ehDigito c = false :=
  letra_nao_digito '-' (by decide) c h

theorem branco_nao_digito (c : Char) (h : ehBranco c = true) : ehDigito c = false := by
  unfold ehBranco at h
  have h1 := of_decide_eq_true h
  unfold ehDigito
  apply decide_eq_false
  omega

/-- An area code in one of its forms is empty or has two digits. -/
theorem digitos_DDD (a : List (Char → Bool)) (ha : a ∈ formaDDD) (l : List Char)
    (hc : conforma a l = true) : l = [] ∨ (l.filter ehDigito).length = 2 := by
  simp only [formaDDD, List.mem_cons, List.mem_singleton, List.not_mem_nil, or_false] at ha
  rcases ha with rfl | rfl | rfl | rfl | rfl
  · exact Or.inr (conforma_digitos _ [false, true, true, false, false]
      (.cons abre_nao_digito (.cons digito_digito (.cons digito_digito
        (.cons fecha_nao_digito (.cons branco_nao_digito .nil))))) l hc)
  · exact Or.inr (conforma_digitos _ [false, true, true, false]
      (.cons abre_nao_digito (.cons digito_digito (.cons digito_digito
        (.cons fecha_nao_digito .nil)))) l hc)
  · exact Or.inr (conforma_digitos _ [true, true, false]
      (.cons digito_digito (.cons digito_digito (.cons branco_nao_digito .nil))) l hc)
  · exact Or.inr (conforma_digitos _ [true, true]
      (.cons digito_digito (.cons digito_digito .nil)) l hc)
  · exact Or.inl ((conforma_nil_esq l).mp hc)

/-- A number in one of its forms has eight or nine digits. -/
theorem digitos_numero (r : List (Char → Bool)) (hr : r ∈ formaNumero) (l : List Char)
    (hc : conforma r l = true) :
    (l.filter ehDigito).length = 8 ∨ (l.filter ehDigito).length = 9 := by
  simp only [formaNumero, List.mem_cons, List.mem_singleton, List.not_mem_nil, or_false] at hr
  rcases hr with rfl | rfl | rfl | rfl
  · exact Or.inr (conforma_digitos _
      [true, true, true, true, true, false, true, true, true, true]
      (.cons nove_digito (.cons digito_digito (.cons digito_digito (.cons digito_digito
        (.cons digito_digito (.cons hifen_nao_digito (.cons digito_digito
          (.cons digito_digito (.cons digito_digito (.cons digito_digito .nil)))))))))) l hc)
  · exact Or.inr (conforma_digitos _ [true, true, true, true, true, true, true, true, true]
      (.cons nove_digito (.cons digito_digito (.cons digito_digito (.cons digito_digito
        (.cons digito_digito (.cons digito_digito (.cons digito_digito
          (.cons digito_digito (.cons digito_digito .nil))))))))) l hc)
  · exact Or.inl (conforma_digitos _ [true, true, true, true, false, true, true, true, true]
      (.cons digito_digito (.cons digito_digito (.cons digito_digito (.cons digito_digito
        (.cons hifen_nao_digito (.cons digito_digito (.cons digito_digito
          (.cons digito_digito (.cons digito_digito .nil))))))))) l hc)
  · exact Or.inl (conforma_digitos _ [true, true, true, true, true, true, true, true]
      (.cons digito_digito (.cons digito_digito (.cons digito_digito (.cons digito_digito
        (.cons digito_digito (.cons digito_digito (.cons digito_digito
          (.cons digito_digito .nil)))))))) l hc)

/-- A text of the phone shape is an area code, empty or with two digits,
followed by a number with eight or nine digits. -/
theorem forma_partes (t : String) (h : temFormaTelefone t = true) :
    ∃ l1 l2 r, t.toList = l1 ++ l2 ∧ r ∈ formaNumero ∧ conforma r l2 = true
      ∧ (l1 = [] ∨ (l1.filter ehDigito).length = 2)
      ∧ ((l2.filter ehDigito).length = 8 ∨ (l2.filter ehDigito).length = 9) := by
  simp only [temFormaTelefone, List.any_eq_true] at h
  obtain ⟨a, ha, r, hr, hc⟩ := h
  obtain ⟨l1, l2, he, h1, h2⟩ := (conforma_append a r _).mp hc
  exact ⟨l1, l2, r, he, hr, h2, digitos_DDD a ha l1 h1, digitos_numero r hr l2 h2⟩

/-- A text of the phone shape has 8 or 9 digits when it is a number without
area code, and 10 or 11 otherwise. -/
theorem forma_digitos (t : String) (h : temFormaTelefone t = true) :
    (semDDD t = true ∧ (contarDigitos t = 8 ∨ contarDigitos t = 9))
      ∨ (contarDigitos t = 10 ∨ contarDigitos t = 11) := by
  obtain ⟨l1, l2, r, he, hr, hc, h1, h2⟩ := forma_partes t h
  unfold contarDigitos
  rw [he, List.filter_append, List.length_append]
  rcases h1 with rfl | h1
  · left
    refine ⟨?_, by simpa using h2⟩
    simp only [semDDD, List.any_eq_true]
    exact ⟨r, hr, by rw [he]; simpa using hc⟩
  · right
    omega

theorem semDDD_forma (t : String) (h : semDDD t = true) :
    temFormaTelefone t = true ∧ (contarDigitos t = 8 ∨ contarDigitos t = 9) := by
  simp only [semDDD, List.any_eq_true] at h
  obtain ⟨r, hr, hc⟩ := h
  refine ⟨?_, digitos_numero r hr _ hc⟩
  simp only [temFormaTelefone, List.any_eq_true]
  exact ⟨[], by simp [formaDDD], r, hr, by simpa using hc⟩

/-- Decimal digits take one byte each. -/
theorem goLen_digitos (l : List Char) :
    goLen (String.mk (l.filter ehDigito)) = (l.filter ehDigito).length := by
  unfold goLen goBytes
  show ((l.filter ehDigito).flatMap utf8Bytes).length = _
  induction l with
  | nil => rfl
  | cons c cs ih =>
    by_cases hc : ehDigito c = true
    · have h1 := of_decide_eq_true hc
      have hu : utf8Bytes c = [c.toNat] := by
        unfold utf8Bytes
        simp only []
        rw [if_pos (by omega)]
      simp [List.filter, hc, hu, ih]
    · simp only [Bool.not_eq_true] at hc
      simp [List.filter, hc, ih]

/-- The body of `ValidarTelefone` in terms of the phone shape and the number
of digits. -/
theorem retornoValidarTelefone_forma (t : String) :
    retornoValidarTelefone t =
      if t = "" then Retorno.erro "TELEFONE_VAZIO" "Telefone não pode estar vazio"
      else if temFormaTelefone t = false then
        Retorno.erroDetalhes "TELEFONE_FORMATO_INVALIDO" "Formato de telefone inválido"
          ("Telefone fornecido: " ++ t
            ++ " - Formato esperado: (11) 99999-9999 ou 11999999999")
      else if contarDigitos t < 10 ∨ contarDigitos t > 11 then
        Retorno.erroDetalhes "TELEFONE_TAMANHO_INVALIDO" "Telefone deve ter 10 ou 11 dígitos"
          ("Telefone fornecido: " ++ t)
      else Retorno.nulo := by
  unfold retornoValidarTelefone
  simp only [casaTudo_telefone, goLen_digitos, contarDigitos]
  cases temFormaTelefone t <;> simp

theorem forma_vazia : temFormaTelefone "" = false := by decide

theorem validarTelefone_nil_iff (g : Heap) (t : String) :
    ValidarTelefone g t = some (g, Erro.nil) ↔
      temFormaTelefone t = true ∧ (contarDigitos t = 10 ∨ contarDigitos t = 11) := by
  rw [ValidarTelefone, executar_eq_nil _ _ _ (by
    intro c m d e h
    simp only [retornoValidarTelefone] at h
    split_ifs at h)]
  rw [retornoValidarTelefone_forma]
  simp only [and_true]
  by_cases hne : t = ""
  · subst hne
    simp [forma_vazia]
  · cases hf : temFormaTelefone t
    · simp [hne]
    · by_cases hd : contarDigitos t < 10 ∨ contarDigitos t > 11
      · simp only [hne, hd, if_true, if_false, reduceCtorEq, Bool.true_eq_false, true_and,
          false_iff]
        omega
      · simp only [hne, hd, if_false, Bool.true_eq_false, true_and, true_iff]
        omega

theorem codigo_telefone_tamanho (g : Heap) (t : String) :
    codigoDaFalha (ValidarTelefone g t) = some "TELEFONE_TAMANHO_INVALIDO" ↔
      temFormaTelefone t = true ∧ (contarDigitos t < 10 ∨ contarDigitos t > 11) := by
  rw [ValidarTelefone, retornoValidarTelefone_forma]
  by_cases hne : t = ""
  · subst hne
    simp only [if_true, codigo_erro, forma_vazia, Bool.false_eq_true, false_and, iff_false]
    decide
  · cases hf : temFormaTelefone t
    · simp only [hne, if_false, if_true, codigo_erroDetalhes, Bool.false_eq_true, false_and,
        iff_false]
      decide
    · by_cases hd : contarDigitos t < 10 ∨ contarDigitos t > 11
      · simp [hne, hd, codigo_erroDetalhes]
      · simp [hne, hd, codigoDaFalha, Retorno.executar]

end Goerror

/-- C31: `ValidarTelefone(t)` returns `nil` exactly when `t` has the phone
shape (an area code `(dd)` or `dd`, with or without one whitespace character
after it, or none; an optional `9`; four digits; an optional `-`; four
digits) and contains 10 or 11 decimal digits. The empty string fails with
`TELEFONE_VAZIO`, any other text without the shape with
`TELEFONE_FORMATO_INVALIDO`, and a text of the shape with another number of
digits with `TELEFONE_TAMANHO_INVALIDO`. -/
theorem c31_telefone_forma_e_tamanho (g : Goerror.Heap) (t : String) :
    (Goerror.ValidarTelefone g t = some (g, Erro.nil) ↔
      Goerror.temFormaTelefone t = true
        ∧ (Goerror.contarDigitos t = 10 ∨ Goerror.contarDigitos t = 11))
    ∧ Goerror.regexTelefone.casaTudo t = Goerror.temFormaTelefone t
    ∧ Goerror.codigoDaFalha (Goerror.ValidarTelefone g "") = some "TELEFONE_VAZIO"
    ∧ (t ≠ "" → Goerror.temFormaTelefone t = false →
        Goerror.codigoDaFalha (Goerror.ValidarTelefone g t) = some "TELEFONE_FORMATO_INVALIDO")
    ∧ (Goerror.temFormaTelefone t = true →
        ¬ (Goerror.contarDigitos t = 10 ∨ Goerror.contarDigitos t = 11) →
        Goerror.codigoDaFalha (Goerror.ValidarTelefone g t) = some "TELEFONE_TAMANHO_INVALIDO")
    ∧ Goerror.ValidarTelefone g "(11) 99999-9999" = some (g, Erro.nil)
    ∧ Goerror.ValidarTelefone g "11999999999" = some (g, Erro.nil)
    ∧ Goerror.ValidarTelefone g "1133334444" = some (g, Erro.nil)
    ∧ Goerror.codigoDaFalha (Goerror.ValidarTelefone g "99999-9999")
        = some "TELEFONE_TAMANHO_INVALIDO"
    ∧ Goerror.codigoDaFalha (Goerror.ValidarTelefone g "(11)  99999-9999")
        = some "TELEFONE_FORMATO_INVALIDO" := by
  have hforma : ∀ u : String, u ≠ "" → Goerror.temFormaTelefone u = false →
      Goerror.codigoDaFalha (Goerror.ValidarTelefone g u)
        = some "TELEFONE_FORMATO_INVALIDO" := by
    intro u hne hf
    rw [Goerror.ValidarTelefone, Goerror.retornoValidarTelefone_forma]
    simp only [hne, hf, if_false, if_true, Goerror.codigo_erroDetalhes]
  refine ⟨Goerror.validarTelefone_nil_iff g t, Goerror.casaTudo_telefone t, ?_, hforma t, ?_,
    ?_, ?_, ?_, ?_, ?_⟩
  · rw [Goerror.ValidarTelefone, Goerror.retornoValidarTelefone_forma]
    simp only [if_true, Goerror.codigo_erro]
  · intro hf hd
    exact (Goerror.codigo_telefone_tamanho g t).mpr ⟨hf, by omega⟩
  · exact (Goerror.validarTelefone_nil_iff g _).mpr (by decide)
  · exact (Goerror.validarTelefone_nil_iff g _).mpr (by decide)
  · exact (Goerror.validarTelefone_nil_iff g _).mpr (by decide)
  · exact (Goerror.codigo_telefone_tamanho g _).mpr (by decide)
  · exact hforma _ (by decide) (by decide)

/-- C35: every text that matches `regexTelefone` contains between 8 and 11
decimal digits, so the comparison `len(telefoneLimpo) > 11` of
`ValidarTelefone` is never true after the match, and
`TELEFONE_TAMANHO_INVALIDO` is returned exactly for the texts of the phone
shape with 8 or 9 digits, which are the numbers written without an area
code. -/
theorem c35_telefone_digitos (g : Goerror.Heap) (t : String) :
    (Goerror.regexTelefone.casaTudo t = true →
      8 ≤ Goerror.contarDigitos t ∧ Goerror.contarDigitos t ≤ 11)
    ∧ (Goerror.regexTelefone.casaTudo t = true →
        ¬ Goerror.goLen (String.mk (t.toList.filter Goerror.ehDigito)) > 11)
    ∧ (Goerror.codigoDaFalha (Goerror.ValidarTelefone g t) = some "TELEFONE_TAMANHO_INVALIDO" ↔
        Goerror.regexTelefone.casaTudo t = true
          ∧ (Goerror.contarDigitos t = 8 ∨ Goerror.contarDigitos t = 9))
    ∧ (Goerror.regexTelefone.casaTudo t = true
          ∧ (Goerror.contarDigitos t = 8 ∨ Goerror.contarDigitos t = 9) ↔
        Goerror.semDDD t = true)
    ∧ Goerror.codigoDaFalha (Goerror.ValidarTelefone g "3333-4444")
        = some "TELEFONE_TAMANHO_INVALIDO"
    ∧ Goerror.codigoDaFalha (Goerror.ValidarTelefone g "933334444")
        = some "TELEFONE_TAMANHO_INVALIDO" := by
  have hd : Goerror.regexTelefone.casaTudo t = true →
      8 ≤ Goerror.contarDigitos t ∧ Goerror.contarDigitos t ≤ 11 := by
    intro h
    rw [Goerror.casaTudo_telefone] at h
    rcases Goerror.forma_digitos t h with ⟨_, h1⟩ | h1 <;> omega
  refine ⟨hd, ?_, ?_, ?_, ?_, ?_⟩
  · intro h
    rw [Goerror.goLen_digitos]
    have := (hd h).2
    unfold Goerror.contarDigitos at this
    omega
  · rw [Goerror.codigo_telefone_tamanho, Goerror.casaTudo_telefone]
    constructor
    · rintro ⟨hf, h1⟩
      have := hd (by rw [Goerror.casaTudo_telefone]; exact hf)
      exact ⟨hf, by omega⟩
    · rintro ⟨hf, h1⟩
      exact ⟨hf, by omega⟩
  · rw [Goerror.casaTudo_telefone]
    constructor
    · rintro ⟨hf, h1⟩
      rcases Goerror.forma_digitos t hf with ⟨hs, _⟩ | h2
      · exact hs
      · omega
    · exact Goerror.semDDD_forma t
  · exact (Goerror.codigo_telefone_tamanho g _).mpr (by decide)
  · exact (Goerror.codigo_telefone_tamanho g _).mpr (by decide)


namespace Errors

/-- What `CriarErroBancoOperacao` returns, for every cause: a fresh struct. -/
theorem criarErroBancoOperacao_eq (h : Heap) (agora : Nat) (operacao tabela : String)
    (causa : Erro) :
    CriarErroBancoOperacao h agora operacao tabela causa
      = some (h ++ [({ Tipo := "DATABASE_ERROR", Codigo := "DB_OPERATION_ERROR",
                       Mensagem := "Erro na operação de " ++ operacao,
                       Detalhes := "Tabela: " ++ tabela, StatusHTTP := 500,
                       Timestamp := agora, CausaRaiz := causa } : ErroAPI)],
              Ponteiro.addr h.length) := by
  have hd : "Tabela: " ++ tabela ≠ "" := Goerror.concat_nao_vazia _ _ (by decide)
  simp [CriarErroBancoOperacao, NovoErroBancoDados, novoErro, ComDetalhes, ComCausa,
    set_concat_length, TipoBancoDados, StatusInternalServerError, hd]

/-- After `ComCausa` returns, `Unwrap` gives the cause that was passed. -/
theorem unwrap_comCausa (h h1 : Heap) (e p : Ponteiro) (c : Erro)
    (hc : ComCausa h e c = some (h1, p)) : Unwrap h1 p = some c := by
  cases e with
  | nil => simp [ComCausa] at hc
  | addr a =>
    simp only [ComCausa] at hc
    cases hv : h[a]? with
    | none => simp [hv] at hc
    | some v =>
      have ha : a < h.length := by
        by_contra hn
        rw [List.getElem?_eq_none (by omega)] at hv
        exact absurd hv (by simp)
      simp only [hv] at hc
      split_ifs at hc with hcond
      · cases hs : chamarError (h.set a { v with CausaRaiz := c }) c with
        | none => simp [hs] at hc
        | some s =>
          simp only [hs, Option.some.injEq, Prod.mk.injEq] at hc
          obtain ⟨rfl, rfl⟩ := hc
          simp [Unwrap, deref, ha]
      · simp only [Option.some.injEq, Prod.mk.injEq] at hc
        obtain ⟨rfl, rfl⟩ := hc
        simp [Unwrap, deref, ha]

end Errors

/-- C32, evaluated on `src/errors.go`. A nil `*ErroAPI` boxed in the
interface is an error value that is not nil: given as cause to a freshly
constructed error it passes the test `causa != nil`, `causa.Error()` panics
on the nil receiver, and `ComCausa` does not return, so there is nothing to
unwrap. On a receiver whose detail is set the same cause is attached and
`Unwrap` returns it. `ComCausa` on a pointer to a struct returns exactly when
the cause is nil, a detail is set or `c.Error()` returns, and whenever it
returns `Unwrap` of the result is the cause that was passed. A freshly
constructed error unwraps to nil, and for every unclassified error
`ConverterErro(err).Unwrap()` is `err`. -/
theorem c32_unwrap_causa :
    Erro.api Ponteiro.nil ≠ Erro.nil
    ∧ Errors.ComCausa (Errors.NovoErroValidacao [] 1 "C" "m").1
        (Errors.NovoErroValidacao [] 1 "C" "m").2 (Erro.api Ponteiro.nil) = none
    ∧ (∀ (k : Errors.Construtor) (h : Errors.Heap) agora codigo mensagem,
        Errors.ComCausa (k.aplicar h agora codigo mensagem).1
          (k.aplicar h agora codigo mensagem).2 (Erro.api Ponteiro.nil) = none)
    ∧ (∀ (h : Errors.Heap) (a : Nat) (v : Errors.ErroAPI), h[a]? = some v →
        v.Detalhes ≠ "" →
        ∃ h1, Errors.ComCausa h (Ponteiro.addr a) (Erro.api Ponteiro.nil)
            = some (h1, Ponteiro.addr a)
          ∧ Errors.Unwrap h1 (Ponteiro.addr a) = some (Erro.api Ponteiro.nil))
    ∧ (∀ (h : Errors.Heap) (a : Nat) (v : Errors.ErroAPI) (c : Erro), h[a]? = some v →
        ((∃ h1, Errors.ComCausa h (Ponteiro.addr a) c = some (h1, Ponteiro.addr a)
            ∧ Errors.Unwrap h1 (Ponteiro.addr a) = some c)
          ↔ c = Erro.nil ∨ v.Detalhes ≠ "" ∨ (Errors.chamarError h c).isSome = true)
        ∧ (Errors.ComCausa h (Ponteiro.addr a) c = none
          ↔ ¬ (c = Erro.nil ∨ v.Detalhes ≠ "" ∨ (Errors.chamarError h c).isSome = true)))
    ∧ (∀ (h h1 : Errors.Heap) (e p : Ponteiro) (c : Erro),
        Errors.ComCausa h e c = some (h1, p) → Errors.Unwrap h1 p = some c)
    ∧ (∀ (h : Errors.Heap) (a : Nat) (v : Errors.ErroAPI) ident msg, h[a]? = some v →
        ∃ h1, Errors.ComCausa h (Ponteiro.addr a) (Erro.outro ident msg)
            = some (h1, Ponteiro.addr a)
          ∧ Errors.Unwrap h1 (Ponteiro.addr a) = some (Erro.outro ident msg))
    ∧ (∀ (k : Errors.Construtor) (h : Errors.Heap) agora codigo mensagem,
        Errors.Unwrap (k.aplicar h agora codigo mensagem).1 (k.aplicar h agora codigo mensagem).2
          = some Erro.nil)
    ∧ (∀ (h : Errors.Heap) agora ident msg, ∃ h1 p,
        Errors.ConverterErro h agora (Erro.outro ident msg) = some (h1, p)
          ∧ Errors.Unwrap h1 p = some (Erro.outro ident msg)) := by
  have hret : ∀ (h : Errors.Heap) (a : Nat) (v : Errors.ErroAPI) (c : Erro), h[a]? = some v →
      (c = Erro.nil ∨ v.Detalhes ≠ "" ∨ (Errors.chamarError h c).isSome = true) →
      ∃ h1, Errors.ComCausa h (Ponteiro.addr a) c = some (h1, Ponteiro.addr a)
        ∧ Errors.Unwrap h1 (Ponteiro.addr a) = some c := by
    intro h a v c hv hc
    by_cases h0 : c = Erro.nil ∨ v.Detalhes ≠ ""
    · have e := Errors.comCausa_sem_detalhe h a v c hv h0
      exact ⟨_, e, Errors.unwrap_comCausa _ _ _ _ _ e⟩
    · have h1 : c ≠ Erro.nil := fun x => h0 (Or.inl x)
      have h2 : v.Detalhes = "" := by
        by_contra x
        exact h0 (Or.inr x)
      have h3 : (Errors.chamarError h c).isSome = true := by
        rcases hc with x | x | x
        · exact absurd x h1
        · exact absurd h2 x
        · exact x
      obtain ⟨s, hs⟩ := Option.isSome_iff_exists.mp h3
      have e := Errors.comCausa_com_detalhe h a v c s hv h2 h1 hs
      exact ⟨_, e, Errors.unwrap_comCausa _ _ _ _ _ e⟩
  have hnao : ∀ (h : Errors.Heap) (a : Nat) (v : Errors.ErroAPI) (c : Erro), h[a]? = some v →
      ¬ (c = Erro.nil ∨ v.Detalhes ≠ "" ∨ (Errors.chamarError h c).isSome = true) →
      Errors.ComCausa h (Ponteiro.addr a) c = none := by
    intro h a v c hv hn
    have h1 : c ≠ Erro.nil := fun x => hn (Or.inl x)
    have h2 : v.Detalhes = "" := by
      by_contra x
      exact hn (Or.inr (Or.inl x))
    have h3 : Errors.chamarError h c = none := by
      cases hx : Errors.chamarError h c with
      | none => rfl
      | some s => exact absurd (Or.inr (Or.inr (by simp [hx]))) hn
    have h4 := (Errors.chamarError_set_causa h a v c c hv).trans h3
    simp only [h2] at h4
    simp [Errors.ComCausa, hv, h2, h1, h4]
  have hfresco : ∀ (k : Errors.Construtor) (h : Errors.Heap) agora codigo mensagem,
      Errors.ComCausa (k.aplicar h agora codigo mensagem).1
        (k.aplicar h agora codigo mensagem).2 (Erro.api Ponteiro.nil) = none := by
    intro k h agora codigo mensagem
    obtain ⟨st, _, hk⟩ := Errors.aplicar_eq_novoErro k
    rw [hk]
    exact Errors.comCausa_ponteiro_nil _ h.length
      { Tipo := k.tipo, Codigo := codigo, Mensagem := mensagem, Detalhes := "",
        StatusHTTP := st, Timestamp := agora, CausaRaiz := Erro.nil }
      (by simp [Errors.novoErro]) rfl
  refine ⟨by decide, hfresco Errors.Construtor.validacao [] 1 "C" "m", hfresco, ?_, ?_,
    fun h h1 e p c hc => Errors.unwrap_comCausa h h1 e p c hc, ?_, ?_, ?_⟩
  · intro h a v hv hd
    exact hret h a v _ hv (Or.inr (Or.inl hd))
  · intro h a v c hv
    constructor
    · constructor
      · rintro ⟨h1, hc, _⟩
        by_contra hn
        rw [hnao h a v c hv hn] at hc
        exact absurd hc (by simp)
      · exact hret h a v c hv
    · constructor
      · intro hn hc
        obtain ⟨h1, e, _⟩ := hret h a v c hv hc
        rw [hn] at e
        exact absurd e (by simp)
      · exact hnao h a v c hv
  · intro h a v ident msg hv
    exact hret h a v _ hv (Or.inr (Or.inr rfl))
  · intro k h agora codigo mensagem
    obtain ⟨st, _, hk⟩ := Errors.aplicar_eq_novoErro k
    rw [hk, Errors.Unwrap, Errors.deref_novoErro]
    rfl
  · intro h agora ident msg
    refine ⟨_, _, Errors.converterErro_outro h agora ident msg, ?_⟩
    simp [Errors.Unwrap, Errors.deref]

/-- C33: for all strings `operacao`, `tabela` and every error `causa`,
`CriarErroBancoOperacao(operacao, tabela, causa)` returns a pointer to a fresh
struct of the database category with status 500, code `DB_OPERATION_ERROR`,
`Detalhes` equal to `"Tabela: " + tabela` and cause `causa`: the detail set
before the cause is kept, and `causa.Error()` is never called. -/
theorem c33_criarErroBancoOperacao (h : Errors.Heap) (agora : Nat)
    (operacao tabela : String) (causa : Erro) :
    ∃ h1 p v, Errors.CriarErroBancoOperacao h agora operacao tabela causa = some (h1, p)
      ∧ p = Ponteiro.addr h.length
      ∧ Errors.deref h1 p = some v
      ∧ v.Tipo = Errors.TipoBancoDados
      ∧ v.StatusHTTP = 500
      ∧ v.Codigo = "DB_OPERATION_ERROR"
      ∧ v.Mensagem = "Erro na operação de " ++ operacao
      ∧ v.Detalhes = "Tabela: " ++ tabela
      ∧ v.Detalhes ≠ ""
      ∧ v.CausaRaiz = causa
      ∧ Errors.Unwrap h1 p = some causa
      ∧ Errors.EhErroBancoDados h1 (Erro.api p) = some true
      ∧ Errors.ObterStatusHTTP h1 (Erro.api p) = some 500
      ∧ (∀ a, a < h.length → h1[a]? = h[a]?) := by
  refine ⟨_, _, { Tipo := "DATABASE_ERROR", Codigo := "DB_OPERATION_ERROR",
                  Mensagem := "Erro na operação de " ++ operacao,
                  Detalhes := "Tabela: " ++ tabela, StatusHTTP := 500,
                  Timestamp := agora, CausaRaiz := causa },
    Errors.criarErroBancoOperacao_eq h agora operacao tabela causa, rfl,
    by simp [Errors.deref], rfl, rfl, rfl, rfl, rfl,
    Goerror.concat_nao_vazia _ _ (by decide), rfl, by simp [Errors.Unwrap, Errors.deref],
    by simp [Errors.EhErroBancoDados, Errors.ehErroDoTipo, Errors.deref, Errors.TipoBancoDados],
    by simp [Errors.ObterStatusHTTP, Errors.deref], ?_⟩
  intro a ha
  rw [List.getElem?_append_left ha]

namespace Errors

/-- Every struct of a reachable heap has the category of one of the eleven
constructors. -/
theorem tipo_de_alcancavel (h : Heap) (r : Alcancavel h) (v : ErroAPI) (hv : v ∈ h) :
    ∃ k : Construtor, v.Tipo = k.tipo := by
  have ht := tabela_de_alcancavel h r v hv
  by_cases h1 : v.Tipo = "VALIDATION_ERROR"
  · exact ⟨Construtor.validacao, h1⟩
  by_cases h2 : v.Tipo = "DATABASE_ERROR"
  · exact ⟨Construtor.bancoDados, h2⟩
  by_cases h3 : v.Tipo = "CONNECTION_ERROR"
  · exact ⟨Construtor.conexao, h3⟩
  by_cases h4 : v.Tipo = "NOT_FOUND_ERROR"
  · exact ⟨Construtor.naoEncontrado, h4⟩
  by_cases h5 : v.Tipo = "AUTHENTICATION_ERROR"
  · exact ⟨Construtor.autenticacao, h5⟩
  by_cases h6 : v.Tipo = "AUTHORIZATION_ERROR"
  · exact ⟨Construtor.autorizacao, h6⟩
  by_cases h7 : v.Tipo = "CONFLICT_ERROR"
  · exact ⟨Construtor.conflito, h7⟩
  by_cases h8 : v.Tipo = "INTERNAL_ERROR"
  · exact ⟨Construtor.interno, h8⟩
  by_cases h9 : v.Tipo = "RATE_LIMIT_ERROR"
  · exact ⟨Construtor.limiteExcedido, h9⟩
  by_cases h10 : v.Tipo = "METHOD_ERROR"
  · exact ⟨Construtor.metodoInvalido, h10⟩
  by_cases h11 : v.Tipo = "FILE_ERROR"
  · exact ⟨Construtor.arquivo, h11⟩
  rw [tabelaStatus, if_neg h1, if_neg h2, if_neg h3, if_neg h4, if_neg h5, if_neg h6,
    if_neg h7, if_neg h8, if_neg h9, if_neg h10, if_neg h11] at ht
  cases ht

/-- A predicate answers true exactly on a pointer to a struct of its
category. -/
theorem predicado_verdadeiro (k : Construtor) (h : Heap) (err : Erro) :
    k.predicado h err = some true ↔
      ∃ p v, err = Erro.api p ∧ deref h p = some v ∧ v.Tipo = k.tipo := by
  rw [predicado_eq]
  cases err with
  | nil => simp [ehErroDoTipo]
  | outro i m => simp [ehErroDoTipo]
  | api p =>
    cases hd : deref h p with
    | none => simp [ehErroDoTipo, hd]
    | some v => simp [ehErroDoTipo, hd]

end Errors

/-- C34: the eleven predicates `EhErroX` of `src/errors.go` partition the
classified errors. For every heap and every error at most one of the eleven
answers true; for every struct of a heap reached through the eleven
constructors, `ConverterErro`, `ComDetalhes` and `ComCausa`, the error that
points to it makes exactly one of them answer true and the other ten answer
false. On a nil error and on a foreign error all eleven answer false. -/
theorem c34_predicados_particao (h : Errors.Heap) (err : Erro) :
    (∀ k1 k2 : Errors.Construtor, k1.predicado h err = some true →
        k2.predicado h err = some true → k1 = k2)
    ∧ (∀ a v, Errors.Alcancavel h → h[a]? = some v →
        ∃ k : Errors.Construtor, k.predicado h (Erro.api (Ponteiro.addr a)) = some true
          ∧ ∀ k2 : Errors.Construtor, k2 ≠ k →
              k2.predicado h (Erro.api (Ponteiro.addr a)) = some false)
    ∧ (∀ (k k2 : Errors.Construtor) agora codigo mensagem, Errors.Alcancavel h →
        Errors.Alcancavel (k.aplicar h agora codigo mensagem).1
          ∧ (k2.predicado (k.aplicar h agora codigo mensagem).1
                (Erro.api (k.aplicar h agora codigo mensagem).2) = some (decide (k2 = k))))
    ∧ (∀ (k : Errors.Construtor) ident msg, k.predicado h Erro.nil = some false
        ∧ k.predicado h (Erro.outro ident msg) = some false) := by
  refine ⟨?_, ?_, ?_, ?_⟩
  · intro k1 k2 h1 h2
    obtain ⟨p, v, he, hd, ht⟩ := (Errors.predicado_verdadeiro k1 h err).mp h1
    obtain ⟨p2, v2, he2, hd2, ht2⟩ := (Errors.predicado_verdadeiro k2 h err).mp h2
    rw [he] at he2
    cases he2
    rw [hd] at hd2
    cases hd2
    exact (Errors.tipo_injetiva k1 k2).mp (ht.symm.trans ht2)
  · intro a v r hv
    obtain ⟨k, hk⟩ := Errors.tipo_de_alcancavel h r v (List.getElem?_mem hv)
    refine ⟨k, (Errors.predicado_verdadeiro k h _).mpr ⟨_, v, rfl, hv, hk⟩, ?_⟩
    intro k2 hne
    rw [Errors.predicado_eq]
    have : ¬ v.Tipo = k2.tipo := by
      intro x
      exact hne ((Errors.tipo_injetiva k2 k).mp (x.symm.trans hk))
    simp [Errors.ehErroDoTipo, Errors.deref, hv, this]
  · intro k k2 agora codigo mensagem r
    refine ⟨Errors.Alcancavel.construtor k h agora codigo mensagem r, ?_⟩
    obtain ⟨st, _, hk⟩ := Errors.aplicar_eq_novoErro k
    rw [hk, Errors.predicado_eq]
    simp only [Errors.ehErroDoTipo, Errors.deref_novoErro, Option.map_some']
    congr 1
    apply decide_eq_decide.mpr
    rw [Errors.tipo_injetiva, eq_comm]
  · intro k ident msg
    rw [Errors.predicado_eq]
    exact ⟨rfl, rfl⟩

end GoErro
